import Mathlib

/-! embeddedRTPS: reader, writer and participant-discovery paths

A shallow embedding of `StatefulReaderT` (StatefulReader.tpp), `StatelessWriter`
(StatelessWriter.cpp), `ThreadPool` (ThreadPool.cpp), `MessageFactory`
(MessageFactory.h) and `SPDPAgent` (SPDPAgent.cpp), the latter with the
serialization buffer it writes the participant announcement into.

Conventions.
* Objects become records, member functions become functions returning the
  new record (and the return value, when there is one).
* Calls that leave the program (the sample callback, `sendPacket` of the
  transport) are recorded in a log kept inside the record.
* Bytes, ports and counters are `Nat`/`Int`; a wrap-around is written out
  where the C++ type has one.
* The field `prefix` of `Guid` is spelled `guidPrefix`, as in `GUID_t` of
  types.h.
* A message buffer is the list of the items serialized or appended to it; the
  serialization buffer of SPDPAgent is modelled byte by byte.
-/

namespace rtps

/-! ## Common types (types.h) -/

/-- Entity kinds, `EntityKind_t` of types.h. -/
inductive EntityKind_t where
  | USER_DEFINED_UNKNOWN
  | USER_DEFINED_WRITER_WITH_KEY
  | USER_DEFINED_WRITER_WITHOUT_KEY
  | USER_DEFINED_READER_WITHOUT_KEY
  | USER_DEFINED_READER_WITH_KEY
  | BUILD_IN_UNKNOWN
  | BUILD_IN_PARTICIPANT
  | BUILD_IN_WRITER_WITH_KEY
  | BUILD_IN_WRITER_WITHOUT_KEY
  | BUILD_IN_READER_WITHOUT_KEY
  | BUILD_IN_READER_WITH_KEY
  | VENDOR_SPEC_UNKNOWN
  | VENDOR_SPEC_PARTICIPANT
  | VENDOR_SPEC_WRITER_WITH_KEY
  | VENDOR_SPEC_WRITER_WITHOUT_KEY
  | VENDOR_SPEC_READER_WITHOUT_KEY
  | VENDOR_SPEC_READER_WITH_KEY
deriving DecidableEq, Repr

/-- Topic kinds, `TopicKind_t` of types.h. -/
inductive TopicKind_t where
  | NO_KEY
  | WITH_KEY
deriving DecidableEq, Repr

/-- Change kinds. types.h lists the three live kinds; StatelessWriter.cpp also
uses `ChangeKind_t::INVALID`, the fourth kind of the data model. -/
inductive ChangeKind_t where
  | INVALID
  | ALIVE
  | NOT_ALIVE_DISPOSED
  | NOT_ALIVE_UNREGISTERED
deriving DecidableEq, Repr

/-- Locator kinds, `LocatorKind_t` of types.h. -/
inductive LocatorKind_t where
  | LOCATOR_KIND_INVALID
  | LOCATOR_KIND_RESERVED
  | LOCATOR_KIND_UDPv4
  | LOCATOR_KIND_UDPv6
deriving DecidableEq, Repr

/-- The 12-byte participant identifier, `GuidPrefix_t`. -/
structure GuidPrefix_t where
  id : List Nat
deriving DecidableEq, Repr

/-- The 3-byte key and the kind of an endpoint, `EntityId_t`. -/
structure EntityId_t where
  entityKey : List Nat
  entityKind : EntityKind_t
deriving DecidableEq, Repr

/-- A participant prefix and an entity id, `GUID_t`. -/
structure Guid where
  guidPrefix : GuidPrefix_t
  entityId : EntityId_t
deriving DecidableEq, Repr

/-- The vendor id, `VendorId_t`. -/
structure VendorId_t where
  vendorId : List Nat
deriving DecidableEq, Repr

/-- The protocol version, `ProtocolVersion_t`. -/
structure ProtocolVersion_t where
  major : Nat
  minor : Nat
deriving DecidableEq, Repr

/-- A sequence number, `SequenceNumber_t`: `high` is an `int32_t`, `low` a
`uint32_t`. -/
structure SequenceNumber_t where
  high : Int
  low : Nat
deriving DecidableEq, Repr

/-- A counter, `Count_t`: `value` is an `int32_t`. -/
structure Count_t where
  value : Int
deriving DecidableEq, Repr

/-- A locator, `Locator_t`: `port` is a `uint32_t`, `address` has 16 bytes. -/
structure Locator where
  kind : LocatorKind_t
  port : Nat
  address : List Nat
deriving DecidableEq, Repr

def ENTITYID_SEDP_BUILTIN_PUBLICATIONS_WRITER : EntityId_t :=
  { entityKey := [0, 0, 3], entityKind := .BUILD_IN_WRITER_WITH_KEY }

def ENTITYID_SEDP_BUILTIN_PUBLICATIONS_READER : EntityId_t :=
  { entityKey := [0, 0, 3], entityKind := .BUILD_IN_READER_WITH_KEY }

def ENTITYID_SEDP_BUILTIN_SUBSCRIPTIONS_WRITER : EntityId_t :=
  { entityKey := [0, 0, 4], entityKind := .BUILD_IN_WRITER_WITH_KEY }

def ENTITYID_SEDP_BUILTIN_SUBSCRIPTIONS_READER : EntityId_t :=
  { entityKey := [0, 0, 4], entityKind := .BUILD_IN_READER_WITH_KEY }

def SEQUENCENUMBER_UNKNOWN : SequenceNumber_t := { high := -1, low := 0 }

def PROTOCOLVERSION : ProtocolVersion_t := { major := 2, minor := 2 }

/-- Two's-complement wrap of an integer into the range of `int32_t`. -/
def wrapInt32 (x : Int) : Int := (x + 2 ^ 31) % 2 ^ 32 - 2 ^ 31

/-- The signed 64-bit value a sequence number stands for. -/
def SequenceNumber_t.value (sn : SequenceNumber_t) : Int := sn.high * 2 ^ 32 + sn.low

/-- The sequence number with the given value, for `0 ≤ n < 2 ^ 63`. -/
def SequenceNumber_t.ofNat (n : Nat) : SequenceNumber_t :=
  { high := ((n / 2 ^ 32 : Nat) : Int), low := n % 2 ^ 32 }

/-- The fields are in the range of their C++ types. -/
def SequenceNumber_t.InRange (sn : SequenceNumber_t) : Prop :=
  -(2 ^ 31 : Int) ≤ sn.high ∧ sn.high < 2 ^ 31 ∧ sn.low < 2 ^ 32

/-- Modelled from the spec: `operator++` of `SequenceNumber_t` (the header
declaring it is not among the sources). The number is a 64-bit value kept as
(high, low): `low` is incremented modulo 2^32 and carries into `high`. -/
def SequenceNumber_t.succ (sn : SequenceNumber_t) : SequenceNumber_t :=
  let low := (sn.low + 1) % 2 ^ 32
  { high := if low = 0 then wrapInt32 (sn.high + 1) else sn.high, low := low }

/-- The IPv4 address of a locator: its last four address bytes, as
StatelessWriter.cpp reads them (`address[12]` .. `address[15]`). -/
def Locator.getIp4Address (l : Locator) : List Nat :=
  [l.address.getD 12 0, l.address.getD 13 0, l.address.getD 14 0, l.address.getD 15 0]

/-- Build-time configuration (`Config::VENDOR_ID`, `IS_LITTLE_ENDIAN`), taken
as a parameter: the configuration header is not among the sources. -/
structure Config where
  VENDOR_ID : VendorId_t
  IS_LITTLE_ENDIAN : Bool
deriving DecidableEq, Repr

/-! ## Messages (MessageFactory.h) -/

/-- Submessage kinds. -/
inductive SubmessageKind where
  | ACKNACK
  | HEARTBEAT
  | INFO_TS
  | INFO_DST
  | DATA
deriving DecidableEq, Repr

/-- The message header written by `addHeader`. -/
structure Header where
  protocolName : List Nat
  protocolVersion : ProtocolVersion_t
  vendorId : VendorId_t
  guidPrefix : GuidPrefix_t
deriving DecidableEq, Repr

/-- The 4-byte submessage header; `submessageLength` is a `uint16_t`. -/
structure SubmessageHeader where
  submessageId : SubmessageKind
  flags : Nat
  submessageLength : Nat
deriving DecidableEq, Repr

/-- A set of sequence numbers: base, number of bits, 32-bit bitmap words. -/
structure SequenceNumberSet where
  base : SequenceNumber_t
  numBits : Nat
  bitMap : List Nat
deriving DecidableEq, Repr

/-- The HEARTBEAT submessage. -/
structure SubmessageHeartbeat where
  header : SubmessageHeader
  readerId : EntityId_t
  writerId : EntityId_t
  firstSN : SequenceNumber_t
  lastSN : SequenceNumber_t
  count : Count_t
deriving DecidableEq, Repr

/-- The ACKNACK submessage. -/
structure SubmessageAckNack where
  header : SubmessageHeader
  readerId : EntityId_t
  writerId : EntityId_t
  readerSNState : SequenceNumberSet
  count : Count_t
deriving DecidableEq, Repr

/-- The DATA submessage; `extraFlags` and `octetsToInlineQos` are `uint16_t`. -/
structure SubmessageData where
  header : SubmessageHeader
  extraFlags : Nat
  octetsToInlineQos : Nat
  readerId : EntityId_t
  writerId : EntityId_t
  writerSN : SequenceNumber_t
deriving DecidableEq, Repr

/-- A point in time, `Time_t` of types.h. -/
structure Time_t where
  seconds : Int
  fraction : Nat
deriving DecidableEq, Repr

/-- What a message buffer holds: one item per `serializeMessage` or `append`
call, in call order. -/
inductive BufferItem where
  | header (h : Header)
  | submessageHeader (h : SubmessageHeader)
  | heartbeat (m : SubmessageHeartbeat)
  | ackNack (m : SubmessageAckNack)
  | bytes (b : List Nat)
  | data (m : SubmessageData)
deriving DecidableEq, Repr

/-- Modelled from the spec: the endianness flag is bit 0 of the flags byte,
set for little-endian (the flag constants are not among the sources). -/
def FLAG_LITTLE_ENDIAN : Nat := 1

def FLAG_BIG_ENDIAN : Nat := 0

/-- Modelled from the spec: the FINAL flag, bit 1 of the flags byte (the flag
constants are not among the sources). -/
def FLAG_FINAL : Nat := 2

def PROTOCOL_TYPE : List Nat := [0x52, 0x54, 0x50, 0x53]

def numBytesUntilEndOfLength : Nat := 4

/-- The flags byte every submessage starts from: the host endianness. -/
def endianFlag (cfg : Config) : Nat :=
  if cfg.IS_LITTLE_ENDIAN then FLAG_LITTLE_ENDIAN else FLAG_BIG_ENDIAN

/-- Modelled from the spec: `SubmessageAckNack::getRawSize` (not among the
sources): submessage header, readerId, writerId, bitmapBase, numBits,
ceil(numBits/32) bitmap words, count. -/
def SubmessageAckNack.getRawSize (set : SequenceNumberSet) : Nat :=
  4 + 4 + 4 + 8 + 4 + 4 * ((set.numBits + 31) / 32) + 4

def MessageFactory.addHeader (cfg : Config) (buffer : List BufferItem)
    (guidPrefix : GuidPrefix_t) : List BufferItem :=
  buffer ++ [BufferItem.header
    { protocolName := PROTOCOL_TYPE
      protocolVersion := PROTOCOLVERSION
      vendorId := cfg.VENDOR_ID
      guidPrefix := guidPrefix }]

/-- The overload of `addSubMessageDestination` without a target prefix. -/
def MessageFactory.addSubMessageDestination (buffer : List BufferItem) : List BufferItem :=
  buffer ++ [BufferItem.bytes
    [0x0e, 0x01, 0x0c, 0x00, 0x00, 0x00, 0x00, 0x00, 0x00, 0x00, 0x00, 0x00, 0x00, 0x00, 0x00, 0x00]]

def MessageFactory.addAckNack (cfg : Config) (buffer : List BufferItem)
    (writerId readerId : EntityId_t) (readerSNState : SequenceNumberSet)
    (count : Count_t) : List BufferItem :=
  buffer ++ [BufferItem.ackNack
    { header :=
        { submessageId := .ACKNACK
          flags := endianFlag cfg ||| FLAG_FINAL
          submessageLength :=
            (SubmessageAckNack.getRawSize readerSNState + 2 ^ 16 - numBytesUntilEndOfLength)
              % 2 ^ 16 }
      readerId := readerId
      writerId := writerId
      readerSNState := readerSNState
      count := count }]

/-- Modelled from the spec: the INVALIDATE flag of INFO_TS, bit 1 of the flags
byte (the flag constants are not among the sources). -/
def FLAG_INVALIDATE : Nat := 2

/-- Modelled from the spec: the inline-QoS flag of DATA, bit 1 of the flags
byte of the wire protocol (the flag constants are not among the sources). -/
def FLAG_INLINE_QOS : Nat := 2

/-- Modelled from the spec: the data-payload flag of DATA, bit 2 of the flags
byte of the wire protocol (the flag constants are not among the sources). -/
def FLAG_DATA_PAYLOAD : Nat := 4

/-- Modelled from the spec: `SubmessageHeartbeat::getRawSize` (not among the
sources): submessage header, readerId, writerId, firstSN, lastSN, count. -/
def SubmessageHeartbeat.getRawSize : Nat := 4 + 4 + 4 + 8 + 8 + 4

/-- Modelled from the spec: `SubmessageData::getRawSize` (not among the
sources): submessage header, extraFlags, octetsToInlineQoS, readerId,
writerId, writerSN. -/
def SubmessageData.getRawSize : Nat := 4 + 2 + 2 + 4 + 4 + 8

/-- The size of `Time_t`: an `int32_t` and a `uint32_t`. -/
def sizeof_Time_t : Nat := 4 + 4

/-- Modelled from the spec: `isValid()` of a payload buffer (not among the
sources). A payload is `none` when the buffer holds no memory, otherwise the
bytes in use. -/
def PayloadBuffer.isValid (filledPayload : Option (List Nat)) : Bool :=
  filledPayload.isSome

/-- Modelled from the spec: `spaceUsed()` of a payload buffer (not among the
sources): the number of bytes in use, none for an invalid buffer. -/
def PayloadBuffer.spaceUsed (filledPayload : Option (List Nat)) : Nat :=
  match filledPayload with
  | some b => b.length
  | none => 0

/-- The function `addSubMessageTimeStamp`; `now` is what `getCurrentTimeStamp()`
returns when it is called. -/
def MessageFactory.addSubMessageTimeStamp (cfg : Config) (buffer : List BufferItem)
    (setInvalid : Bool) (now : Time_t) : List BufferItem :=
  let header : SubmessageHeader :=
    if setInvalid then
      { submessageId := .INFO_TS, flags := endianFlag cfg ||| FLAG_INVALIDATE
        submessageLength := 0 }
    else
      { submessageId := .INFO_TS, flags := endianFlag cfg
        submessageLength := sizeof_Time_t }
  let buffer1 := buffer ++ [BufferItem.submessageHeader header]
  if !setInvalid then
    let _now : Time_t := now
    buffer1 ++ [BufferItem.bytes [0xff, 0x3f, 0x04, 0x60, 0x00, 0xd4, 0x92, 0xa6]]
  else buffer1

def MessageFactory.addSubMessageData (cfg : Config) (buffer : List BufferItem)
    (filledPayload : Option (List Nat)) (containsInlineQos : Bool) (SN : SequenceNumber_t)
    (writerID readerID : EntityId_t) : List BufferItem :=
  let flags0 := endianFlag cfg
  let submessageLength :=
    (SubmessageData.getRawSize + PayloadBuffer.spaceUsed filledPayload + 2 ^ 16
      - numBytesUntilEndOfLength) % 2 ^ 16
  let flags1 := if containsInlineQos then flags0 ||| FLAG_INLINE_QOS else flags0
  let flags2 := if PayloadBuffer.isValid filledPayload then flags1 ||| FLAG_DATA_PAYLOAD else flags1
  let msg : SubmessageData :=
    { header := { submessageId := .DATA, flags := flags2, submessageLength := submessageLength }
      extraFlags := 0
      octetsToInlineQos := 4 + 4 + 8
      readerId := readerID
      writerId := writerID
      writerSN := SN }
  let buffer1 := buffer ++ [BufferItem.data msg]
  match filledPayload with
  | some b => buffer1 ++ [BufferItem.bytes b]
  | none => buffer1

/-- Modelled from the spec: the per-writer state a reader keeps, `WriterProxy`
(its header is not among the sources): remote GUID, expected sequence number,
next ACKNACK count, last heartbeat count, remote locator. -/
structure WriterProxy where
  remoteWriterGuid : Guid
  expectedSN : SequenceNumber_t
  ackNackCount : Count_t
  hbCount : Count_t
  remoteLocator : Locator
deriving DecidableEq, Repr

/-- Modelled from the spec: the two-argument constructor of `WriterProxy` (not
among the sources): expectedSN starts at 1, the last heartbeat count at 0, and
the first ACKNACK carries count 1. -/
def WriterProxy.new (guid : Guid) (loc : Locator) : WriterProxy :=
  { remoteWriterGuid := guid
    expectedSN := { high := 0, low := 1 }
    ackNackCount := { value := 1 }
    hbCount := { value := 0 }
    remoteLocator := loc }

/-- Modelled from the spec: `WriterProxy::getNextAckNackCount` (not among the
sources): returns the next ACKNACK count and advances the counter. -/
def WriterProxy.getNextAckNackCount (p : WriterProxy) : Count_t × WriterProxy :=
  (p.ackNackCount, { p with ackNackCount := { value := wrapInt32 (p.ackNackCount.value + 1) } })

/-- A change handed to a reader, `ReaderCacheChange`: the fields the sources
read (`kind`, `writerGuid`, `sn`, the payload with `size = data.length`). -/
structure ReaderCacheChange where
  kind : ChangeKind_t
  writerGuid : Guid
  sn : SequenceNumber_t
  data : List Nat
deriving DecidableEq, Repr

/-- The part of `TopicData` the reader uses. -/
structure TopicData where
  endpointGuid : Guid
  unicastLocator : Locator
deriving DecidableEq, Repr

/-- A packet handed to the transport, `PacketInfo`; the ports are 16-bit. -/
structure PacketInfo where
  srcPort : Nat
  destAddr : List Nat
  destPort : Nat
  buffer : List BufferItem
deriving DecidableEq, Repr

/-- One invocation `m_callback(m_callee, cacheChange)`. -/
structure CallbackCall where
  callback : Nat
  callee : Option Nat
  change : ReaderCacheChange
deriving DecidableEq, Repr

/-- The state of a `StatefulReaderT`. `m_proxies` lists the pool of matched
writers in iteration order and `maxProxies` is the size of the pool;
`m_callback` is `none` for `nullptr`; `calls` logs the callback invocations
and `sent` the packets passed to `m_transport->sendPacket`. -/
structure StatefulReader where
  m_attributes : TopicData
  m_packetInfo_srcPort : Nat
  m_proxies : List WriterProxy
  maxProxies : Nat
  m_callback : Option Nat
  m_callee : Option Nat
  m_is_initialized_ : Bool
  calls : List CallbackCall
  sent : List PacketInfo
deriving DecidableEq, Repr

/-- The member `init`: stores the attributes and the (16-bit) source port. -/
def StatefulReader.init (r : StatefulReader) (attributes : TopicData) : StatefulReader :=
  { r with
    m_attributes := attributes
    m_packetInfo_srcPort := attributes.unicastLocator.port % 2 ^ 16
    m_is_initialized_ := true }

/-- The loop of `newChange`: the first proxy whose GUID is the change's writer
GUID gets `++expectedSN`; `none` when no proxy matches. -/
def StatefulReader.newChangeLoop (cacheChange : ReaderCacheChange) :
    List WriterProxy → Option (List WriterProxy)
  | [] => none
  | proxy :: rest =>
    if proxy.remoteWriterGuid = cacheChange.writerGuid then
      some ({ proxy with expectedSN := proxy.expectedSN.succ } :: rest)
    else
      match StatefulReader.newChangeLoop cacheChange rest with
      | none => none
      | some rest' => some (proxy :: rest')

def StatefulReader.newChange (r : StatefulReader) (cacheChange : ReaderCacheChange) :
    StatefulReader :=
  match r.m_callback with
  | none => r
  | some cb =>
    match StatefulReader.newChangeLoop cacheChange r.m_proxies with
    | none => r
    | some proxies =>
      { r with
        m_proxies := proxies
        calls := r.calls ++ [{ callback := cb, callee := r.m_callee, change := cacheChange }] }

def StatefulReader.registerCallback (r : StatefulReader) (cb : Option Nat)
    (callee : Option Nat) : StatefulReader :=
  match cb with
  | some f => { r with m_callback := some f, m_callee := callee }
  | none => r

/-- Modelled from the spec: `m_proxies.add` of the statically sized pool (not
among the sources): the proxy is stored unless the pool is full. -/
def StatefulReader.addNewMatchedWriter (r : StatefulReader) (newProxy : WriterProxy) :
    Bool × StatefulReader :=
  if r.m_proxies.length < r.maxProxies then
    (true, { r with m_proxies := r.m_proxies ++ [newProxy] })
  else (false, r)

/-- The search loop of `onNewHeartbeat`: splits the pool at the first proxy
whose GUID is (sourceGuidPrefix, writerId). -/
def StatefulReader.searchWriter (sourceGuidPrefix : GuidPrefix_t) (writerId : EntityId_t) :
    List WriterProxy → Option (List WriterProxy × WriterProxy × List WriterProxy)
  | [] => none
  | proxy :: rest =>
    if proxy.remoteWriterGuid.guidPrefix = sourceGuidPrefix ∧
        proxy.remoteWriterGuid.entityId = writerId then
      some ([], proxy, rest)
    else
      match StatefulReader.searchWriter sourceGuidPrefix writerId rest with
      | none => none
      | some (before, writer, after) => some (proxy :: before, writer, after)

/-- The member `onNewHeartbeat`. `getMissing` stands for
`WriterProxy::getMissing`, which is not among the sources; it is called on the
proxy after `hbCount` has been stored, before `getNextAckNackCount`. -/
def StatefulReader.onNewHeartbeat (cfg : Config)
    (getMissing : WriterProxy → SequenceNumber_t → SequenceNumber_t → SequenceNumberSet)
    (r : StatefulReader) (msg : SubmessageHeartbeat) (sourceGuidPrefix : GuidPrefix_t) :
    Bool × StatefulReader :=
  match StatefulReader.searchWriter sourceGuidPrefix msg.writerId r.m_proxies with
  | none => (false, r)
  | some (before, writer, after) =>
    if msg.count.value ≤ writer.hbCount.value then (false, r)
    else
      let writer1 := { writer with hbCount := { value := msg.count.value } }
      let buffer0 := MessageFactory.addHeader cfg [] r.m_attributes.endpointGuid.guidPrefix
      let buffer1 := MessageFactory.addSubMessageDestination buffer0
      let missing := getMissing writer1 msg.firstSN msg.lastSN
      let next := writer1.getNextAckNackCount
      let buffer2 := MessageFactory.addAckNack cfg buffer1 msg.writerId msg.readerId missing next.1
      let info : PacketInfo :=
        { srcPort := r.m_packetInfo_srcPort
          destAddr := writer1.remoteLocator.getIp4Address
          destPort := writer1.remoteLocator.port % 2 ^ 16
          buffer := buffer2 }
      (true, { r with m_proxies := before ++ next.2 :: after, sent := r.sent ++ [info] })

/-! ## ThreadPool (ThreadPool.cpp) -/

/-- Modelled from the spec: the fixed-capacity queue `ThreadSafeCircularBuffer`
(not among the sources), oldest element first. -/
structure ThreadSafeCircularBuffer (α : Type) where
  elements : List α
  capacity : Nat
deriving DecidableEq, Repr

/-- Modelled from the spec: `moveElementIntoBuffer` (not among the sources): a
full queue rejects the element and stays as it is. -/
def ThreadSafeCircularBuffer.moveElementIntoBuffer {α : Type}
    (q : ThreadSafeCircularBuffer α) (elem : α) : Bool × ThreadSafeCircularBuffer α :=
  if q.elements.length < q.capacity then (true, { q with elements := q.elements ++ [elem] })
  else (false, q)

/-- The state of a `ThreadPool`: the two queues and the number of signals given
to each notification semaphore. A writer is queued by its handle. -/
structure ThreadPool where
  m_queueOutgoing : ThreadSafeCircularBuffer Nat
  m_queueIncoming : ThreadSafeCircularBuffer PacketInfo
  m_writerNotificationSem : Nat
  m_readerNotificationSem : Nat
deriving DecidableEq, Repr

def ThreadPool.addWorkload (pool : ThreadPool) (workload : Nat) : Bool × ThreadPool :=
  let res := pool.m_queueOutgoing.moveElementIntoBuffer workload
  if res.1 then
    (res.1, { pool with
      m_queueOutgoing := res.2
      m_writerNotificationSem := pool.m_writerNotificationSem + 1 })
  else (res.1, { pool with m_queueOutgoing := res.2 })

def ThreadPool.addNewPacket (pool : ThreadPool) (packet : PacketInfo) : Bool × ThreadPool :=
  let res := pool.m_queueIncoming.moveElementIntoBuffer packet
  if res.1 then
    (res.1, { pool with
      m_queueIncoming := res.2
      m_readerNotificationSem := pool.m_readerNotificationSem + 1 })
  else (res.1, { pool with m_queueIncoming := res.2 })

/-! ## StatelessWriter (StatelessWriter.cpp) -/

/-- A change kept by a writer, `CacheChange`. -/
structure CacheChange where
  kind : ChangeKind_t
  data : List Nat
  sequenceNumber : SequenceNumber_t
deriving DecidableEq, Repr

/-- Modelled from the spec: the sentinel INVALID change of the history (not
among the sources): kind INVALID, no payload, unknown sequence number. -/
def INVALID_CACHE_CHANGE : CacheChange :=
  { kind := .INVALID, data := [], sequenceNumber := SEQUENCENUMBER_UNKNOWN }

/-- Modelled from the spec: the writer history (not among the sources), a
bounded ring of capacity `capacity`, oldest change first. -/
structure HistoryCache where
  buffer : List CacheChange
  capacity : Nat
deriving DecidableEq, Repr

/-- Modelled from the spec: `addChange` of the history (not among the
sources): the change is stored, the oldest one being evicted when the ring is
full; the result is the stored change. -/
def HistoryCache.addChange (h : HistoryCache) (change : CacheChange) :
    CacheChange × HistoryCache :=
  let kept := if h.buffer.length < h.capacity then h.buffer else h.buffer.drop 1
  (change, { h with buffer := kept ++ [change] })

/-- The state of a `StatelessWriter`; `threadPool` is `none` for `nullptr`,
`self` is the handle under which the writer queues itself. -/
structure StatelessWriter where
  threadPool : Option ThreadPool
  topicKind : TopicKind_t
  locator : Locator
  lastChangeSequenceNumber : SequenceNumber_t
  history : HistoryCache
  self : Nat
deriving DecidableEq, Repr

def StatelessWriter.getLastSequenceNumber (w : StatelessWriter) : SequenceNumber_t :=
  w.lastChangeSequenceNumber

def StatelessWriter.isIrrelevant (w : StatelessWriter) (kind : ChangeKind_t) : Bool :=
  kind == ChangeKind_t.INVALID ||
    (w.topicKind == TopicKind_t.NO_KEY && kind != ChangeKind_t.ALIVE)

/-- The member `newChange`; `data` holds the `size` payload bytes. The result
is the change the returned pointer refers to. -/
def StatelessWriter.newChange (w : StatelessWriter) (kind : ChangeKind_t) (data : List Nat) :
    CacheChange × StatelessWriter :=
  if w.isIrrelevant kind then (INVALID_CACHE_CHANGE, w)
  else
    let lastSN := w.lastChangeSequenceNumber.succ
    let change : CacheChange := { kind := kind, data := data, sequenceNumber := lastSN }
    let result := w.history.addChange change
    let pool := match w.threadPool with
      | some tp => some (tp.addWorkload w.self).2
      | none => none
    (result.1, { w with
      lastChangeSequenceNumber := lastSN
      history := result.2
      threadPool := pool })

/-- A series of `newChange` calls on one writer: for every accepted call, in
call order, `getLastSequenceNumber()` before the call, the sequence number of
the change the call returns, and `getLastSequenceNumber()` after the call. -/
def StatelessWriter.acceptedCalls (w : StatelessWriter) :
    List (ChangeKind_t × List Nat) →
      List (SequenceNumber_t × SequenceNumber_t × SequenceNumber_t)
  | [] => []
  | call :: calls =>
    let r := w.newChange call.1 call.2
    if w.isIrrelevant call.1 then StatelessWriter.acceptedCalls r.2 calls
    else
      (w.getLastSequenceNumber, r.1.sequenceNumber, r.2.getLastSequenceNumber) ::
        StatelessWriter.acceptedCalls r.2 calls

/-! ## SPDPAgent (SPDPAgent.cpp) -/

/-- Modelled from the spec: the built-in endpoint bits of
BUILTIN_ENDPOINT_SET (the constants are not among the sources). -/
def DISC_BIE_PUBLICATION_ANNOUNCER : Nat := 2 ^ 2

def DISC_BIE_PUBLICATION_DETECTOR : Nat := 2 ^ 3

def DISC_BIE_SUBSCRIPTION_ANNOUNCER : Nat := 2 ^ 4

def DISC_BIE_SUBSCRIPTION_DETECTOR : Nat := 2 ^ 5

/-- The parsed announcement of a participant, `ParticipantProxyData`: the
fields `processProxyData` and `addProxiesForBuiltInEndpoints` read. -/
structure ParticipantProxyData where
  m_guid : Guid
  m_metatrafficUnicastLocatorList : List Locator
  m_availableBuiltInEndpoints : Nat
deriving DecidableEq, Repr

/-- Modelled from the spec: the peer announces a SEDP publications writer (bit
test on the built-in endpoint set; not among the sources). -/
def ParticipantProxyData.hasPublicationWriter (d : ParticipantProxyData) : Bool :=
  d.m_availableBuiltInEndpoints &&& DISC_BIE_PUBLICATION_ANNOUNCER != 0

/-- Modelled from the spec: the peer announces a SEDP subscriptions writer. -/
def ParticipantProxyData.hasSubscriptionWriter (d : ParticipantProxyData) : Bool :=
  d.m_availableBuiltInEndpoints &&& DISC_BIE_SUBSCRIPTION_ANNOUNCER != 0

/-- Modelled from the spec: the peer announces a SEDP publications reader. -/
def ParticipantProxyData.hasPublicationReader (d : ParticipantProxyData) : Bool :=
  d.m_availableBuiltInEndpoints &&& DISC_BIE_PUBLICATION_DETECTOR != 0

/-- Modelled from the spec: the peer announces a SEDP subscriptions reader. -/
def ParticipantProxyData.hasSubscriptionReader (d : ParticipantProxyData) : Bool :=
  d.m_availableBuiltInEndpoints &&& DISC_BIE_SUBSCRIPTION_DETECTOR != 0

/-- Modelled from the spec: `Locator::isValid` (not among the sources): the
kind is not the invalid one. -/
def Locator.isValid (l : Locator) : Bool :=
  l.kind != LocatorKind_t.LOCATOR_KIND_INVALID

/-- The state of a `Participant`: its prefix, its id, and the table of remote
participants with the size of that table. -/
structure Participant where
  m_guidPrefix : GuidPrefix_t
  m_participantId : Nat
  m_remoteParticipants : List ParticipantProxyData
  maxRemoteParticipants : Nat
deriving DecidableEq, Repr

/-- Modelled from the spec: `findRemoteParticipant` (not among the sources):
the table entry with the given prefix, `none` for `nullptr`. -/
def Participant.findRemoteParticipant (p : Participant) (guidPrefix : GuidPrefix_t) :
    Option ParticipantProxyData :=
  p.m_remoteParticipants.find? (fun d => d.m_guid.guidPrefix = guidPrefix)

/-- Modelled from the spec: `addNewRemoteParticipant` (not among the sources):
returns false if an entry with the same prefix exists, or if the statically
sized table is full; otherwise the entry is stored. -/
def Participant.addNewRemoteParticipant (p : Participant) (remotePart : ParticipantProxyData) :
    Bool × Participant :=
  if (p.findRemoteParticipant remotePart.m_guid.guidPrefix).isSome then (false, p)
  else if p.m_remoteParticipants.length < p.maxRemoteParticipants then
    (true, { p with m_remoteParticipants := p.m_remoteParticipants ++ [remotePart] })
  else (false, p)

/-- Modelled from the spec: the per-reader state a writer keeps, `ReaderProxy`
(not among the sources), as its two-argument constructor fills it. -/
structure ReaderProxy where
  remoteReaderGuid : Guid
  remoteLocator : Locator
deriving DecidableEq, Repr

/-- Modelled from the spec: the proxy pool of a stateful writer (not among the
sources), in iteration order, with the size of the pool. -/
structure StatefulWriter where
  m_proxies : List ReaderProxy
  maxProxies : Nat
deriving DecidableEq, Repr

/-- Modelled from the spec: `addNewMatchedReader` (not among the sources): the
proxy is stored unless the pool is full. -/
def StatefulWriter.addNewMatchedReader (w : StatefulWriter) (newProxy : ReaderProxy) :
    Bool × StatefulWriter :=
  if w.m_proxies.length < w.maxProxies then
    (true, { w with m_proxies := w.m_proxies ++ [newProxy] })
  else (false, w)

/-- Modelled from the spec: the SPDP writer as the agent sees it (not among
the sources): the number of `setAllChangesToUnsent` calls it has received. -/
structure SPDPWriter where
  unsentResets : Nat
deriving DecidableEq, Repr

/-- Modelled from the spec: `setAllChangesToUnsent` (not among the sources):
marks the writer's changes unsent. -/
def SPDPWriter.setAllChangesToUnsent (w : SPDPWriter) : SPDPWriter :=
  { w with unsentResets := w.unsentResets + 1 }

/-- The built-in endpoints, `BuiltInEndpoints`. -/
structure BuiltInEndpoints where
  spdpWriter : SPDPWriter
  spdpReader : StatefulReader
  sedpPubReader : StatefulReader
  sedpSubReader : StatefulReader
  sedpPubWriter : StatefulWriter
  sedpSubWriter : StatefulWriter
deriving DecidableEq, Repr

/-- The state of an `SPDPAgent`. -/
structure SPDPAgent where
  mp_participant : Participant
  m_buildInEndpoints : BuiltInEndpoints
  m_proxyDataBuffer : ParticipantProxyData
  initialized : Bool
deriving DecidableEq, Repr

/-- The locator loop of `addProxiesForBuiltInEndpoints`: the first locator of
the list that is valid and in the local subnet. `isSameSubnet` stands for
`Locator::isSameSubnet`, which is not among the sources. -/
def SPDPAgent.findLocator (isSameSubnet : Locator → Bool) : List Locator → Option Locator
  | [] => none
  | l :: rest =>
    if l.isValid && isSameSubnet l then some l
    else SPDPAgent.findLocator isSameSubnet rest

def SPDPAgent.addProxiesForBuiltInEndpoints (isSameSubnet : Locator → Bool) (a : SPDPAgent) :
    Bool × SPDPAgent :=
  match SPDPAgent.findLocator isSameSubnet a.m_proxyDataBuffer.m_metatrafficUnicastLocatorList with
  | none => (false, a)
  | some locator =>
    let guidPrefix := a.m_proxyDataBuffer.m_guid.guidPrefix
    let e0 := a.m_buildInEndpoints
    let e1 :=
      if a.m_proxyDataBuffer.hasPublicationWriter then
        { e0 with sedpPubReader := (e0.sedpPubReader.addNewMatchedWriter
            (WriterProxy.new ⟨guidPrefix, ENTITYID_SEDP_BUILTIN_PUBLICATIONS_WRITER⟩ locator)).2 }
      else e0
    let e2 :=
      if a.m_proxyDataBuffer.hasSubscriptionWriter then
        { e1 with sedpSubReader := (e1.sedpSubReader.addNewMatchedWriter
            (WriterProxy.new ⟨guidPrefix, ENTITYID_SEDP_BUILTIN_SUBSCRIPTIONS_WRITER⟩ locator)).2 }
      else e1
    let e3 :=
      if a.m_proxyDataBuffer.hasPublicationReader then
        { e2 with sedpPubWriter := (e2.sedpPubWriter.addNewMatchedReader
            ⟨⟨guidPrefix, ENTITYID_SEDP_BUILTIN_PUBLICATIONS_READER⟩, locator⟩).2 }
      else e2
    let e4 :=
      if a.m_proxyDataBuffer.hasSubscriptionReader then
        { e3 with sedpSubWriter := (e3.sedpSubWriter.addNewMatchedReader
            ⟨⟨guidPrefix, ENTITYID_SEDP_BUILTIN_SUBSCRIPTIONS_READER⟩, locator⟩).2 }
      else e3
    (true, { a with m_buildInEndpoints := e4 })

def SPDPAgent.processProxyData (isSameSubnet : Locator → Bool) (a : SPDPAgent) : SPDPAgent :=
  if a.m_proxyDataBuffer.m_guid.guidPrefix.id = a.mp_participant.m_guidPrefix.id then a
  else if (a.mp_participant.findRemoteParticipant a.m_proxyDataBuffer.m_guid.guidPrefix).isSome then
    { a with m_buildInEndpoints :=
        { a.m_buildInEndpoints with
          spdpWriter := a.m_buildInEndpoints.spdpWriter.setAllChangesToUnsent } }
  else
    let added := a.mp_participant.addNewRemoteParticipant a.m_proxyDataBuffer
    if added.1 then
      let a1 := (SPDPAgent.addProxiesForBuiltInEndpoints isSameSubnet
        { a with mp_participant := added.2 }).2
      { a1 with m_buildInEndpoints :=
          { a1.m_buildInEndpoints with
            spdpWriter := a1.m_buildInEndpoints.spdpWriter.setAllChangesToUnsent } }
    else { a with mp_participant := added.2 }

/-! ## Serialization buffer used by SPDPAgent -/

/-- The byte order of a serialization buffer. -/
inductive ucdrEndianness where
  | UCDR_BIG_ENDIANNESS
  | UCDR_LITTLE_ENDIANNESS
deriving DecidableEq, Repr

/-- Modelled from the spec: the serialization buffer `ucdrBuffer` (the CDR
library is not among the sources). `consumed` holds the bytes of the array from
`init` up to `iterator`, `remaining` the bytes from `iterator` to the end of the
array; `last_data_size` is the size of the last item, which decides whether
the next item is aligned. -/
structure ucdrBuffer where
  consumed : List Nat
  remaining : List Nat
  last_data_size : Nat
  endianness : ucdrEndianness
  error : Bool
deriving DecidableEq, Repr

/-- Modelled from the spec: `ucdr_init_buffer` (not among the sources): the
buffer starts at the beginning of the array, in the byte order of the host. -/
def ucdr_init_buffer (cfg : Config) (data : List Nat) : ucdrBuffer :=
  { consumed := []
    remaining := data
    last_data_size := 0
    endianness :=
      if cfg.IS_LITTLE_ENDIAN then .UCDR_LITTLE_ENDIANNESS else .UCDR_BIG_ENDIANNESS
    error := false }

/-- Modelled from the spec: `ucdr_buffer_length` (not among the sources): the
number of bytes between `init` and `iterator`. -/
def ucdr_buffer_length (ub : ucdrBuffer) : Nat := ub.consumed.length

/-- The `size` bytes of the unsigned value `v`, least significant first. -/
def littleEndianBytes : Nat → Nat → List Nat
  | 0, _ => []
  | size + 1, v => v % 256 :: littleEndianBytes size (v / 256)

/-- The `size` bytes of the unsigned value `v` in the given byte order. -/
def encodeBytes (e : ucdrEndianness) (size v : Nat) : List Nat :=
  match e with
  | .UCDR_LITTLE_ENDIANNESS => littleEndianBytes size v
  | .UCDR_BIG_ENDIANNESS => (littleEndianBytes size v).reverse

/-- Modelled from the spec: CDR alignment (not among the sources): an item
larger than the last one starts at a multiple of its size. -/
def ucdr_buffer_alignment (ub : ucdrBuffer) (data_size : Nat) : Nat :=
  if data_size > ub.last_data_size then
    (data_size - ub.consumed.length % data_size) % data_size
  else 0

/-- Modelled from the spec: writing one item of `data_size` bytes per element
(not among the sources): after the alignment gap the bytes replace the next
bytes of the array; without room the buffer goes into its error state, in
which every later item is dropped. -/
def ucdrBuffer.put (ub : ucdrBuffer) (data_size : Nat) (bytes : List Nat) : ucdrBuffer :=
  if ub.error then ub
  else
    let alignment := ucdr_buffer_alignment ub data_size
    if alignment + bytes.length ≤ ub.remaining.length then
      { ub with
        consumed := ub.consumed ++ ub.remaining.take alignment ++ bytes
        remaining := ub.remaining.drop (alignment + bytes.length)
        last_data_size := data_size }
    else { ub with error := true }

def ucdr_serialize_uint8_t (ub : ucdrBuffer) (v : Nat) : ucdrBuffer :=
  ub.put 1 (encodeBytes ub.endianness 1 v)

def ucdr_serialize_uint16_t (ub : ucdrBuffer) (v : Nat) : ucdrBuffer :=
  ub.put 2 (encodeBytes ub.endianness 2 v)

def ucdr_serialize_uint32_t (ub : ucdrBuffer) (v : Nat) : ucdrBuffer :=
  ub.put 4 (encodeBytes ub.endianness 4 v)

def ucdr_serialize_int32_t (ub : ucdrBuffer) (v : Int) : ucdrBuffer :=
  ub.put 4 (encodeBytes ub.endianness 4 (v % 2 ^ 32).toNat)

def ucdr_serialize_array_uint8_t (ub : ucdrBuffer) (array : List Nat) : ucdrBuffer :=
  ub.put 1 array

/-- Modelled from the spec: reading `length` bytes into `array` (not among the
sources): without room the buffer goes into its error state and the array
keeps its content. -/
def ucdr_deserialize_array_uint8_t (ub : ucdrBuffer) (array : List Nat) (length : Nat) :
    List Nat × ucdrBuffer :=
  if ub.error then (array, ub)
  else if length ≤ ub.remaining.length then
    (ub.remaining.take length,
      { ub with
        consumed := ub.consumed ++ ub.remaining.take length
        remaining := ub.remaining.drop length
        last_data_size := 1 })
  else (array, { ub with error := true })

/-- The statement `iterator += n`: the next `n` bytes of the array are skipped
and keep their content. -/
def ucdrBuffer.advance (ub : ucdrBuffer) (n : Nat) : ucdrBuffer :=
  { ub with consumed := ub.consumed ++ ub.remaining.take n, remaining := ub.remaining.drop n }

/-! ## SPDPAgent: parameter lists -/

def SCHEME_PL_CDR_LE : List Nat := [0x00, 0x03]

def SCHEME_PL_CDR_BE : List Nat := [0x00, 0x02]

def PID_SENTINEL : Nat := 0x0001

def PID_PARTICIPANT_LEASE_DURATION : Nat := 0x0002

def PID_PROTOCOL_VERSION : Nat := 0x0015

def PID_VENDORID : Nat := 0x0016

def PID_DEFAULT_UNICAST_LOCATOR : Nat := 0x0031

def PID_METATRAFFIC_UNICAST_LOCATOR : Nat := 0x0032

def PID_METATRAFFIC_MULTICAST_LOCATOR : Nat := 0x0033

def PID_PARTICIPANT_GUID : Nat := 0x0050

def PID_BUILTIN_ENDPOINT_SET : Nat := 0x0058

/-- Modelled from the spec: the participant bits of BUILTIN_ENDPOINT_SET (the
constants are not among the sources). -/
def DISC_BIE_PARTICIPANT_ANNOUNCER : Nat := 2 ^ 0

def DISC_BIE_PARTICIPANT_DETECTOR : Nat := 2 ^ 1

/-- The size of the endpoint-set word, a `uint32_t`. -/
def sizeof_BuildInEndpointSet : Nat := 4

/-- The entity id of the participant itself, `ENTITYID_PARTICIPANT` of
types.h. -/
def ENTITYID_BUILD_IN_PARTICIPANT : EntityId_t :=
  { entityKey := [0, 0, 1], entityKind := .BUILD_IN_PARTICIPANT }

/-- The byte an entity kind stands for (types.h). -/
def EntityKind_t.toUInt8 : EntityKind_t → Nat
  | .USER_DEFINED_UNKNOWN => 0x00
  | .USER_DEFINED_WRITER_WITH_KEY => 0x02
  | .USER_DEFINED_WRITER_WITHOUT_KEY => 0x03
  | .USER_DEFINED_READER_WITHOUT_KEY => 0x04
  | .USER_DEFINED_READER_WITH_KEY => 0x07
  | .BUILD_IN_UNKNOWN => 0xc0
  | .BUILD_IN_PARTICIPANT => 0xc1
  | .BUILD_IN_WRITER_WITH_KEY => 0xc2
  | .BUILD_IN_WRITER_WITHOUT_KEY => 0xc3
  | .BUILD_IN_READER_WITHOUT_KEY => 0xc4
  | .BUILD_IN_READER_WITH_KEY => 0xc7
  | .VENDOR_SPEC_UNKNOWN => 0x40
  | .VENDOR_SPEC_PARTICIPANT => 0x41
  | .VENDOR_SPEC_WRITER_WITH_KEY => 0x42
  | .VENDOR_SPEC_WRITER_WITHOUT_KEY => 0x43
  | .VENDOR_SPEC_READER_WITHOUT_KEY => 0x44
  | .VENDOR_SPEC_READER_WITH_KEY => 0x47

/-- The `int32_t` a locator kind stands for (types.h). -/
def LocatorKind_t.toInt32 : LocatorKind_t → Int
  | .LOCATOR_KIND_INVALID => -1
  | .LOCATOR_KIND_RESERVED => 0
  | .LOCATOR_KIND_UDPv4 => 1
  | .LOCATOR_KIND_UDPv6 => 2

/-- The size of a locator: kind (4 bytes), port (4 bytes), address (16). -/
def sizeof_Locator : Nat := 4 + 4 + 16

/-- The bytes of a locator object as `reinterpret_cast<const uint8_t *>` sees
them on the host: kind and port in host byte order, then the address. -/
def Locator.objectBytes (cfg : Config) (l : Locator) : List Nat :=
  let host : ucdrEndianness :=
    if cfg.IS_LITTLE_ENDIAN then .UCDR_LITTLE_ENDIANNESS else .UCDR_BIG_ENDIANNESS
  encodeBytes host 4 (l.kind.toInt32 % 2 ^ 32).toNat ++ encodeBytes host 4 (l.port % 2 ^ 32) ++
    l.address

/-- A duration, `Duration_t`: `seconds` is an `int32_t`, `fraction` a
`uint32_t`. -/
structure Duration_t where
  seconds : Int
  fraction : Nat
deriving DecidableEq, Repr

/-- What `addParticipantParameters` takes from outside SPDPAgent.cpp, as
parameters: the three locator functions of the UDP utilities and
`Config::SPDP_LEASE_DURATION` (not among the sources). -/
structure SPDPSettings where
  getUserUnicastLocator : Nat → Locator
  getBuiltInUnicastLocator : Nat → Locator
  getBuiltInMulticastLocator : Locator
  SPDP_LEASE_DURATION : Duration_t

def SPDPAgent.endCurrentList (m_microbuffer : ucdrBuffer) : ucdrBuffer :=
  let ub1 := ucdr_serialize_uint16_t m_microbuffer PID_SENTINEL
  ucdr_serialize_uint16_t ub1 0

/-- The member `addParticipantParameters`, on the participant and the output
buffer `m_microbuffer` of the agent. -/
def SPDPAgent.addParticipantParameters (cfg : Config) (settings : SPDPSettings)
    (mp_participant : Participant) (m_microbuffer : ucdrBuffer) : ucdrBuffer :=
  let zero_options := 0
  let protocolVersionSize := 1 + 1
  let vendorIdSize := cfg.VENDOR_ID.vendorId.length
  let locatorSize := sizeof_Locator
  let durationSize := 4 + 4
  let entityKeySize := 3
  let entityKindSize := 1
  let entityIdSize := entityKeySize + entityKindSize
  let guidSize := 12 + entityIdSize
  let userUniCastLocator := settings.getUserUnicastLocator mp_participant.m_participantId
  let builtInUniCastLocator := settings.getBuiltInUnicastLocator mp_participant.m_participantId
  let builtInMultiCastLocator := settings.getBuiltInMulticastLocator
  let b := ucdr_serialize_array_uint8_t m_microbuffer SCHEME_PL_CDR_LE
  let b := ucdr_serialize_uint16_t b zero_options
  let b := ucdr_serialize_uint16_t b PID_PROTOCOL_VERSION
  let b := ucdr_serialize_uint16_t b (protocolVersionSize + 2)
  let b := ucdr_serialize_uint8_t b PROTOCOLVERSION.major
  let b := ucdr_serialize_uint8_t b PROTOCOLVERSION.minor
  let b := b.advance 2
  let b := { b with last_data_size := 4 }
  let b := ucdr_serialize_uint16_t b PID_VENDORID
  let b := ucdr_serialize_uint16_t b (vendorIdSize + 2)
  let b := ucdr_serialize_array_uint8_t b cfg.VENDOR_ID.vendorId
  let b := b.advance 2
  let b := { b with last_data_size := 4 }
  let b := ucdr_serialize_uint16_t b PID_DEFAULT_UNICAST_LOCATOR
  let b := ucdr_serialize_uint16_t b locatorSize
  let b := ucdr_serialize_array_uint8_t b (userUniCastLocator.objectBytes cfg)
  let b := ucdr_serialize_uint16_t b PID_METATRAFFIC_UNICAST_LOCATOR
  let b := ucdr_serialize_uint16_t b locatorSize
  let b := ucdr_serialize_array_uint8_t b (builtInUniCastLocator.objectBytes cfg)
  let b := ucdr_serialize_uint16_t b PID_METATRAFFIC_MULTICAST_LOCATOR
  let b := ucdr_serialize_uint16_t b locatorSize
  let b := ucdr_serialize_array_uint8_t b (builtInMultiCastLocator.objectBytes cfg)
  let b := ucdr_serialize_uint16_t b PID_PARTICIPANT_LEASE_DURATION
  let b := ucdr_serialize_uint16_t b durationSize
  let b := ucdr_serialize_int32_t b settings.SPDP_LEASE_DURATION.seconds
  let b := ucdr_serialize_uint32_t b settings.SPDP_LEASE_DURATION.fraction
  let b := ucdr_serialize_uint16_t b PID_PARTICIPANT_GUID
  let b := ucdr_serialize_uint16_t b guidSize
  let b := ucdr_serialize_array_uint8_t b mp_participant.m_guidPrefix.id
  let b := ucdr_serialize_array_uint8_t b ENTITYID_BUILD_IN_PARTICIPANT.entityKey
  let b := ucdr_serialize_uint8_t b ENTITYID_BUILD_IN_PARTICIPANT.entityKind.toUInt8
  let b := ucdr_serialize_uint16_t b PID_BUILTIN_ENDPOINT_SET
  let b := ucdr_serialize_uint16_t b sizeof_BuildInEndpointSet
  let b := ucdr_serialize_uint32_t b
    (DISC_BIE_PARTICIPANT_ANNOUNCER ||| DISC_BIE_PARTICIPANT_DETECTOR |||
      DISC_BIE_PUBLICATION_ANNOUNCER ||| DISC_BIE_PUBLICATION_DETECTOR |||
      DISC_BIE_SUBSCRIPTION_ANNOUNCER ||| DISC_BIE_SUBSCRIPTION_DETECTOR)
  SPDPAgent.endCurrentList b

/-- The member `configureEndianessAndOptions` on the input buffer. -/
def SPDPAgent.configureEndianessAndOptions (buffer : ucdrBuffer) : ucdrBuffer :=
  let encapsulation : List Nat := [0, 0]
  let r1 := ucdr_deserialize_array_uint8_t buffer encapsulation 2
  let buffer1 : ucdrBuffer :=
    if r1.1 = SCHEME_PL_CDR_LE then { r1.2 with endianness := .UCDR_LITTLE_ENDIANNESS }
    else { r1.2 with endianness := .UCDR_BIG_ENDIANNESS }
  (ucdr_deserialize_array_uint8_t buffer1 r1.1 2).2

/-- The two statements of `init` that build the announcement: the output
buffer is set up over the array `m_outputBuffer` and filled by
`addParticipantParameters`. `runBroadcast` publishes its first
`ucdr_buffer_length` bytes, which are `consumed`. -/
def SPDPAgent.initOutput (cfg : Config) (settings : SPDPSettings)
    (mp_participant : Participant) (m_outputBuffer : List Nat) : ucdrBuffer :=
  SPDPAgent.addParticipantParameters cfg settings mp_participant
    (ucdr_init_buffer cfg m_outputBuffer)

/-- The member `handleSPDPPackage`, on the agent and its input array
`m_inputBuffer`; the result is the agent and the array afterwards.
`copyInto` stands for `ReaderCacheChange::copyInto` (success, and the array
afterwards) and `readFromUcdrBuffer` for
`ParticipantProxyData::readFromUcdrBuffer` (success, and `m_proxyDataBuffer`
afterwards); neither is among the sources. -/
def SPDPAgent.handleSPDPPackage (cfg : Config) (isSameSubnet : Locator → Bool)
    (copyInto : ReaderCacheChange → List Nat → Bool × List Nat)
    (readFromUcdrBuffer : ParticipantProxyData → ucdrBuffer → Bool × ParticipantProxyData)
    (a : SPDPAgent) (m_inputBuffer : List Nat) (cacheChange : ReaderCacheChange) :
    SPDPAgent × List Nat :=
  if !a.initialized then (a, m_inputBuffer)
  else if cacheChange.data.length > m_inputBuffer.length then (a, m_inputBuffer)
  else
    let copied := copyInto cacheChange m_inputBuffer
    if !copied.1 then (a, copied.2)
    else
      let buffer := ucdr_init_buffer cfg copied.2
      if cacheChange.kind = ChangeKind_t.ALIVE then
        let buffer1 := SPDPAgent.configureEndianessAndOptions buffer
        let parsed := readFromUcdrBuffer a.m_proxyDataBuffer buffer1
        let a1 := { a with m_proxyDataBuffer := parsed.2 }
        if parsed.1 then (SPDPAgent.processProxyData isSameSubnet a1, copied.2)
        else (a1, copied.2)
      else (a, copied.2)

/-! ## Parameter lists as seen by a reader -/

/-- One parameter of a little-endian parameter list: id, length of the value,
value. -/
def PL_CDR.parameter (pid : Nat) (value : List Nat) : List Nat :=
  littleEndianBytes 2 pid ++ littleEndianBytes 2 value.length ++ value

/-- Walks a little-endian parameter list by (id, length): the (id, length)
pairs met before PID_SENTINEL, provided the list ends with a PID_SENTINEL of
length 0 as its last four bytes; `none` otherwise (or when `fuel` parameters
do not reach the end). -/
def PL_CDR.walk : Nat → List Nat → Option (List (Nat × Nat))
  | 0, _ => none
  | fuel + 1, i0 :: i1 :: l0 :: l1 :: rest =>
    let pid := i0 + 256 * i1
    let len := l0 + 256 * l1
    if pid = PID_SENTINEL then
      if len = 0 ∧ rest = [] then some [] else none
    else if len ≤ rest.length then
      match PL_CDR.walk fuel (rest.drop len) with
      | some visited => some ((pid, len) :: visited)
      | none => none
    else none
  | _ + 1, _ => none

/-- A little-endian parameter list with its header: the scheme
SCHEME_PL_CDR_LE, two zero option bytes, the parameters in order, and
PID_SENTINEL with length 0. -/
def PL_CDR.encode (parameters : List (Nat × List Nat)) : List Nat :=
  SCHEME_PL_CDR_LE ++ [0, 0] ++ (parameters.map (fun q => PL_CDR.parameter q.1 q.2)).flatten ++
    PL_CDR.parameter PID_SENTINEL []

/-- The parameters of the participant announcement, in the order of the
claim, each with its value bytes; the values of PID_PROTOCOL_VERSION and
PID_VENDORID end with the two bytes of the output array that are skipped as
padding. -/
def SPDPAgent.announcedParameters (cfg : Config) (settings : SPDPSettings)
    (mp_participant : Participant) (m_outputBuffer : List Nat) : List (Nat × List Nat) :=
  [(PID_PROTOCOL_VERSION,
      [PROTOCOLVERSION.major, PROTOCOLVERSION.minor] ++ (m_outputBuffer.drop 10).take 2),
   (PID_VENDORID, cfg.VENDOR_ID.vendorId ++ (m_outputBuffer.drop 18).take 2),
   (PID_DEFAULT_UNICAST_LOCATOR,
      (settings.getUserUnicastLocator mp_participant.m_participantId).objectBytes cfg),
   (PID_METATRAFFIC_UNICAST_LOCATOR,
      (settings.getBuiltInUnicastLocator mp_participant.m_participantId).objectBytes cfg),
   (PID_METATRAFFIC_MULTICAST_LOCATOR, settings.getBuiltInMulticastLocator.objectBytes cfg),
   (PID_PARTICIPANT_LEASE_DURATION,
      littleEndianBytes 4 (settings.SPDP_LEASE_DURATION.seconds % 2 ^ 32).toNat ++
        littleEndianBytes 4 settings.SPDP_LEASE_DURATION.fraction),
   (PID_PARTICIPANT_GUID, mp_participant.m_guidPrefix.id ++ [0, 0, 1] ++ [0xc1]),
   (PID_BUILTIN_ENDPOINT_SET, littleEndianBytes 4 0x3f)]

/-! ## StatefulReader: series of calls -/

/-- One call of the reader interface. -/
inductive ReaderCall where
  | newChange (cacheChange : ReaderCacheChange)
  | onNewHeartbeat (msg : SubmessageHeartbeat) (sourceGuidPrefix : GuidPrefix_t)
  | registerCallback (cb : Option Nat) (callee : Option Nat)
  | addNewMatchedWriter (newProxy : WriterProxy)
deriving DecidableEq, Repr

/-- The reader after one call. -/
def StatefulReader.perform (cfg : Config)
    (getMissing : WriterProxy → SequenceNumber_t → SequenceNumber_t → SequenceNumberSet)
    (r : StatefulReader) : ReaderCall → StatefulReader
  | .newChange cacheChange => r.newChange cacheChange
  | .onNewHeartbeat msg sourceGuidPrefix =>
    (r.onNewHeartbeat cfg getMissing msg sourceGuidPrefix).2
  | .registerCallback cb callee => r.registerCallback cb callee
  | .addNewMatchedWriter newProxy => (r.addNewMatchedWriter newProxy).2

/-- The reader after a series of calls. -/
def StatefulReader.performAll (cfg : Config)
    (getMissing : WriterProxy → SequenceNumber_t → SequenceNumber_t → SequenceNumberSet)
    (r : StatefulReader) (ops : List ReaderCall) : StatefulReader :=
  ops.foldl (StatefulReader.perform cfg getMissing) r

/-! ## Auxiliary predicates -/

/-- The proxy `writer` is the first one of `proxies`, in iteration order, that
satisfies `P`: the one a search loop with `break` (or `return`) stops at. -/
def FirstMatch (P : WriterProxy → Prop) (proxies before : List WriterProxy)
    (writer : WriterProxy) (after : List WriterProxy) : Prop :=
  proxies = before ++ writer :: after ∧ (∀ q ∈ before, ¬ P q) ∧ P writer

/-- The heartbeat is addressed to proxy `q`: same prefix and same writer id. -/
def HeartbeatFrom (sourceGuidPrefix : GuidPrefix_t) (msg : SubmessageHeartbeat)
    (q : WriterProxy) : Prop :=
  q.remoteWriterGuid.guidPrefix = sourceGuidPrefix ∧ q.remoteWriterGuid.entityId = msg.writerId

/-- A call turns proxy `p` into `p'`: the same writer, with expectedSN kept or
incremented. -/
def ProxyAdvanced (p p' : WriterProxy) : Prop :=
  p'.remoteWriterGuid = p.remoteWriterGuid ∧
    (p'.expectedSN = p.expectedSN ∨ p'.expectedSN = p.expectedSN.succ)

/-- Every proxy of the reader has an expectedSN in range that can still be
incremented `k` times below 2^63. -/
def StatefulReader.SNBound (k : Nat) (r : StatefulReader) : Prop :=
  ∀ p ∈ r.m_proxies, p.expectedSN.InRange ∧ p.expectedSN.value + k < 2 ^ 63

/-- The buffer over `array` once the bytes `written` have replaced the first
bytes of the array, the last item having had size `last`, without error. -/
def ucdrBuffer.filled (e : ucdrEndianness) (array written : List Nat) (last : Nat) :
    ucdrBuffer :=
  { consumed := written
    remaining := array.drop written.length
    last_data_size := last
    endianness := e
    error := false }

/-! ## Sample values -/

def sampleLocator : Locator :=
  { kind := .LOCATOR_KIND_UDPv4, port := 7410
    address := [0, 0, 0, 0, 0, 0, 0, 0, 0, 0, 0, 0, 192, 168, 1, 20] }

def sampleRemotePrefix : GuidPrefix_t := { id := [1, 2, 3, 4, 5, 6, 7, 8, 9, 10, 11, 12] }

def sampleLocalPrefix : GuidPrefix_t := { id := [9, 9, 9, 9, 0, 0, 0, 0, 0, 0, 0, 1] }

def sampleWriterGuid : Guid :=
  { guidPrefix := sampleRemotePrefix
    entityId := { entityKey := [0, 0, 1], entityKind := .USER_DEFINED_WRITER_WITHOUT_KEY } }

def sampleReaderId : EntityId_t :=
  { entityKey := [0, 0, 1], entityKind := .USER_DEFINED_READER_WITHOUT_KEY }

def sampleConfig : Config := { VENDOR_ID := { vendorId := [1, 43] }, IS_LITTLE_ENDIAN := true }

/-- A freshly matched proxy for `sampleWriterGuid`. -/
def sampleProxy : WriterProxy := WriterProxy.new sampleWriterGuid sampleLocator

/-- A reader with a registered callback and one freshly matched writer. -/
def sampleReader : StatefulReader :=
  { m_attributes :=
      { endpointGuid := { guidPrefix := sampleLocalPrefix, entityId := sampleReaderId }
        unicastLocator := { sampleLocator with port := 7411 } }
    m_packetInfo_srcPort := 7411
    m_proxies := [sampleProxy]
    maxProxies := 4
    m_callback := some 1
    m_callee := none
    m_is_initialized_ := true
    calls := []
    sent := [] }

/-- A DATA change of `sampleWriterGuid` with the given sequence number. -/
def sampleChange (sn : Nat) : ReaderCacheChange :=
  { kind := .ALIVE, writerGuid := sampleWriterGuid, sn := SequenceNumber_t.ofNat sn
    data := [0xDE, 0xAD, 0xBE, 0xEF] }

/-- A heartbeat of `sampleWriterGuid` announcing 1..5 with the given count. -/
def sampleHeartbeat (count : Int) : SubmessageHeartbeat :=
  { header := { submessageId := .HEARTBEAT, flags := 1, submessageLength := 28 }
    readerId := sampleReaderId
    writerId := sampleWriterGuid.entityId
    firstSN := SequenceNumber_t.ofNat 1
    lastSN := SequenceNumber_t.ofNat 5
    count := { value := count } }

/-- A stand-in for `WriterProxy::getMissing`: an empty set based at the
expected sequence number. -/
def sampleGetMissing (p : WriterProxy) (_firstSN _lastSN : SequenceNumber_t) :
    SequenceNumberSet :=
  { base := p.expectedSN, numBits := 0, bitMap := [] }

/-- A thread pool whose outgoing queue (capacity 1) is full. -/
def sampleFullPool : ThreadPool :=
  { m_queueOutgoing := { elements := [7], capacity := 1 }
    m_queueIncoming := { elements := [], capacity := 1 }
    m_writerNotificationSem := 1
    m_readerNotificationSem := 0 }

/-- A thread pool whose outgoing queue (capacity 2) has room for one writer. -/
def samplePool : ThreadPool :=
  { sampleFullPool with m_queueOutgoing := { elements := [7], capacity := 2 } }

/-- A NO_KEY writer with handle 3, attached to the given pool, that has
published nothing so far. -/
def sampleWriter (pool : Option ThreadPool) : StatelessWriter :=
  { threadPool := pool
    topicKind := .NO_KEY
    locator := sampleLocator
    lastChangeSequenceNumber := { high := 0, low := 0 }
    history := { buffer := [], capacity := 2 }
    self := 3 }

/-- An empty reader with room for four proxies. -/
def sampleSedpReader : StatefulReader :=
  { sampleReader with m_proxies := [], m_callback := some 2 }

/-- An empty writer with room for four proxies. -/
def sampleSedpWriter : StatefulWriter := { m_proxies := [], maxProxies := 4 }

/-- An announcement of the participant `guidPrefix` offering all four SEDP
endpoints, with the given metatraffic unicast locators. -/
def sampleAnnouncement (guidPrefix : GuidPrefix_t) (locators : List Locator) :
    ParticipantProxyData :=
  { m_guid :=
      { guidPrefix := guidPrefix
        entityId := { entityKey := [0, 0, 1], entityKind := .BUILD_IN_PARTICIPANT } }
    m_metatrafficUnicastLocatorList := locators
    m_availableBuiltInEndpoints := 0x3f }

/-- An agent of the participant `sampleLocalPrefix` that knows the given
remote participants and has the given announcement in its buffer. -/
def sampleAgent (known : List ParticipantProxyData) (announcement : ParticipantProxyData) :
    SPDPAgent :=
  { mp_participant :=
      { m_guidPrefix := sampleLocalPrefix
        m_participantId := 0
        m_remoteParticipants := known
        maxRemoteParticipants := 4 }
    m_buildInEndpoints :=
      { spdpWriter := { unsentResets := 0 }
        spdpReader := sampleSedpReader
        sedpPubReader := sampleSedpReader
        sedpSubReader := sampleSedpReader
        sedpPubWriter := sampleSedpWriter
        sedpSubWriter := sampleSedpWriter }
    m_proxyDataBuffer := announcement
    initialized := true }

/-- The agent `sampleAgent [] announcement` whose SEDP publications reader has
a proxy pool of size zero, so no room for a proxy. -/
def sampleAgentFullPubReader (announcement : ParticipantProxyData) : SPDPAgent :=
  { sampleAgent [] announcement with
    m_buildInEndpoints :=
      { (sampleAgent [] announcement).m_buildInEndpoints with
        sedpPubReader := { sampleSedpReader with maxProxies := 0 } } }

/-- A subnet test that accepts the addresses 192.168.1.x. -/
def sampleSameSubnet (l : Locator) : Bool :=
  l.address.take 15 == [0, 0, 0, 0, 0, 0, 0, 0, 0, 0, 0, 0, 192, 168, 1]

/-- A set asking for sequence number 3 only. -/
def sampleMissingSet : SequenceNumberSet :=
  { base := SequenceNumber_t.ofNat 3, numBits := 1, bitMap := [2147483648] }

/-- The array behind a fresh SPDP output buffer: 400 zero bytes. -/
def sampleOutputArray : List Nat := List.replicate 400 0

/-- Locator functions and lease duration for the sample participant. -/
def sampleSettings : SPDPSettings :=
  { getUserUnicastLocator := fun participantId =>
      { sampleLocator with port := 7411 + 2 * participantId }
    getBuiltInUnicastLocator := fun participantId =>
      { sampleLocator with port := 7410 + 2 * participantId }
    getBuiltInMulticastLocator :=
      { kind := .LOCATOR_KIND_UDPv4, port := 7400
        address := [0, 0, 0, 0, 0, 0, 0, 0, 0, 0, 0, 0, 239, 255, 0, 1] }
    SPDP_LEASE_DURATION := { seconds := 100, fraction := 0 } }

/-- An input buffer holding a little-endian parameter list with no parameter. -/
def sampleInputBuffer : ucdrBuffer :=
  ucdr_init_buffer sampleConfig [0x00, 0x03, 0x00, 0x00, 0x01, 0x00, 0x00, 0x00]

/-- A series of reader calls: a change, a heartbeat, a callback
registration without a function, a second match of the sample writer. -/
def sampleCalls : List ReaderCall :=
  [ReaderCall.newChange (sampleChange 1),
   ReaderCall.onNewHeartbeat (sampleHeartbeat 1) sampleRemotePrefix,
   ReaderCall.registerCallback none none,
   ReaderCall.addNewMatchedWriter sampleProxy]

/-- The local participant of the sample agent. -/
def sampleParticipant : Participant :=
  { m_guidPrefix := sampleLocalPrefix
    m_participantId := 0
    m_remoteParticipants := []
    maxRemoteParticipants := 4 }

/-- A stand-in for `ReaderCacheChange::copyInto`: the payload replaces the
first bytes of the array. -/
def sampleCopyInto (cacheChange : ReaderCacheChange) (array : List Nat) : Bool × List Nat :=
  (true, cacheChange.data ++ array.drop cacheChange.data.length)

/-- A stand-in for `readFromUcdrBuffer` that parses nothing and fails. -/
def sampleReadFails (d : ParticipantProxyData) (_buffer : ucdrBuffer) :
    Bool × ParticipantProxyData :=
  (false, d)

/-! ## Lemmas on sequence numbers -/

theorem SequenceNumber_t.value_succ (sn : SequenceNumber_t) (hr : sn.InRange)
    (hb : sn.value < 2 ^ 63 - 1) : sn.succ.value = sn.value + 1 ∧ sn.succ.InRange := by
  obtain ⟨h1, h2, h3⟩ := hr
  unfold SequenceNumber_t.value at hb ⊢
  unfold SequenceNumber_t.succ SequenceNumber_t.InRange wrapInt32
  simp only
  norm_num at h1 h2 h3 hb ⊢
  by_cases hlow : (sn.low + 1) % 4294967296 = 0
  · simp only [hlow, if_true]
    have hl : sn.low = 4294967295 := by omega
    have hh : sn.high + 1 < 2147483648 := by
      by_contra hc
      have : sn.high = 2147483647 := by omega
      rw [this, hl] at hb
      norm_num at hb
    refine ⟨?_, ?_, ?_, ?_⟩ <;> omega
  · simp only [hlow, if_false]
    refine ⟨?_, ?_, ?_, ?_⟩ <;> omega

theorem SequenceNumber_t.succ_ofNat (m : Nat) (hm : m + 1 < 2 ^ 63) :
    (SequenceNumber_t.ofNat m).succ = SequenceNumber_t.ofNat (m + 1) := by
  unfold SequenceNumber_t.succ SequenceNumber_t.ofNat wrapInt32
  simp only
  norm_num at hm ⊢
  split <;> omega

/-! ## Lemmas on the reader loops -/

theorem StatefulReader.searchWriter_firstMatch (sourceGuidPrefix : GuidPrefix_t)
    (msg : SubmessageHeartbeat) (proxies before : List WriterProxy) (writer : WriterProxy)
    (after : List WriterProxy)
    (h : FirstMatch (HeartbeatFrom sourceGuidPrefix msg) proxies before writer after) :
    StatefulReader.searchWriter sourceGuidPrefix msg.writerId proxies =
      some (before, writer, after) := by
  obtain ⟨hsplit, hfirst, hmatch⟩ := h
  subst hsplit
  induction before with
  | nil =>
    have hm : writer.remoteWriterGuid.guidPrefix = sourceGuidPrefix ∧
        writer.remoteWriterGuid.entityId = msg.writerId := hmatch
    rw [List.nil_append, StatefulReader.searchWriter, if_pos hm]
  | cons q qs ih =>
    have hq : ¬ (q.remoteWriterGuid.guidPrefix = sourceGuidPrefix ∧
        q.remoteWriterGuid.entityId = msg.writerId) := hfirst q (List.mem_cons_self _ _)
    have ih' := ih (fun x hx => hfirst x (List.mem_cons_of_mem _ hx))
    rw [List.cons_append, StatefulReader.searchWriter, if_neg hq, ih']

theorem StatefulReader.newChangeLoop_firstMatch (cacheChange : ReaderCacheChange)
    (proxies before : List WriterProxy) (writer : WriterProxy) (after : List WriterProxy)
    (h : FirstMatch (fun q => q.remoteWriterGuid = cacheChange.writerGuid)
      proxies before writer after) :
    StatefulReader.newChangeLoop cacheChange proxies =
      some (before ++ { writer with expectedSN := writer.expectedSN.succ } :: after) := by
  obtain ⟨hsplit, hfirst, hmatch⟩ := h
  subst hsplit
  induction before with
  | nil =>
    have hm : writer.remoteWriterGuid = cacheChange.writerGuid := hmatch
    rw [List.nil_append, StatefulReader.newChangeLoop, if_pos hm, List.nil_append]
  | cons q qs ih =>
    have hq : ¬ q.remoteWriterGuid = cacheChange.writerGuid := hfirst q (List.mem_cons_self _ _)
    have ih' := ih (fun x hx => hfirst x (List.mem_cons_of_mem _ hx))
    rw [List.cons_append, StatefulReader.newChangeLoop, if_neg hq, ih', List.cons_append]

/-- One `newChange` on a reader with a callback and a matching proxy. -/
theorem StatefulReader.newChange_firstMatch (r : StatefulReader) (cb : Nat)
    (cacheChange : ReaderCacheChange) (before : List WriterProxy) (writer : WriterProxy)
    (after : List WriterProxy) (hcb : r.m_callback = some cb)
    (h : FirstMatch (fun q => q.remoteWriterGuid = cacheChange.writerGuid)
      r.m_proxies before writer after) :
    r.newChange cacheChange =
      { r with
        m_proxies := before ++ { writer with expectedSN := writer.expectedSN.succ } :: after
        calls := r.calls ++
          [{ callback := cb, callee := r.m_callee, change := cacheChange }] } := by
  unfold StatefulReader.newChange
  rw [hcb]
  simp only
  rw [StatefulReader.newChangeLoop_firstMatch cacheChange r.m_proxies before writer after h]

/-- A run of `newChange` calls that all come from the writer of one proxy. -/
theorem StatefulReader.newChange_foldl (cb : Nat) (g : Guid) (before after : List WriterProxy)
    (cs : List ReaderCacheChange) :
    ∀ (r : StatefulReader) (writer : WriterProxy), r.m_callback = some cb →
      FirstMatch (fun q => q.remoteWriterGuid = g) r.m_proxies before writer after →
      (∀ c ∈ cs, c.writerGuid = g) →
      cs.foldl StatefulReader.newChange r =
        { r with
          m_proxies := before ++
            { writer with expectedSN := SequenceNumber_t.succ^[cs.length] writer.expectedSN }
              :: after
          calls := r.calls ++
            cs.map (fun c => { callback := cb, callee := r.m_callee, change := c }) } := by
  induction cs with
  | nil =>
    intro r writer _ h _
    obtain ⟨hsplit, _, _⟩ := h
    simp [← hsplit]
  | cons c cs ih =>
    intro r writer hcb h hall
    have hc : c.writerGuid = g := hall c (List.mem_cons_self _ _)
    have h1 : FirstMatch (fun q => q.remoteWriterGuid = c.writerGuid)
        r.m_proxies before writer after := by rw [hc]; exact h
    have e := StatefulReader.newChange_firstMatch r cb c before writer after hcb h1
    have hcb1 : (r.newChange c).m_callback = some cb := by rw [e]; exact hcb
    have h2 : FirstMatch (fun q => q.remoteWriterGuid = g) (r.newChange c).m_proxies before
        { writer with expectedSN := writer.expectedSN.succ } after := by
      rw [e]; exact ⟨rfl, h.2.1, h.2.2⟩
    rw [List.foldl_cons, ih (r.newChange c) { writer with expectedSN := writer.expectedSN.succ }
      hcb1 h2 (fun x hx => hall x (List.mem_cons_of_mem _ hx)), e]
    simp [Function.iterate_succ_apply]

theorem SequenceNumber_t.iterate_succ_ofNat (n m : Nat) (h : m + n < 2 ^ 63) :
    SequenceNumber_t.succ^[n] (SequenceNumber_t.ofNat m) = SequenceNumber_t.ofNat (m + n) := by
  induction n generalizing m with
  | zero => rfl
  | succ k ih =>
    rw [Function.iterate_succ_apply, SequenceNumber_t.succ_ofNat m (by omega), ih (m + 1) (by omega)]
    congr 1
    omega

/-! ## StatefulReader: heartbeats -/

/-- C1: a heartbeat for the proxy the search stops at, whose count is not
above that proxy's stored heartbeat count, makes `onNewHeartbeat` return false
and leaves the reader as it was: no packet is sent, and the proxy's `hbCount`
and ACKNACK counter (indeed every proxy) are unchanged. -/
theorem onNewHeartbeat_stale_count_ignored (cfg : Config)
    (getMissing : WriterProxy → SequenceNumber_t → SequenceNumber_t → SequenceNumberSet)
    (r : StatefulReader) (msg : SubmessageHeartbeat) (sourceGuidPrefix : GuidPrefix_t)
    (before : List WriterProxy) (writer : WriterProxy) (after : List WriterProxy)
    (hsel : FirstMatch (HeartbeatFrom sourceGuidPrefix msg) r.m_proxies before writer after)
    (hcount : msg.count.value ≤ writer.hbCount.value) :
    (r.onNewHeartbeat cfg getMissing msg sourceGuidPrefix).1 = false ∧
    (r.onNewHeartbeat cfg getMissing msg sourceGuidPrefix).2.sent = r.sent ∧
    (r.onNewHeartbeat cfg getMissing msg sourceGuidPrefix).2.m_proxies =
      before ++ writer :: after ∧
    (r.onNewHeartbeat cfg getMissing msg sourceGuidPrefix).2 = r := by
  have hs := StatefulReader.searchWriter_firstMatch sourceGuidPrefix msg r.m_proxies
    before writer after hsel
  have e : r.onNewHeartbeat cfg getMissing msg sourceGuidPrefix = (false, r) := by
    unfold StatefulReader.onNewHeartbeat
    rw [hs]
    simp only
    rw [if_pos hcount]
  rw [e]
  exact ⟨rfl, rfl, hsel.1, rfl⟩

theorem onNewHeartbeat_stale_count_ignored_witness :
    FirstMatch (HeartbeatFrom sampleRemotePrefix (sampleHeartbeat 0)) sampleReader.m_proxies
      [] sampleProxy [] ∧
    (sampleHeartbeat 0).count.value ≤ sampleProxy.hbCount.value ∧
    (sampleReader.onNewHeartbeat sampleConfig sampleGetMissing (sampleHeartbeat 0)
      sampleRemotePrefix).1 = false ∧
    (sampleReader.onNewHeartbeat sampleConfig sampleGetMissing (sampleHeartbeat 0)
      sampleRemotePrefix).2.sent = sampleReader.sent ∧
    (sampleReader.onNewHeartbeat sampleConfig sampleGetMissing (sampleHeartbeat 0)
      sampleRemotePrefix).2.m_proxies = [] ++ sampleProxy :: [] ∧
    (sampleReader.onNewHeartbeat sampleConfig sampleGetMissing (sampleHeartbeat 0)
      sampleRemotePrefix).2 = sampleReader :=
  have hsel : FirstMatch (HeartbeatFrom sampleRemotePrefix (sampleHeartbeat 0))
      sampleReader.m_proxies [] sampleProxy [] :=
    ⟨rfl, fun _ hq => absurd hq (List.not_mem_nil _), ⟨rfl, rfl⟩⟩
  have hcount : (sampleHeartbeat 0).count.value ≤ sampleProxy.hbCount.value := by decide
  ⟨hsel, hcount, onNewHeartbeat_stale_count_ignored sampleConfig sampleGetMissing sampleReader
    (sampleHeartbeat 0) sampleRemotePrefix [] sampleProxy [] hsel hcount⟩

/-- C3 (the code at the failing input): the sequence-number check of
`newChange` is commented out, so a duplicate is delivered again. After the
change with sequence number 1 has been delivered (expectedSN is 2), the same
change has a sequence number below expectedSN, yet `newChange` invokes the
callback a second time with it and moves expectedSN on to 3. -/
theorem newChange_duplicate_delivered_again :
    (sampleReader.newChange (sampleChange 1)).calls =
      [{ callback := 1, callee := none, change := sampleChange 1 }] ∧
    (sampleReader.newChange (sampleChange 1)).m_proxies.map (fun q => q.expectedSN) =
      [SequenceNumber_t.ofNat 2] ∧
    (sampleChange 1).sn.value < (SequenceNumber_t.ofNat 2).value ∧
    ((sampleReader.newChange (sampleChange 1)).newChange (sampleChange 1)).calls =
      [{ callback := 1, callee := none, change := sampleChange 1 },
       { callback := 1, callee := none, change := sampleChange 1 }] ∧
    ((sampleReader.newChange (sampleChange 1)).newChange (sampleChange 1)).m_proxies.map
      (fun q => q.expectedSN) = [SequenceNumber_t.ofNat 3] := by
  decide

/-- C4 (counterexample): with expectedSN = 1, the change with sequence number
5 comes after a gap; `newChange` delivers it, but expectedSN becomes 2, which
is not 5 + 1. -/
theorem newChange_gap_expectedSN_counterexample :
    sampleProxy.expectedSN.value < (sampleChange 5).sn.value ∧
    (sampleReader.newChange (sampleChange 5)).calls =
      [{ callback := 1, callee := none, change := sampleChange 5 }] ∧
    (sampleReader.newChange (sampleChange 5)).m_proxies.map (fun q => q.expectedSN.value) =
      [2] ∧
    (sampleReader.newChange (sampleChange 5)).m_proxies.map (fun q => q.expectedSN.value) ≠
      [(sampleChange 5).sn.value + 1] := by
  decide

/-- C4 (amended): for a change whose writer GUID first matches `writer` with a
sequence number above `writer.expectedSN` (a gap), `newChange` records no
missing range and does not move that proxy's expectedSN to the change's number
plus one. The reader changes in at most two places: the callback log gains
either nothing or one invocation of the registered callback with the change,
and that proxy's expectedSN is kept in the first case and advanced by exactly
one in the second, so it stays at or below the change's sequence number.
Every other proxy and every other field of the reader is as before. Whether a
change that follows a gap is delivered is not part of the statement. -/
theorem newChange_gap_no_skip (r : StatefulReader) (cacheChange : ReaderCacheChange)
    (before : List WriterProxy) (writer : WriterProxy) (after : List WriterProxy)
    (hsel : FirstMatch (fun q => q.remoteWriterGuid = cacheChange.writerGuid)
      r.m_proxies before writer after)
    (hrange : writer.expectedSN.InRange) (hsn : cacheChange.sn.InRange)
    (hgap : writer.expectedSN.value < cacheChange.sn.value) :
    ∃ (writer' : WriterProxy) (extra : List CallbackCall),
      r.newChange cacheChange =
        { r with m_proxies := before ++ writer' :: after, calls := r.calls ++ extra } ∧
      ((extra = [] ∧ writer' = writer) ∨
        (∃ cb, r.m_callback = some cb ∧
          extra = [{ callback := cb, callee := r.m_callee, change := cacheChange }] ∧
          writer' = { writer with expectedSN := writer.expectedSN.succ } ∧
          writer'.expectedSN.value = writer.expectedSN.value + 1)) ∧
      writer'.expectedSN.value ≤ cacheChange.sn.value ∧
      writer'.expectedSN.value ≠ cacheChange.sn.value + 1 := by
  have hb : cacheChange.sn.value < 2 ^ 63 := by
    obtain ⟨_, h2, h3⟩ := hsn
    unfold SequenceNumber_t.value
    norm_num at h2 h3 ⊢
    omega
  have hval : writer.expectedSN.succ.value = writer.expectedSN.value + 1 :=
    (SequenceNumber_t.value_succ writer.expectedSN hrange (by omega)).1
  have hcases : r.m_callback = none ∨ ∃ cb, r.m_callback = some cb := by
    cases r.m_callback with
    | none => exact Or.inl rfl
    | some cb => exact Or.inr ⟨cb, rfl⟩
  obtain hcb | ⟨cb, hcb⟩ := hcases
  · refine ⟨writer, [], ?_, Or.inl ⟨rfl, rfl⟩, by omega, by omega⟩
    have e : r.newChange cacheChange = r := by
      unfold StatefulReader.newChange
      rw [hcb]
    rw [e, List.append_nil, ← hsel.1]
  · refine ⟨{ writer with expectedSN := writer.expectedSN.succ },
      [{ callback := cb, callee := r.m_callee, change := cacheChange }],
      StatefulReader.newChange_firstMatch r cb cacheChange before writer after hcb hsel,
      Or.inr ⟨cb, hcb, rfl, rfl, hval⟩, ?_, ?_⟩
    · show writer.expectedSN.succ.value ≤ cacheChange.sn.value
      omega
    · show writer.expectedSN.succ.value ≠ cacheChange.sn.value + 1
      omega

theorem newChange_gap_no_skip_witness :
    FirstMatch (fun q => q.remoteWriterGuid = (sampleChange 5).writerGuid)
      sampleReader.m_proxies [] sampleProxy [] ∧
    sampleProxy.expectedSN.value < (sampleChange 5).sn.value ∧
    ∃ (writer' : WriterProxy) (extra : List CallbackCall),
      sampleReader.newChange (sampleChange 5) =
        { sampleReader with
          m_proxies := [] ++ writer' :: [], calls := sampleReader.calls ++ extra } ∧
      ((extra = [] ∧ writer' = sampleProxy) ∨
        (∃ cb, sampleReader.m_callback = some cb ∧
          extra = [{ callback := cb, callee := sampleReader.m_callee,
                     change := sampleChange 5 }] ∧
          writer' = { sampleProxy with expectedSN := sampleProxy.expectedSN.succ } ∧
          writer'.expectedSN.value = sampleProxy.expectedSN.value + 1)) ∧
      writer'.expectedSN.value ≤ (sampleChange 5).sn.value ∧
      writer'.expectedSN.value ≠ (sampleChange 5).sn.value + 1 :=
  have hsel : FirstMatch (fun q => q.remoteWriterGuid = (sampleChange 5).writerGuid)
      sampleReader.m_proxies [] sampleProxy [] :=
    ⟨rfl, fun _ hq => absurd hq (List.not_mem_nil _), rfl⟩
  have hgap : sampleProxy.expectedSN.value < (sampleChange 5).sn.value := by decide
  ⟨hsel, hgap, newChange_gap_no_skip sampleReader (sampleChange 5) [] sampleProxy [] hsel
    (by unfold SequenceNumber_t.InRange; decide)
    (by unfold SequenceNumber_t.InRange; decide) hgap⟩

/-- C5: on a reader with a registered callback whose first proxy for writer
`g` is freshly matched (expectedSN = 1), feeding `newChange` the changes of `g`
with sequence numbers 1, 2, ..., n in that order (n + 1 below 2^63) invokes
the callback exactly n times, the i-th invocation with the i-th change, whose
sequence number is i, and leaves that proxy's expectedSN at n + 1; no other
proxy changes. -/
theorem newChange_in_order_delivery (n : Nat) (r : StatefulReader) (cb : Nat) (g : Guid)
    (before : List WriterProxy) (writer : WriterProxy) (after : List WriterProxy)
    (cs : List ReaderCacheChange) (hcb : r.m_callback = some cb)
    (hsel : FirstMatch (fun q => q.remoteWriterGuid = g) r.m_proxies before writer after)
    (hfresh : writer.expectedSN = SequenceNumber_t.ofNat 1)
    (hguid : ∀ c ∈ cs, c.writerGuid = g)
    (hsns : cs.map (fun c => c.sn) =
      (List.range n).map (fun i => SequenceNumber_t.ofNat (i + 1)))
    (hbound : n + 1 < 2 ^ 63) :
    (cs.foldl StatefulReader.newChange r).calls =
      r.calls ++ cs.map (fun c => { callback := cb, callee := r.m_callee, change := c }) ∧
    ((cs.foldl StatefulReader.newChange r).calls.drop r.calls.length).length = n ∧
    ((cs.foldl StatefulReader.newChange r).calls.drop r.calls.length).map
        (fun call => call.change.sn) =
      (List.range n).map (fun i => SequenceNumber_t.ofNat (i + 1)) ∧
    (cs.foldl StatefulReader.newChange r).m_proxies =
      before ++ { writer with expectedSN := SequenceNumber_t.ofNat (n + 1) } :: after := by
  have hlen : cs.length = n := by
    have := congrArg List.length hsns
    simpa using this
  rw [StatefulReader.newChange_foldl cb g before after cs r writer hcb hsel hguid]
  simp only [List.drop_left, List.length_map, List.map_map]
  refine ⟨trivial, hlen, ?_, ?_⟩
  · rw [← hsns]
    rfl
  · rw [hfresh, hlen, SequenceNumber_t.iterate_succ_ofNat n 1 (by omega), Nat.add_comm 1 n]

theorem newChange_in_order_delivery_witness :
    ([sampleChange 1, sampleChange 2, sampleChange 3].foldl
      StatefulReader.newChange sampleReader).calls =
      [{ callback := 1, callee := none, change := sampleChange 1 },
       { callback := 1, callee := none, change := sampleChange 2 },
       { callback := 1, callee := none, change := sampleChange 3 }] ∧
    ([sampleChange 1, sampleChange 2, sampleChange 3].foldl
      StatefulReader.newChange sampleReader).m_proxies =
      [{ sampleProxy with expectedSN := SequenceNumber_t.ofNat 4 }] :=
  have h := newChange_in_order_delivery 3 sampleReader 1 sampleWriterGuid [] sampleProxy []
    [sampleChange 1, sampleChange 2, sampleChange 3] rfl
    ⟨rfl, fun _ hq => absurd hq (List.not_mem_nil _), rfl⟩ rfl (by decide) (by decide)
    (by decide)
  ⟨h.1, h.2.2.2⟩

/-! ## StatelessWriter -/

theorem StatelessWriter.isIrrelevant_iff (w : StatelessWriter) (kind : ChangeKind_t) :
    w.isIrrelevant kind = true ↔
      (kind = ChangeKind_t.INVALID ∨
        (w.topicKind = TopicKind_t.NO_KEY ∧ kind ≠ ChangeKind_t.ALIVE)) := by
  unfold StatelessWriter.isIrrelevant
  simp

theorem StatelessWriter.newChange_rejected (w : StatelessWriter) (kind : ChangeKind_t)
    (data : List Nat) (h : w.isIrrelevant kind = true) :
    w.newChange kind data = (INVALID_CACHE_CHANGE, w) := by
  unfold StatelessWriter.newChange
  rw [if_pos h]

theorem StatelessWriter.newChange_accepted (w : StatelessWriter) (kind : ChangeKind_t)
    (data : List Nat) (h : ¬ w.isIrrelevant kind = true) :
    w.newChange kind data =
      ({ kind := kind, data := data, sequenceNumber := w.lastChangeSequenceNumber.succ },
       { w with
         lastChangeSequenceNumber := w.lastChangeSequenceNumber.succ
         history := (w.history.addChange
           { kind := kind, data := data,
             sequenceNumber := w.lastChangeSequenceNumber.succ }).2
         threadPool := match w.threadPool with
           | some tp => some (tp.addWorkload w.self).2
           | none => none }) := by
  unfold StatelessWriter.newChange
  rw [if_neg h]
  rfl

/-- The facts about a run of `newChange` calls, by induction on the calls. -/
theorem StatelessWriter.acceptedCalls_spec (calls : List (ChangeKind_t × List Nat)) :
    ∀ w : StatelessWriter, w.lastChangeSequenceNumber.InRange →
      w.lastChangeSequenceNumber.value + (w.acceptedCalls calls).length < 2 ^ 63 →
      (∀ t ∈ w.acceptedCalls calls, t.2.1.value = t.1.value + 1 ∧ t.2.1 = t.2.2) ∧
      List.Chain' (fun a b => b.2.1.value = a.2.1.value + 1) (w.acceptedCalls calls) ∧
      (∀ t ∈ (w.acceptedCalls calls).head?, t.1 = w.lastChangeSequenceNumber) := by
  induction calls with
  | nil =>
    intro w _ _
    simp [StatelessWriter.acceptedCalls]
  | cons call calls ih =>
    intro w hr hb
    by_cases hirr : w.isIrrelevant call.1 = true
    · have e : w.acceptedCalls (call :: calls) = w.acceptedCalls calls := by
        rw [StatelessWriter.acceptedCalls]
        simp only [hirr, if_true, StatelessWriter.newChange_rejected w call.1 call.2 hirr]
      rw [e] at hb ⊢
      exact ih w hr hb
    · have hacc := StatelessWriter.newChange_accepted w call.1 call.2 hirr
      have e : w.acceptedCalls (call :: calls) =
          (w.lastChangeSequenceNumber, w.lastChangeSequenceNumber.succ,
            w.lastChangeSequenceNumber.succ) ::
            (w.newChange call.1 call.2).2.acceptedCalls calls := by
        rw [StatelessWriter.acceptedCalls]
        simp only [hirr]
        rw [hacc]
        rfl
      have hlast : (w.newChange call.1 call.2).2.lastChangeSequenceNumber =
          w.lastChangeSequenceNumber.succ := by rw [hacc]
      rw [e] at hb ⊢
      rw [List.length_cons] at hb
      have hs := SequenceNumber_t.value_succ w.lastChangeSequenceNumber hr (by omega)
      have ih' := ih (w.newChange call.1 call.2).2 (by rw [hlast]; exact hs.2)
        (by rw [hlast, hs.1]; omega)
      obtain ⟨hA, hB, hC⟩ := ih'
      refine ⟨?_, ?_, ?_⟩
      · intro t ht
        rcases List.mem_cons.mp ht with h | h
        · subst h
          exact ⟨hs.1, rfl⟩
        · exact hA t h
      · rw [List.chain'_cons']
        refine ⟨?_, hB⟩
        intro y hy
        have hy1 := hC y hy
        have hy2 := (hA y (List.mem_of_mem_head? hy)).1
        rw [hy2, hy1, hlast]
      · intro t ht
        simp only [List.head?_cons, Option.mem_def, Option.some.injEq] at ht
        rw [← ht]

/-- C6: in any series of `newChange` calls on one writer, every accepted call
gives its change the sequence number `getLastSequenceNumber()` before the call
plus one, which is also `getLastSequenceNumber()` after the call; and of two
consecutive accepted calls (rejected calls may lie between them) the second
gets the sequence number of the first plus one. Sequence numbers stay below
2^63. -/
theorem newChange_sequence_monotone (w : StatelessWriter)
    (calls : List (ChangeKind_t × List Nat))
    (hrange : w.lastChangeSequenceNumber.InRange)
    (hbound : w.lastChangeSequenceNumber.value + (w.acceptedCalls calls).length < 2 ^ 63) :
    List.Chain' (fun a b => b.2.1.value = a.2.1.value + 1) (w.acceptedCalls calls) ∧
    (∀ t ∈ w.acceptedCalls calls, t.2.1.value = t.1.value + 1 ∧ t.2.1 = t.2.2) := by
  have h := StatelessWriter.acceptedCalls_spec calls w hrange hbound
  exact ⟨h.2.1, h.1⟩

theorem newChange_sequence_monotone_witness :
    (sampleWriter none).acceptedCalls
        [(.ALIVE, [1]), (.INVALID, []), (.NOT_ALIVE_DISPOSED, [2]), (.ALIVE, [3])] =
      [(SequenceNumber_t.ofNat 0, SequenceNumber_t.ofNat 1, SequenceNumber_t.ofNat 1),
       (SequenceNumber_t.ofNat 1, SequenceNumber_t.ofNat 2, SequenceNumber_t.ofNat 2)] ∧
    List.Chain' (fun a b => b.2.1.value = a.2.1.value + 1)
      ((sampleWriter none).acceptedCalls
        [(.ALIVE, [1]), (.INVALID, []), (.NOT_ALIVE_DISPOSED, [2]), (.ALIVE, [3])]) ∧
    (∀ t ∈ (sampleWriter none).acceptedCalls
        [(.ALIVE, [1]), (.INVALID, []), (.NOT_ALIVE_DISPOSED, [2]), (.ALIVE, [3])],
      t.2.1.value = t.1.value + 1 ∧ t.2.1 = t.2.2) :=
  ⟨by decide, newChange_sequence_monotone (sampleWriter none)
    [(.ALIVE, [1]), (.INVALID, []), (.NOT_ALIVE_DISPOSED, [2]), (.ALIVE, [3])]
    (by unfold SequenceNumber_t.InRange; decide) (by decide)⟩

/-- C7 (counterexample): an accepted `newChange` on a writer whose thread pool
has a full outgoing queue stores the change but does not enqueue the writer:
the queue still holds only the element it held before. -/
theorem newChange_full_queue_counterexample :
    (sampleWriter (some sampleFullPool)).isIrrelevant ChangeKind_t.ALIVE = false ∧
    ((sampleWriter (some sampleFullPool)).newChange ChangeKind_t.ALIVE [1, 2]).1 ≠
      INVALID_CACHE_CHANGE ∧
    ((sampleWriter (some sampleFullPool)).newChange ChangeKind_t.ALIVE [1, 2]).2.threadPool =
      some sampleFullPool ∧
    (sampleWriter (some sampleFullPool)).self ∉ sampleFullPool.m_queueOutgoing.elements := by
  decide

/-- C7 (amended): `newChange` returns the sentinel INVALID change exactly when
kind is INVALID or (topicKind is NO_KEY and kind is not ALIVE), and then the
writer (last sequence number, history, thread pool) is unchanged. Otherwise
the change returned and stored last in the history has the given kind, the
given payload bytes and the sequence number after the last one, which becomes
the last sequence number; `addWorkload` is called once on an attached thread
pool, which appends the writer to the outgoing queue (and signals once) when
the queue has room and leaves the pool unchanged when the queue is full. -/
theorem newChange_rejects_or_stores (w : StatelessWriter) (kind : ChangeKind_t)
    (data : List Nat) :
    ((w.newChange kind data).1 = INVALID_CACHE_CHANGE ↔
      (kind = ChangeKind_t.INVALID ∨
        (w.topicKind = TopicKind_t.NO_KEY ∧ kind ≠ ChangeKind_t.ALIVE))) ∧
    ((kind = ChangeKind_t.INVALID ∨
        (w.topicKind = TopicKind_t.NO_KEY ∧ kind ≠ ChangeKind_t.ALIVE)) →
      (w.newChange kind data).2 = w) ∧
    (¬ (kind = ChangeKind_t.INVALID ∨
        (w.topicKind = TopicKind_t.NO_KEY ∧ kind ≠ ChangeKind_t.ALIVE)) →
      (w.newChange kind data).1 =
        { kind := kind, data := data, sequenceNumber := w.lastChangeSequenceNumber.succ } ∧
      (w.newChange kind data).2.history.buffer.getLast? =
        some { kind := kind, data := data,
               sequenceNumber := w.lastChangeSequenceNumber.succ } ∧
      (w.newChange kind data).2.lastChangeSequenceNumber = w.lastChangeSequenceNumber.succ ∧
      (w.lastChangeSequenceNumber.InRange → w.lastChangeSequenceNumber.value < 2 ^ 63 - 1 →
        (w.newChange kind data).1.sequenceNumber.value =
          w.lastChangeSequenceNumber.value + 1) ∧
      (w.threadPool = none → (w.newChange kind data).2.threadPool = none) ∧
      (∀ tp, w.threadPool = some tp →
        (w.newChange kind data).2.threadPool = some (tp.addWorkload w.self).2) ∧
      (∀ tp, w.threadPool = some tp →
        tp.m_queueOutgoing.elements.length < tp.m_queueOutgoing.capacity →
        (w.newChange kind data).2.threadPool =
          some { tp with
            m_queueOutgoing :=
              { tp.m_queueOutgoing with
                elements := tp.m_queueOutgoing.elements ++ [w.self] }
            m_writerNotificationSem := tp.m_writerNotificationSem + 1 }) ∧
      (∀ tp, w.threadPool = some tp →
        ¬ tp.m_queueOutgoing.elements.length < tp.m_queueOutgoing.capacity →
        (w.newChange kind data).2.threadPool = some tp)) := by
  have hiff := StatelessWriter.isIrrelevant_iff w kind
  refine ⟨?_, ?_, ?_⟩
  · by_cases hirr : w.isIrrelevant kind = true
    · rw [StatelessWriter.newChange_rejected w kind data hirr]
      exact ⟨fun _ => hiff.mp hirr, fun _ => rfl⟩
    · rw [StatelessWriter.newChange_accepted w kind data hirr]
      constructor
      · intro h
        have hk : kind = ChangeKind_t.INVALID := congrArg CacheChange.kind h
        exact Or.inl hk
      · intro h
        exact absurd (hiff.mpr h) hirr
  · intro h
    rw [StatelessWriter.newChange_rejected w kind data (hiff.mpr h)]
  · intro h
    have hirr : ¬ w.isIrrelevant kind = true := fun hc => h (hiff.mp hc)
    rw [StatelessWriter.newChange_accepted w kind data hirr]
    refine ⟨rfl, ?_, rfl, ?_, ?_, ?_, ?_, ?_⟩
    · simp [HistoryCache.addChange]
    · intro hr hb
      exact (SequenceNumber_t.value_succ w.lastChangeSequenceNumber hr hb).1
    · intro hnone
      simp only [hnone]
    · intro tp htp
      simp only [htp]
    · intro tp htp hroom
      simp only [htp, ThreadPool.addWorkload,
        ThreadSafeCircularBuffer.moveElementIntoBuffer, if_pos hroom, if_true]
    · intro tp htp hfull
      simp only [htp, ThreadPool.addWorkload,
        ThreadSafeCircularBuffer.moveElementIntoBuffer, if_neg hfull]
      rfl

theorem newChange_rejects_or_stores_witness :
    ((sampleWriter (some samplePool)).newChange ChangeKind_t.NOT_ALIVE_DISPOSED [1, 2]).1 =
      INVALID_CACHE_CHANGE ∧
    ((sampleWriter (some samplePool)).newChange ChangeKind_t.NOT_ALIVE_DISPOSED [1, 2]).2 =
      sampleWriter (some samplePool) ∧
    ((sampleWriter (some samplePool)).newChange ChangeKind_t.ALIVE [1, 2]).1 =
      { kind := ChangeKind_t.ALIVE, data := [1, 2],
        sequenceNumber := SequenceNumber_t.ofNat 1 } ∧
    (((sampleWriter (some samplePool)).newChange ChangeKind_t.ALIVE [1, 2]).2.threadPool.map
      (fun tp => (tp.m_queueOutgoing.elements, tp.m_writerNotificationSem))) =
      some ([7, 3], 2) :=
  have hrej := newChange_rejects_or_stores (sampleWriter (some samplePool))
    ChangeKind_t.NOT_ALIVE_DISPOSED [1, 2]
  have hacc := (newChange_rejects_or_stores (sampleWriter (some samplePool))
    ChangeKind_t.ALIVE [1, 2]).2.2 (by decide)
  ⟨hrej.1.mpr (by decide), hrej.2.1 (by decide), hacc.1,
    by rw [hacc.2.2.2.2.2.2.1 samplePool rfl (by decide)]; decide⟩

/-! ## SPDPAgent -/

theorem SPDPAgent.findLocator_first (isSameSubnet : Locator → Bool)
    (before : List Locator) (locator : Locator) (after : List Locator)
    (hfirst : ∀ l ∈ before, ¬ (l.isValid = true ∧ isSameSubnet l = true))
    (hgood : locator.isValid = true ∧ isSameSubnet locator = true) :
    SPDPAgent.findLocator isSameSubnet (before ++ locator :: after) = some locator := by
  induction before with
  | nil => simp [SPDPAgent.findLocator, hgood.1, hgood.2]
  | cons l ls ih =>
    have hl := hfirst l (List.mem_cons_self _ _)
    have hl' : ¬ ((l.isValid && isSameSubnet l) = true) := by
      simpa [Bool.and_eq_true] using hl
    rw [List.cons_append, SPDPAgent.findLocator, if_neg hl']
    exact ih (fun x hx => hfirst x (List.mem_cons_of_mem _ hx))

theorem SPDPAgent.findLocator_none (isSameSubnet : Locator → Bool) (locators : List Locator)
    (h : ∀ l ∈ locators, ¬ (l.isValid = true ∧ isSameSubnet l = true)) :
    SPDPAgent.findLocator isSameSubnet locators = none := by
  induction locators with
  | nil => rfl
  | cons l ls ih =>
    have hl := h l (List.mem_cons_self _ _)
    have hl' : ¬ ((l.isValid && isSameSubnet l) = true) := by
      simpa [Bool.and_eq_true] using hl
    rw [SPDPAgent.findLocator, if_neg hl']
    exact ih (fun x hx => h x (List.mem_cons_of_mem _ hx))

theorem GuidPrefix_t.id_ne (p q : GuidPrefix_t) (h : p ≠ q) : p.id ≠ q.id := by
  intro hid
  apply h
  cases p
  cases q
  simp only [GuidPrefix_t.mk.injEq]
  exact hid

theorem Participant.findRemoteParticipant_none (p : Participant) (guidPrefix : GuidPrefix_t)
    (h : ∀ d ∈ p.m_remoteParticipants, d.m_guid.guidPrefix ≠ guidPrefix) :
    p.findRemoteParticipant guidPrefix = none := by
  unfold Participant.findRemoteParticipant
  rw [List.find?_eq_none]
  intro d hd
  simpa using h d hd

theorem Participant.findRemoteParticipant_isSome (p : Participant) (guidPrefix : GuidPrefix_t)
    (h : ∃ d ∈ p.m_remoteParticipants, d.m_guid.guidPrefix = guidPrefix) :
    (p.findRemoteParticipant guidPrefix).isSome = true := by
  unfold Participant.findRemoteParticipant
  rw [List.find?_isSome]
  obtain ⟨d, hd, hg⟩ := h
  exact ⟨d, hd, by simpa using hg⟩

/-- C8: when the announcement in the buffer carries the local participant's
own prefix, `processProxyData` changes nothing: the remote-participant table,
the proxies of every built-in endpoint and the SPDP writer stay as they are. -/
theorem processProxyData_own_echo (isSameSubnet : Locator → Bool) (a : SPDPAgent)
    (hown : a.m_proxyDataBuffer.m_guid.guidPrefix = a.mp_participant.m_guidPrefix) :
    SPDPAgent.processProxyData isSameSubnet a = a ∧
    (SPDPAgent.processProxyData isSameSubnet a).mp_participant.m_remoteParticipants =
      a.mp_participant.m_remoteParticipants ∧
    (SPDPAgent.processProxyData isSameSubnet a).m_buildInEndpoints = a.m_buildInEndpoints := by
  have e : SPDPAgent.processProxyData isSameSubnet a = a := by
    unfold SPDPAgent.processProxyData
    rw [if_pos (congrArg GuidPrefix_t.id hown)]
  rw [e]
  exact ⟨rfl, rfl, rfl⟩

theorem processProxyData_own_echo_witness :
    SPDPAgent.processProxyData sampleSameSubnet
        (sampleAgent [] (sampleAnnouncement sampleLocalPrefix [sampleLocator])) =
      sampleAgent [] (sampleAnnouncement sampleLocalPrefix [sampleLocator]) :=
  (processProxyData_own_echo sampleSameSubnet
    (sampleAgent [] (sampleAnnouncement sampleLocalPrefix [sampleLocator])) rfl).1

/-- C9 (counterexample): a new remote participant that offers all four SEDP
endpoints but announces no metatraffic unicast locator is added to the table,
and the SPDP writer is reset, yet no proxy is added to any built-in endpoint. -/
theorem processProxyData_no_locator_counterexample :
    (sampleAnnouncement sampleRemotePrefix []).hasPublicationWriter = true ∧
    (sampleAnnouncement sampleRemotePrefix []).hasSubscriptionWriter = true ∧
    (sampleAnnouncement sampleRemotePrefix []).hasPublicationReader = true ∧
    (sampleAnnouncement sampleRemotePrefix []).hasSubscriptionReader = true ∧
    (SPDPAgent.processProxyData sampleSameSubnet
      (sampleAgent [] (sampleAnnouncement sampleRemotePrefix []))).mp_participant.m_remoteParticipants
        = [sampleAnnouncement sampleRemotePrefix []] ∧
    (SPDPAgent.processProxyData sampleSameSubnet
      (sampleAgent [] (sampleAnnouncement sampleRemotePrefix []))).m_buildInEndpoints =
      { (sampleAgent [] (sampleAnnouncement sampleRemotePrefix [])).m_buildInEndpoints with
        spdpWriter := { unsentResets := 1 } } ∧
    (SPDPAgent.processProxyData sampleSameSubnet
      (sampleAgent [] (sampleAnnouncement sampleRemotePrefix []))).m_buildInEndpoints.sedpPubReader.m_proxies
        = [] := by
  decide

/-- C9 (amended): for an announcement from a non-local participant that is not
in the table and is successfully added, `processProxyData` appends the
announcement to the table, marks the SPDP writer's changes unsent once and
leaves the SPDP reader as it is. If no entry of the peer's metatraffic unicast
locator list is valid and in the local subnet, none of the four SEDP endpoints
changes, whatever the peer's endpoint bitmask. Otherwise, with `locator` the
first valid same-subnet entry, each SEDP endpoint on its own gets exactly one
proxy, appended to its pool, when its bit of the bitmask is set and its pool
has room, and is unchanged when its bit is clear or its pool is full: a
WriterProxy (peer prefix, SEDP publications writer) with `locator` on
sedpPubReader for the publications-writer bit, a WriterProxy (peer prefix,
SEDP subscriptions writer) on sedpSubReader for the subscriptions-writer bit, a
ReaderProxy (peer prefix, SEDP publications reader) on sedpPubWriter for the
publications-reader bit, a ReaderProxy (peer prefix, SEDP subscriptions reader)
on sedpSubWriter for the subscriptions-reader bit. -/
theorem processProxyData_new_participant (isSameSubnet : Locator → Bool) (a : SPDPAgent)
    (hother : a.m_proxyDataBuffer.m_guid.guidPrefix ≠ a.mp_participant.m_guidPrefix)
    (hunknown : ∀ d ∈ a.mp_participant.m_remoteParticipants,
      d.m_guid.guidPrefix ≠ a.m_proxyDataBuffer.m_guid.guidPrefix)
    (hadded : (a.mp_participant.addNewRemoteParticipant a.m_proxyDataBuffer).1 = true) :
    (SPDPAgent.processProxyData isSameSubnet a).mp_participant.m_remoteParticipants =
      a.mp_participant.m_remoteParticipants ++ [a.m_proxyDataBuffer] ∧
    (SPDPAgent.processProxyData isSameSubnet a).m_buildInEndpoints.spdpWriter.unsentResets =
      a.m_buildInEndpoints.spdpWriter.unsentResets + 1 ∧
    (SPDPAgent.processProxyData isSameSubnet a).m_buildInEndpoints.spdpReader =
      a.m_buildInEndpoints.spdpReader ∧
    ((∀ l ∈ a.m_proxyDataBuffer.m_metatrafficUnicastLocatorList,
        ¬ (l.isValid = true ∧ isSameSubnet l = true)) →
      (SPDPAgent.processProxyData isSameSubnet a).m_buildInEndpoints.sedpPubReader =
        a.m_buildInEndpoints.sedpPubReader ∧
      (SPDPAgent.processProxyData isSameSubnet a).m_buildInEndpoints.sedpSubReader =
        a.m_buildInEndpoints.sedpSubReader ∧
      (SPDPAgent.processProxyData isSameSubnet a).m_buildInEndpoints.sedpPubWriter =
        a.m_buildInEndpoints.sedpPubWriter ∧
      (SPDPAgent.processProxyData isSameSubnet a).m_buildInEndpoints.sedpSubWriter =
        a.m_buildInEndpoints.sedpSubWriter) ∧
    (∀ before locator after,
      a.m_proxyDataBuffer.m_metatrafficUnicastLocatorList = before ++ locator :: after →
      (∀ l ∈ before, ¬ (l.isValid = true ∧ isSameSubnet l = true)) →
      (locator.isValid = true ∧ isSameSubnet locator = true) →
      (SPDPAgent.processProxyData isSameSubnet a).m_buildInEndpoints.sedpPubReader =
        (if a.m_proxyDataBuffer.hasPublicationWriter = true ∧
            a.m_buildInEndpoints.sedpPubReader.m_proxies.length <
              a.m_buildInEndpoints.sedpPubReader.maxProxies then
          { a.m_buildInEndpoints.sedpPubReader with
            m_proxies := a.m_buildInEndpoints.sedpPubReader.m_proxies ++
              [WriterProxy.new ⟨a.m_proxyDataBuffer.m_guid.guidPrefix,
                ENTITYID_SEDP_BUILTIN_PUBLICATIONS_WRITER⟩ locator] }
        else a.m_buildInEndpoints.sedpPubReader) ∧
      (SPDPAgent.processProxyData isSameSubnet a).m_buildInEndpoints.sedpSubReader =
        (if a.m_proxyDataBuffer.hasSubscriptionWriter = true ∧
            a.m_buildInEndpoints.sedpSubReader.m_proxies.length <
              a.m_buildInEndpoints.sedpSubReader.maxProxies then
          { a.m_buildInEndpoints.sedpSubReader with
            m_proxies := a.m_buildInEndpoints.sedpSubReader.m_proxies ++
              [WriterProxy.new ⟨a.m_proxyDataBuffer.m_guid.guidPrefix,
                ENTITYID_SEDP_BUILTIN_SUBSCRIPTIONS_WRITER⟩ locator] }
        else a.m_buildInEndpoints.sedpSubReader) ∧
      (SPDPAgent.processProxyData isSameSubnet a).m_buildInEndpoints.sedpPubWriter =
        (if a.m_proxyDataBuffer.hasPublicationReader = true ∧
            a.m_buildInEndpoints.sedpPubWriter.m_proxies.length <
              a.m_buildInEndpoints.sedpPubWriter.maxProxies then
          { a.m_buildInEndpoints.sedpPubWriter with
            m_proxies := a.m_buildInEndpoints.sedpPubWriter.m_proxies ++
              [⟨⟨a.m_proxyDataBuffer.m_guid.guidPrefix,
                ENTITYID_SEDP_BUILTIN_PUBLICATIONS_READER⟩, locator⟩] }
        else a.m_buildInEndpoints.sedpPubWriter) ∧
      (SPDPAgent.processProxyData isSameSubnet a).m_buildInEndpoints.sedpSubWriter =
        (if a.m_proxyDataBuffer.hasSubscriptionReader = true ∧
            a.m_buildInEndpoints.sedpSubWriter.m_proxies.length <
              a.m_buildInEndpoints.sedpSubWriter.maxProxies then
          { a.m_buildInEndpoints.sedpSubWriter with
            m_proxies := a.m_buildInEndpoints.sedpSubWriter.m_proxies ++
              [⟨⟨a.m_proxyDataBuffer.m_guid.guidPrefix,
                ENTITYID_SEDP_BUILTIN_SUBSCRIPTIONS_READER⟩, locator⟩] }
        else a.m_buildInEndpoints.sedpSubWriter)) := by
  have hother := GuidPrefix_t.id_ne _ _ hother
  have hnew := Participant.findRemoteParticipant_none _ _ hunknown
  have hfull : a.mp_participant.m_remoteParticipants.length <
      a.mp_participant.maxRemoteParticipants := by
    by_contra hc
    simp [Participant.addNewRemoteParticipant, hnew, hc] at hadded
  have hadd2 : (a.mp_participant.addNewRemoteParticipant a.m_proxyDataBuffer).2 =
      { a.mp_participant with
        m_remoteParticipants := a.mp_participant.m_remoteParticipants ++ [a.m_proxyDataBuffer] } := by
    simp [Participant.addNewRemoteParticipant, hnew, hfull]
  have hcases : SPDPAgent.findLocator isSameSubnet
        a.m_proxyDataBuffer.m_metatrafficUnicastLocatorList = none ∨
      ∃ found, SPDPAgent.findLocator isSameSubnet
        a.m_proxyDataBuffer.m_metatrafficUnicastLocatorList = some found := by
    cases SPDPAgent.findLocator isSameSubnet
        a.m_proxyDataBuffer.m_metatrafficUnicastLocatorList with
    | none => exact Or.inl rfl
    | some found => exact Or.inr ⟨found, rfl⟩
  unfold SPDPAgent.processProxyData
  rw [if_neg hother]
  obtain hloc | ⟨found, hloc⟩ := hcases
  · simp only [hnew, Option.isSome_none, Bool.false_eq_true, if_false, hadded, if_true, hadd2,
      SPDPAgent.addProxiesForBuiltInEndpoints, hloc, SPDPWriter.setAllChangesToUnsent]
    refine ⟨trivial, trivial, trivial, fun _ => ⟨trivial, trivial, trivial, trivial⟩, ?_⟩
    intro before locator after hsplit hfirst hgood
    rw [hsplit, SPDPAgent.findLocator_first isSameSubnet before locator after hfirst hgood]
      at hloc
    exact absurd hloc (by simp)
  · simp only [hnew, Option.isSome_none, Bool.false_eq_true, if_false, hadded, if_true, hadd2,
      SPDPAgent.addProxiesForBuiltInEndpoints, hloc, SPDPWriter.setAllChangesToUnsent]
    refine ⟨?_, ?_, ?_, ?_, ?_⟩
    · by_cases h1 : a.m_proxyDataBuffer.hasPublicationWriter = true <;>
      by_cases h2 : a.m_proxyDataBuffer.hasSubscriptionWriter = true <;>
      by_cases h3 : a.m_proxyDataBuffer.hasPublicationReader = true <;>
      by_cases h4 : a.m_proxyDataBuffer.hasSubscriptionReader = true <;>
      simp [h1, h2, h3, h4]
    · by_cases h1 : a.m_proxyDataBuffer.hasPublicationWriter = true <;>
      by_cases h2 : a.m_proxyDataBuffer.hasSubscriptionWriter = true <;>
      by_cases h3 : a.m_proxyDataBuffer.hasPublicationReader = true <;>
      by_cases h4 : a.m_proxyDataBuffer.hasSubscriptionReader = true <;>
      simp [h1, h2, h3, h4]
    · by_cases h1 : a.m_proxyDataBuffer.hasPublicationWriter = true <;>
      by_cases h2 : a.m_proxyDataBuffer.hasSubscriptionWriter = true <;>
      by_cases h3 : a.m_proxyDataBuffer.hasPublicationReader = true <;>
      by_cases h4 : a.m_proxyDataBuffer.hasSubscriptionReader = true <;>
      simp [h1, h2, h3, h4]
    · intro hnone
      rw [SPDPAgent.findLocator_none isSameSubnet _ hnone] at hloc
      exact absurd hloc (by simp)
    · intro before locator after hsplit hfirst hgood
      rw [hsplit, SPDPAgent.findLocator_first isSameSubnet before locator after hfirst hgood]
        at hloc
      have hfound : found = locator := (Option.some.inj hloc).symm
      subst hfound
      refine ⟨?_, ?_, ?_, ?_⟩
      · by_cases h1 : a.m_proxyDataBuffer.hasPublicationWriter = true <;>
        by_cases h2 : a.m_proxyDataBuffer.hasSubscriptionWriter = true <;>
        by_cases h3 : a.m_proxyDataBuffer.hasPublicationReader = true <;>
        by_cases h4 : a.m_proxyDataBuffer.hasSubscriptionReader = true <;>
        by_cases hroom : a.m_buildInEndpoints.sedpPubReader.m_proxies.length <
          a.m_buildInEndpoints.sedpPubReader.maxProxies <;>
        simp [h1, h2, h3, h4, hroom, StatefulReader.addNewMatchedWriter]
      · by_cases h1 : a.m_proxyDataBuffer.hasPublicationWriter = true <;>
        by_cases h2 : a.m_proxyDataBuffer.hasSubscriptionWriter = true <;>
        by_cases h3 : a.m_proxyDataBuffer.hasPublicationReader = true <;>
        by_cases h4 : a.m_proxyDataBuffer.hasSubscriptionReader = true <;>
        by_cases hroom : a.m_buildInEndpoints.sedpSubReader.m_proxies.length <
          a.m_buildInEndpoints.sedpSubReader.maxProxies <;>
        simp [h1, h2, h3, h4, hroom, StatefulReader.addNewMatchedWriter]
      · by_cases h1 : a.m_proxyDataBuffer.hasPublicationWriter = true <;>
        by_cases h2 : a.m_proxyDataBuffer.hasSubscriptionWriter = true <;>
        by_cases h3 : a.m_proxyDataBuffer.hasPublicationReader = true <;>
        by_cases h4 : a.m_proxyDataBuffer.hasSubscriptionReader = true <;>
        by_cases hroom : a.m_buildInEndpoints.sedpPubWriter.m_proxies.length <
          a.m_buildInEndpoints.sedpPubWriter.maxProxies <;>
        simp [h1, h2, h3, h4, hroom, StatefulWriter.addNewMatchedReader]
      · by_cases h1 : a.m_proxyDataBuffer.hasPublicationWriter = true <;>
        by_cases h2 : a.m_proxyDataBuffer.hasSubscriptionWriter = true <;>
        by_cases h3 : a.m_proxyDataBuffer.hasPublicationReader = true <;>
        by_cases h4 : a.m_proxyDataBuffer.hasSubscriptionReader = true <;>
        by_cases hroom : a.m_buildInEndpoints.sedpSubWriter.m_proxies.length <
          a.m_buildInEndpoints.sedpSubWriter.maxProxies <;>
        simp [h1, h2, h3, h4, hroom, StatefulWriter.addNewMatchedReader]

theorem processProxyData_new_participant_witness :
    (SPDPAgent.processProxyData sampleSameSubnet
      (sampleAgentFullPubReader (sampleAnnouncement sampleRemotePrefix
        [sampleLocator]))).mp_participant.m_remoteParticipants =
      [sampleAnnouncement sampleRemotePrefix [sampleLocator]] ∧
    (SPDPAgent.processProxyData sampleSameSubnet
      (sampleAgentFullPubReader (sampleAnnouncement sampleRemotePrefix
        [sampleLocator]))).m_buildInEndpoints.spdpWriter.unsentResets = 1 ∧
    (SPDPAgent.processProxyData sampleSameSubnet
      (sampleAgentFullPubReader (sampleAnnouncement sampleRemotePrefix
        [sampleLocator]))).m_buildInEndpoints.sedpPubReader.m_proxies = [] ∧
    (SPDPAgent.processProxyData sampleSameSubnet
      (sampleAgentFullPubReader (sampleAnnouncement sampleRemotePrefix
        [sampleLocator]))).m_buildInEndpoints.sedpSubReader.m_proxies =
      [WriterProxy.new ⟨sampleRemotePrefix, ENTITYID_SEDP_BUILTIN_SUBSCRIPTIONS_WRITER⟩
        sampleLocator] ∧
    (SPDPAgent.processProxyData sampleSameSubnet
      (sampleAgentFullPubReader (sampleAnnouncement sampleRemotePrefix
        [sampleLocator]))).m_buildInEndpoints.sedpPubWriter.m_proxies =
      [⟨⟨sampleRemotePrefix, ENTITYID_SEDP_BUILTIN_PUBLICATIONS_READER⟩, sampleLocator⟩] ∧
    (SPDPAgent.processProxyData sampleSameSubnet
      (sampleAgentFullPubReader (sampleAnnouncement sampleRemotePrefix
        [sampleLocator]))).m_buildInEndpoints.sedpSubWriter.m_proxies =
      [⟨⟨sampleRemotePrefix, ENTITYID_SEDP_BUILTIN_SUBSCRIPTIONS_READER⟩, sampleLocator⟩] :=
  have h := processProxyData_new_participant sampleSameSubnet
    (sampleAgentFullPubReader (sampleAnnouncement sampleRemotePrefix [sampleLocator]))
    (by decide) (fun _ hd => absurd hd (List.not_mem_nil _)) (by decide)
  have hw := h.2.2.2.2 [] sampleLocator [] rfl
    (fun _ hl => absurd hl (List.not_mem_nil _)) (by decide)
  ⟨h.1, h.2.1,
    (congrArg StatefulReader.m_proxies hw.1).trans (by decide),
    (congrArg StatefulReader.m_proxies hw.2.1).trans (by decide),
    (congrArg StatefulWriter.m_proxies hw.2.2.1).trans (by decide),
    (congrArg StatefulWriter.m_proxies hw.2.2.2).trans (by decide)⟩

/-- C10: when the announcement in the buffer comes from a non-local participant
that is already in the remote-participant table, `processProxyData` marks the
SPDP writer's changes unsent exactly once and changes nothing else: the table
and the proxies of the built-in endpoints stay as they are. -/
theorem processProxyData_known_participant (isSameSubnet : Locator → Bool) (a : SPDPAgent)
    (hother : a.m_proxyDataBuffer.m_guid.guidPrefix ≠ a.mp_participant.m_guidPrefix)
    (hknown : ∃ d ∈ a.mp_participant.m_remoteParticipants,
      d.m_guid.guidPrefix = a.m_proxyDataBuffer.m_guid.guidPrefix) :
    SPDPAgent.processProxyData isSameSubnet a =
      { a with m_buildInEndpoints :=
          { a.m_buildInEndpoints with
            spdpWriter :=
              { unsentResets := a.m_buildInEndpoints.spdpWriter.unsentResets + 1 } } } ∧
    (SPDPAgent.processProxyData isSameSubnet a).mp_participant = a.mp_participant ∧
    (SPDPAgent.processProxyData isSameSubnet a).m_buildInEndpoints.spdpWriter.unsentResets =
      a.m_buildInEndpoints.spdpWriter.unsentResets + 1 ∧
    (SPDPAgent.processProxyData isSameSubnet a).m_buildInEndpoints.sedpPubReader =
      a.m_buildInEndpoints.sedpPubReader ∧
    (SPDPAgent.processProxyData isSameSubnet a).m_buildInEndpoints.sedpSubReader =
      a.m_buildInEndpoints.sedpSubReader ∧
    (SPDPAgent.processProxyData isSameSubnet a).m_buildInEndpoints.sedpPubWriter =
      a.m_buildInEndpoints.sedpPubWriter ∧
    (SPDPAgent.processProxyData isSameSubnet a).m_buildInEndpoints.sedpSubWriter =
      a.m_buildInEndpoints.sedpSubWriter := by
  have hid := GuidPrefix_t.id_ne _ _ hother
  have hsome := Participant.findRemoteParticipant_isSome a.mp_participant
    a.m_proxyDataBuffer.m_guid.guidPrefix hknown
  have e : SPDPAgent.processProxyData isSameSubnet a =
      { a with m_buildInEndpoints :=
          { a.m_buildInEndpoints with
            spdpWriter :=
              { unsentResets := a.m_buildInEndpoints.spdpWriter.unsentResets + 1 } } } := by
    unfold SPDPAgent.processProxyData
    rw [if_neg hid, if_pos hsome]
    rfl
  rw [e]
  exact ⟨rfl, rfl, rfl, rfl, rfl, rfl, rfl⟩

theorem processProxyData_known_participant_witness :
    SPDPAgent.processProxyData sampleSameSubnet
        (sampleAgent [sampleAnnouncement sampleRemotePrefix []]
          (sampleAnnouncement sampleRemotePrefix [sampleLocator])) =
      { sampleAgent [sampleAnnouncement sampleRemotePrefix []]
          (sampleAnnouncement sampleRemotePrefix [sampleLocator]) with
        m_buildInEndpoints :=
          { (sampleAgent [sampleAnnouncement sampleRemotePrefix []]
              (sampleAnnouncement sampleRemotePrefix [sampleLocator])).m_buildInEndpoints with
            spdpWriter := { unsentResets := 1 } } } :=
  (processProxyData_known_participant sampleSameSubnet
    (sampleAgent [sampleAnnouncement sampleRemotePrefix []]
      (sampleAnnouncement sampleRemotePrefix [sampleLocator]))
    (by decide) ⟨sampleAnnouncement sampleRemotePrefix [], List.mem_singleton.mpr rfl, rfl⟩).1

/-! ## ThreadPool -/

/-- C11: `addWorkload` and `addNewPacket` return true exactly when the element
has been appended to their queue. With a full queue they return false and
leave the whole pool (both queues, both semaphores) unchanged; with room they
return true, append the element, and signal their own semaphore (writer for
workloads, reader for packets) exactly once, the other one not at all. -/
theorem threadPool_backpressure (pool : ThreadPool) (workload : Nat) (packet : PacketInfo) :
    ((pool.addWorkload workload).1 = true ↔
      (pool.addWorkload workload).2.m_queueOutgoing.elements =
        pool.m_queueOutgoing.elements ++ [workload]) ∧
    (¬ pool.m_queueOutgoing.elements.length < pool.m_queueOutgoing.capacity →
      pool.addWorkload workload = (false, pool)) ∧
    (pool.m_queueOutgoing.elements.length < pool.m_queueOutgoing.capacity →
      pool.addWorkload workload =
        (true, { pool with
          m_queueOutgoing :=
            { pool.m_queueOutgoing with
              elements := pool.m_queueOutgoing.elements ++ [workload] }
          m_writerNotificationSem := pool.m_writerNotificationSem + 1 })) ∧
    ((pool.addNewPacket packet).1 = true ↔
      (pool.addNewPacket packet).2.m_queueIncoming.elements =
        pool.m_queueIncoming.elements ++ [packet]) ∧
    (¬ pool.m_queueIncoming.elements.length < pool.m_queueIncoming.capacity →
      pool.addNewPacket packet = (false, pool)) ∧
    (pool.m_queueIncoming.elements.length < pool.m_queueIncoming.capacity →
      pool.addNewPacket packet =
        (true, { pool with
          m_queueIncoming :=
            { pool.m_queueIncoming with
              elements := pool.m_queueIncoming.elements ++ [packet] }
          m_readerNotificationSem := pool.m_readerNotificationSem + 1 })) := by
  have hW : ¬ pool.m_queueOutgoing.elements.length < pool.m_queueOutgoing.capacity →
      pool.addWorkload workload = (false, pool) := by
    intro h
    simp [ThreadPool.addWorkload, ThreadSafeCircularBuffer.moveElementIntoBuffer, h]
  have hW2 : pool.m_queueOutgoing.elements.length < pool.m_queueOutgoing.capacity →
      pool.addWorkload workload =
        (true, { pool with
          m_queueOutgoing :=
            { pool.m_queueOutgoing with
              elements := pool.m_queueOutgoing.elements ++ [workload] }
          m_writerNotificationSem := pool.m_writerNotificationSem + 1 }) := by
    intro h
    simp [ThreadPool.addWorkload, ThreadSafeCircularBuffer.moveElementIntoBuffer, h]
  have hP : ¬ pool.m_queueIncoming.elements.length < pool.m_queueIncoming.capacity →
      pool.addNewPacket packet = (false, pool) := by
    intro h
    simp [ThreadPool.addNewPacket, ThreadSafeCircularBuffer.moveElementIntoBuffer, h]
  have hP2 : pool.m_queueIncoming.elements.length < pool.m_queueIncoming.capacity →
      pool.addNewPacket packet =
        (true, { pool with
          m_queueIncoming :=
            { pool.m_queueIncoming with
              elements := pool.m_queueIncoming.elements ++ [packet] }
          m_readerNotificationSem := pool.m_readerNotificationSem + 1 }) := by
    intro h
    simp [ThreadPool.addNewPacket, ThreadSafeCircularBuffer.moveElementIntoBuffer, h]
  refine ⟨?_, hW, hW2, ?_, hP, hP2⟩
  · by_cases h : pool.m_queueOutgoing.elements.length < pool.m_queueOutgoing.capacity
    · rw [hW2 h]
      simp
    · rw [hW h]
      simp
  · by_cases h : pool.m_queueIncoming.elements.length < pool.m_queueIncoming.capacity
    · rw [hP2 h]
      simp
    · rw [hP h]
      simp

theorem threadPool_backpressure_witness :
    sampleFullPool.addWorkload 3 = (false, sampleFullPool) ∧
    (samplePool.addWorkload 3).1 = true ∧
    (samplePool.addWorkload 3).2.m_queueOutgoing.elements = [7, 3] ∧
    (samplePool.addWorkload 3).2.m_writerNotificationSem =
      samplePool.m_writerNotificationSem + 1 ∧
    (samplePool.addWorkload 3).2.m_readerNotificationSem =
      samplePool.m_readerNotificationSem :=
  have hfull := (threadPool_backpressure sampleFullPool 3
    { srcPort := 0, destAddr := [], destPort := 0, buffer := [] }).2.1 (by decide)
  have hroom := (threadPool_backpressure samplePool 3
    { srcPort := 0, destAddr := [], destPort := 0, buffer := [] }).2.2.1 (by decide)
  ⟨hfull, by rw [hroom], by rw [hroom]; rfl, by rw [hroom], by rw [hroom]⟩

/-! ## StatefulReader: unknown writers -/

theorem StatefulReader.newChangeLoop_none (cacheChange : ReaderCacheChange)
    (proxies : List WriterProxy)
    (h : ∀ p ∈ proxies, p.remoteWriterGuid ≠ cacheChange.writerGuid) :
    StatefulReader.newChangeLoop cacheChange proxies = none := by
  induction proxies with
  | nil => rfl
  | cons q qs ih =>
    have hq : ¬ q.remoteWriterGuid = cacheChange.writerGuid := h q (List.mem_cons_self _ _)
    rw [StatefulReader.newChangeLoop, if_neg hq,
      ih (fun x hx => h x (List.mem_cons_of_mem _ hx))]

/-- C13: a change whose writer GUID is the GUID of no proxy leaves the reader
as it was (no callback invocation, no expectedSN touched). A change whose
writer GUID matches touches at most the first matching proxy: the proxies
before and after it are unchanged, and that proxy keeps everything but its
expectedSN, which is incremented when a callback is registered (the callback
being invoked once) and kept otherwise. -/
theorem newChange_unknown_writer_dropped (r : StatefulReader)
    (cacheChange : ReaderCacheChange) :
    ((∀ p ∈ r.m_proxies, p.remoteWriterGuid ≠ cacheChange.writerGuid) →
      r.newChange cacheChange = r) ∧
    (∀ before writer after,
      FirstMatch (fun q => q.remoteWriterGuid = cacheChange.writerGuid)
        r.m_proxies before writer after →
      (r.m_callback = none → r.newChange cacheChange = r) ∧
      (∀ cb, r.m_callback = some cb →
        (r.newChange cacheChange).m_proxies =
          before ++ { writer with expectedSN := writer.expectedSN.succ } :: after ∧
        (r.newChange cacheChange).calls =
          r.calls ++ [{ callback := cb, callee := r.m_callee, change := cacheChange }])) := by
  constructor
  · intro h
    unfold StatefulReader.newChange
    rw [StatefulReader.newChangeLoop_none cacheChange r.m_proxies h]
    cases r.m_callback <;> rfl
  · intro before writer after hsel
    constructor
    · intro hcb
      unfold StatefulReader.newChange
      rw [hcb]
    · intro cb hcb
      rw [StatefulReader.newChange_firstMatch r cb cacheChange before writer after hcb hsel]
      exact ⟨rfl, rfl⟩

theorem newChange_unknown_writer_dropped_witness :
    sampleReader.newChange
        { sampleChange 1 with
          writerGuid := { sampleWriterGuid with guidPrefix := sampleLocalPrefix } } =
      sampleReader ∧
    (({ sampleReader with m_proxies := [sampleProxy, sampleProxy] }).newChange
        (sampleChange 1)).m_proxies =
      [{ sampleProxy with expectedSN := SequenceNumber_t.ofNat 2 }, sampleProxy] :=
  ⟨(newChange_unknown_writer_dropped sampleReader
      { sampleChange 1 with
        writerGuid := { sampleWriterGuid with guidPrefix := sampleLocalPrefix } }).1
      (by decide),
    ((newChange_unknown_writer_dropped
      { sampleReader with m_proxies := [sampleProxy, sampleProxy] } (sampleChange 1)).2
      [] sampleProxy [sampleProxy]
      ⟨rfl, fun _ hq => absurd hq (List.not_mem_nil _), rfl⟩).2 1 rfl |>.1⟩

/-! ## MessageFactory -/

/-- C16: `addSubMessageData` serializes one DATA submessage with id DATA,
extraFlags 0, octetsToInlineQos 16, the given readerId, writerId and writerSN;
its flags have the inline-QoS bit exactly when `containsInlineQos` and the
data-payload bit exactly when the payload is valid; its submessageLength is
the raw DATA size plus the payload bytes used minus 4 (as long as that fits
the 16-bit field); and the payload bytes follow the submessage, unchanged,
exactly when the payload is valid. -/
theorem addSubMessageData_fields (cfg : Config) (buffer : List BufferItem)
    (filledPayload : Option (List Nat)) (containsInlineQos : Bool) (SN : SequenceNumber_t)
    (writerID readerID : EntityId_t)
    (hfit : SubmessageData.getRawSize + PayloadBuffer.spaceUsed filledPayload
      - numBytesUntilEndOfLength < 2 ^ 16) :
    ∃ msg : SubmessageData,
      MessageFactory.addSubMessageData cfg buffer filledPayload containsInlineQos SN
          writerID readerID =
        buffer ++ [BufferItem.data msg] ++ (filledPayload.map BufferItem.bytes).toList ∧
      msg.header.submessageId = SubmessageKind.DATA ∧
      msg.extraFlags = 0 ∧
      msg.octetsToInlineQos = 16 ∧
      msg.readerId = readerID ∧
      msg.writerId = writerID ∧
      msg.writerSN = SN ∧
      (msg.header.flags &&& FLAG_INLINE_QOS ≠ 0 ↔ containsInlineQos = true) ∧
      (msg.header.flags &&& FLAG_DATA_PAYLOAD ≠ 0 ↔
        PayloadBuffer.isValid filledPayload = true) ∧
      msg.header.flags &&& FLAG_LITTLE_ENDIAN = endianFlag cfg ∧
      msg.header.submessageLength =
        SubmessageData.getRawSize + PayloadBuffer.spaceUsed filledPayload
          - numBytesUntilEndOfLength := by
  have hlen : (SubmessageData.getRawSize + PayloadBuffer.spaceUsed filledPayload + 2 ^ 16
      - numBytesUntilEndOfLength) % 2 ^ 16 =
      SubmessageData.getRawSize + PayloadBuffer.spaceUsed filledPayload
        - numBytesUntilEndOfLength := by
    unfold SubmessageData.getRawSize numBytesUntilEndOfLength at hfit ⊢
    omega
  have hq : ((if PayloadBuffer.isValid filledPayload then
        (if containsInlineQos then endianFlag cfg ||| FLAG_INLINE_QOS else endianFlag cfg)
          ||| FLAG_DATA_PAYLOAD
      else (if containsInlineQos then endianFlag cfg ||| FLAG_INLINE_QOS else endianFlag cfg))
        &&& FLAG_INLINE_QOS ≠ 0 ↔ containsInlineQos = true) := by
    unfold endianFlag PayloadBuffer.isValid
    cases cfg.IS_LITTLE_ENDIAN <;> cases containsInlineQos <;> cases filledPayload <;>
      simp only [Option.isSome_some, Option.isSome_none] <;> decide
  have hd : ((if PayloadBuffer.isValid filledPayload then
        (if containsInlineQos then endianFlag cfg ||| FLAG_INLINE_QOS else endianFlag cfg)
          ||| FLAG_DATA_PAYLOAD
      else (if containsInlineQos then endianFlag cfg ||| FLAG_INLINE_QOS else endianFlag cfg))
        &&& FLAG_DATA_PAYLOAD ≠ 0 ↔ PayloadBuffer.isValid filledPayload = true) := by
    unfold endianFlag PayloadBuffer.isValid
    cases cfg.IS_LITTLE_ENDIAN <;> cases containsInlineQos <;> cases filledPayload <;>
      simp only [Option.isSome_some, Option.isSome_none] <;> decide
  have he : ((if PayloadBuffer.isValid filledPayload then
        (if containsInlineQos then endianFlag cfg ||| FLAG_INLINE_QOS else endianFlag cfg)
          ||| FLAG_DATA_PAYLOAD
      else (if containsInlineQos then endianFlag cfg ||| FLAG_INLINE_QOS else endianFlag cfg))
        &&& FLAG_LITTLE_ENDIAN = endianFlag cfg) := by
    unfold endianFlag PayloadBuffer.isValid
    cases cfg.IS_LITTLE_ENDIAN <;> cases containsInlineQos <;> cases filledPayload <;>
      simp only [Option.isSome_some, Option.isSome_none] <;> decide
  refine ⟨{ header :=
              { submessageId := SubmessageKind.DATA
                flags :=
                  if PayloadBuffer.isValid filledPayload then
                    (if containsInlineQos then endianFlag cfg ||| FLAG_INLINE_QOS
                      else endianFlag cfg) ||| FLAG_DATA_PAYLOAD
                  else
                    (if containsInlineQos then endianFlag cfg ||| FLAG_INLINE_QOS
                      else endianFlag cfg)
                submessageLength :=
                  (SubmessageData.getRawSize + PayloadBuffer.spaceUsed filledPayload + 2 ^ 16
                    - numBytesUntilEndOfLength) % 2 ^ 16 }
            extraFlags := 0
            octetsToInlineQos := 4 + 4 + 8
            readerId := readerID
            writerId := writerID
            writerSN := SN }, ?_, rfl, rfl, rfl, rfl, rfl, rfl, hq, hd, he, hlen⟩
  unfold MessageFactory.addSubMessageData
  cases filledPayload <;> simp

theorem addSubMessageData_fields_witness :
    MessageFactory.addSubMessageData sampleConfig [] (some [0xDE, 0xAD, 0xBE, 0xEF]) false
        { high := 0, low := 42 }
        { entityKey := [0, 0, 1], entityKind := .BUILD_IN_WRITER_WITH_KEY }
        { entityKey := [0, 0, 1], entityKind := .BUILD_IN_READER_WITH_KEY } =
      [BufferItem.data
        { header := { submessageId := SubmessageKind.DATA, flags := 5, submessageLength := 24 }
          extraFlags := 0
          octetsToInlineQos := 16
          readerId := { entityKey := [0, 0, 1], entityKind := .BUILD_IN_READER_WITH_KEY }
          writerId := { entityKey := [0, 0, 1], entityKind := .BUILD_IN_WRITER_WITH_KEY }
          writerSN := { high := 0, low := 42 } },
       BufferItem.bytes [0xDE, 0xAD, 0xBE, 0xEF]] ∧
    ∃ msg : SubmessageData,
      MessageFactory.addSubMessageData sampleConfig [] (some [0xDE, 0xAD, 0xBE, 0xEF]) false
          { high := 0, low := 42 }
          { entityKey := [0, 0, 1], entityKind := .BUILD_IN_WRITER_WITH_KEY }
          { entityKey := [0, 0, 1], entityKind := .BUILD_IN_READER_WITH_KEY } =
        [] ++ [BufferItem.data msg] ++ [BufferItem.bytes [0xDE, 0xAD, 0xBE, 0xEF]] ∧
      msg.header.submessageLength = 24 :=
  have h := addSubMessageData_fields sampleConfig [] (some [0xDE, 0xAD, 0xBE, 0xEF]) false
    { high := 0, low := 42 }
    { entityKey := [0, 0, 1], entityKind := .BUILD_IN_WRITER_WITH_KEY }
    { entityKey := [0, 0, 1], entityKind := .BUILD_IN_READER_WITH_KEY } (by decide)
  ⟨by decide, h.elim fun msg hm => ⟨msg, hm.1, hm.2.2.2.2.2.2.2.2.2.2⟩⟩

/-- C17: with `setInvalid = false`, `addSubMessageTimeStamp` appends the INFO_TS
submessage header (length 8) followed by the eight bytes FF 3F 04 60 00 D4 92
A6, whatever `getCurrentTimeStamp()` returns: two calls that differ only in
the current time produce the same output. -/
theorem addSubMessageTimeStamp_hard_coded (cfg : Config) (buffer : List BufferItem)
    (now1 now2 : Time_t) :
    MessageFactory.addSubMessageTimeStamp cfg buffer false now1 =
      MessageFactory.addSubMessageTimeStamp cfg buffer false now2 ∧
    MessageFactory.addSubMessageTimeStamp cfg buffer false now1 =
      buffer ++
        [BufferItem.submessageHeader
           { submessageId := SubmessageKind.INFO_TS
             flags := endianFlag cfg
             submessageLength := 8 },
         BufferItem.bytes [0xff, 0x3f, 0x04, 0x60, 0x00, 0xd4, 0x92, 0xa6]] := by
  constructor
  · rfl
  · simp [MessageFactory.addSubMessageTimeStamp, sizeof_Time_t]

/-- C19: `addAckNack` serializes one ACKNACK submessage whose id is ACKNACK,
whose flags byte is the host endianness flag together with the FINAL flag
(always set), whose writerId, readerId, readerSNState and count are the
arguments, and whose submessageLength is the raw ACKNACK size for that
readerSNState minus the 4 header bytes (the raw size being a 16-bit value). -/
theorem addAckNack_fields (cfg : Config) (buffer : List BufferItem)
    (writerId readerId : EntityId_t) (readerSNState : SequenceNumberSet) (count : Count_t)
    (hsize : SubmessageAckNack.getRawSize readerSNState < 2 ^ 16) :
    MessageFactory.addAckNack cfg buffer writerId readerId readerSNState count =
      buffer ++ [BufferItem.ackNack
        { header :=
            { submessageId := SubmessageKind.ACKNACK
              flags := endianFlag cfg ||| FLAG_FINAL
              submessageLength :=
                SubmessageAckNack.getRawSize readerSNState - numBytesUntilEndOfLength }
          readerId := readerId
          writerId := writerId
          readerSNState := readerSNState
          count := count }] ∧
    (endianFlag cfg ||| FLAG_FINAL) &&& FLAG_FINAL = FLAG_FINAL ∧
    (endianFlag cfg ||| FLAG_FINAL) &&& FLAG_LITTLE_ENDIAN = endianFlag cfg := by
  have hlen : (SubmessageAckNack.getRawSize readerSNState + 2 ^ 16 - numBytesUntilEndOfLength)
      % 2 ^ 16 = SubmessageAckNack.getRawSize readerSNState - numBytesUntilEndOfLength := by
    simp only [SubmessageAckNack.getRawSize, numBytesUntilEndOfLength] at hsize ⊢
    omega
  refine ⟨?_, ?_, ?_⟩
  · unfold MessageFactory.addAckNack
    rw [hlen]
  · unfold endianFlag
    cases cfg.IS_LITTLE_ENDIAN <;> decide
  · unfold endianFlag
    cases cfg.IS_LITTLE_ENDIAN <;> decide

theorem addAckNack_fields_witness :
    SubmessageAckNack.getRawSize sampleMissingSet < 2 ^ 16 ∧
    MessageFactory.addAckNack sampleConfig [] sampleWriterGuid.entityId sampleReaderId
        sampleMissingSet { value := 1 } =
      [BufferItem.ackNack
        { header := { submessageId := SubmessageKind.ACKNACK, flags := 3, submessageLength := 28 }
          readerId := sampleReaderId
          writerId := sampleWriterGuid.entityId
          readerSNState := sampleMissingSet
          count := { value := 1 } }] :=
  have hsize : SubmessageAckNack.getRawSize sampleMissingSet < 2 ^ 16 := by decide
  ⟨hsize, (addAckNack_fields sampleConfig [] sampleWriterGuid.entityId sampleReaderId
    sampleMissingSet { value := 1 } hsize).1⟩

/-! ## SPDPAgent: input buffer -/

theorem ucdr_deserialize_array_uint8_t_ok (ub : ucdrBuffer) (array : List Nat) (length : Nat)
    (herr : ub.error = false) (hlen : length ≤ ub.remaining.length) :
    ucdr_deserialize_array_uint8_t ub array length =
      (ub.remaining.take length,
        { ub with
          consumed := ub.consumed ++ ub.remaining.take length
          remaining := ub.remaining.drop length
          last_data_size := 1 }) := by
  unfold ucdr_deserialize_array_uint8_t
  simp [herr, hlen]

/-- C18: on an input buffer without error and with at least 4 bytes to read,
`configureEndianessAndOptions` consumes exactly 4 bytes (the scheme and the
options), leaves the buffer without error, and sets the byte order to
little-endian exactly when the first two bytes are SCHEME_PL_CDR_LE = 00 03;
for SCHEME_PL_CDR_BE = 00 02 (as for anything else) it sets big-endian. -/
theorem configureEndianessAndOptions_spec (buffer : ucdrBuffer)
    (herr : buffer.error = false) (hlen : 4 ≤ buffer.remaining.length) :
    (SPDPAgent.configureEndianessAndOptions buffer).consumed =
      buffer.consumed ++ buffer.remaining.take 4 ∧
    (SPDPAgent.configureEndianessAndOptions buffer).remaining = buffer.remaining.drop 4 ∧
    ucdr_buffer_length (SPDPAgent.configureEndianessAndOptions buffer) =
      ucdr_buffer_length buffer + 4 ∧
    (SPDPAgent.configureEndianessAndOptions buffer).error = false ∧
    ((SPDPAgent.configureEndianessAndOptions buffer).endianness =
        ucdrEndianness.UCDR_LITTLE_ENDIANNESS ↔
      buffer.remaining.take 2 = SCHEME_PL_CDR_LE) ∧
    (buffer.remaining.take 2 = SCHEME_PL_CDR_BE →
      (SPDPAgent.configureEndianessAndOptions buffer).endianness =
        ucdrEndianness.UCDR_BIG_ENDIANNESS) ∧
    SCHEME_PL_CDR_LE = [0x00, 0x03] ∧ SCHEME_PL_CDR_BE = [0x00, 0x02] := by
  have h1 := ucdr_deserialize_array_uint8_t_ok buffer [0, 0] 2 herr (by omega)
  have hbe : SCHEME_PL_CDR_BE ≠ SCHEME_PL_CDR_LE := by decide
  have e : SPDPAgent.configureEndianessAndOptions buffer =
      { buffer with
        consumed := buffer.consumed ++ buffer.remaining.take 4
        remaining := buffer.remaining.drop 4
        last_data_size := 1
        endianness :=
          if buffer.remaining.take 2 = SCHEME_PL_CDR_LE then
            ucdrEndianness.UCDR_LITTLE_ENDIANNESS
          else ucdrEndianness.UCDR_BIG_ENDIANNESS } := by
    unfold SPDPAgent.configureEndianessAndOptions
    simp only [h1]
    have h4 : buffer.remaining.take 2 ++ (buffer.remaining.drop 2).take 2 =
        buffer.remaining.take 4 := by
      rw [← List.take_add]
    have h2 : 2 ≤ buffer.remaining.length - 2 := by omega
    by_cases hle : buffer.remaining.take 2 = SCHEME_PL_CDR_LE
    · rw [if_pos hle, if_pos hle]
      simp [ucdr_deserialize_array_uint8_t, herr, h2, h4]
    · rw [if_neg hle, if_neg hle]
      simp [ucdr_deserialize_array_uint8_t, herr, h2, h4]
  rw [e]
  refine ⟨rfl, rfl, ?_, herr, ?_, ?_, rfl, rfl⟩
  · simp only [ucdr_buffer_length, List.length_append, List.length_take]
    omega
  · by_cases hle : buffer.remaining.take 2 = SCHEME_PL_CDR_LE
    · simp [hle]
    · simp [hle]
  · intro hb
    have hle : ¬ buffer.remaining.take 2 = SCHEME_PL_CDR_LE := by rw [hb]; exact hbe
    simp [hle]

theorem configureEndianessAndOptions_spec_witness :
    sampleInputBuffer.error = false ∧ 4 ≤ sampleInputBuffer.remaining.length ∧
    (SPDPAgent.configureEndianessAndOptions sampleInputBuffer).consumed = [0, 3, 0, 0] ∧
    (SPDPAgent.configureEndianessAndOptions sampleInputBuffer).remaining = [1, 0, 0, 0] ∧
    (SPDPAgent.configureEndianessAndOptions sampleInputBuffer).endianness =
      ucdrEndianness.UCDR_LITTLE_ENDIANNESS :=
  have h := configureEndianessAndOptions_spec sampleInputBuffer rfl (by decide)
  ⟨rfl, by decide, h.1, h.2.1, h.2.2.2.2.1.mpr (by decide)⟩

/-! ## SPDPAgent: locator of the built-in proxies -/

theorem StatefulReader.addNewMatchedWriter_extra (r : StatefulReader) (p : WriterProxy) :
    ∃ extra, (r.addNewMatchedWriter p).2.m_proxies = r.m_proxies ++ extra ∧
      ∀ q ∈ extra, q = p := by
  unfold StatefulReader.addNewMatchedWriter
  by_cases h : r.m_proxies.length < r.maxProxies
  · exact ⟨[p], by simp [h], by simp⟩
  · exact ⟨[], by simp [h], by simp⟩

theorem StatefulWriter.addNewMatchedReader_extra (w : StatefulWriter) (p : ReaderProxy) :
    ∃ extra, (w.addNewMatchedReader p).2.m_proxies = w.m_proxies ++ extra ∧
      ∀ q ∈ extra, q = p := by
  unfold StatefulWriter.addNewMatchedReader
  by_cases h : w.m_proxies.length < w.maxProxies
  · exact ⟨[p], by simp [h], by simp⟩
  · exact ⟨[], by simp [h], by simp⟩

/-- C20: `addProxiesForBuiltInEndpoints` uses the first entry, in list order,
of the peer's metatraffic unicast locator list that is valid and in the local
subnet: it then returns true, and every proxy it adds to one of the four SEDP
built-in endpoints carries exactly that locator (nothing else in the agent
changes). If no entry is valid and in the local subnet it returns false and
leaves the agent unchanged, whatever the peer's endpoint bitmask. -/
theorem addProxiesForBuiltInEndpoints_locator (isSameSubnet : Locator → Bool) (a : SPDPAgent) :
    (∀ before locator after,
      a.m_proxyDataBuffer.m_metatrafficUnicastLocatorList = before ++ locator :: after →
      (∀ l ∈ before, ¬ (l.isValid = true ∧ isSameSubnet l = true)) →
      (locator.isValid = true ∧ isSameSubnet locator = true) →
      (SPDPAgent.addProxiesForBuiltInEndpoints isSameSubnet a).1 = true ∧
      (∃ extra,
        (SPDPAgent.addProxiesForBuiltInEndpoints isSameSubnet
            a).2.m_buildInEndpoints.sedpPubReader.m_proxies =
          a.m_buildInEndpoints.sedpPubReader.m_proxies ++ extra ∧
        ∀ q ∈ extra, q.remoteLocator = locator) ∧
      (∃ extra,
        (SPDPAgent.addProxiesForBuiltInEndpoints isSameSubnet
            a).2.m_buildInEndpoints.sedpSubReader.m_proxies =
          a.m_buildInEndpoints.sedpSubReader.m_proxies ++ extra ∧
        ∀ q ∈ extra, q.remoteLocator = locator) ∧
      (∃ extra,
        (SPDPAgent.addProxiesForBuiltInEndpoints isSameSubnet
            a).2.m_buildInEndpoints.sedpPubWriter.m_proxies =
          a.m_buildInEndpoints.sedpPubWriter.m_proxies ++ extra ∧
        ∀ q ∈ extra, q.remoteLocator = locator) ∧
      (∃ extra,
        (SPDPAgent.addProxiesForBuiltInEndpoints isSameSubnet
            a).2.m_buildInEndpoints.sedpSubWriter.m_proxies =
          a.m_buildInEndpoints.sedpSubWriter.m_proxies ++ extra ∧
        ∀ q ∈ extra, q.remoteLocator = locator) ∧
      (SPDPAgent.addProxiesForBuiltInEndpoints isSameSubnet a).2.mp_participant =
        a.mp_participant ∧
      (SPDPAgent.addProxiesForBuiltInEndpoints isSameSubnet a).2.m_buildInEndpoints.spdpWriter =
        a.m_buildInEndpoints.spdpWriter) ∧
    ((∀ l ∈ a.m_proxyDataBuffer.m_metatrafficUnicastLocatorList,
        ¬ (l.isValid = true ∧ isSameSubnet l = true)) →
      SPDPAgent.addProxiesForBuiltInEndpoints isSameSubnet a = (false, a)) := by
  constructor
  · intro before locator after hsplit hfirst hgood
    have hloc : SPDPAgent.findLocator isSameSubnet
        a.m_proxyDataBuffer.m_metatrafficUnicastLocatorList = some locator := by
      rw [hsplit]
      exact SPDPAgent.findLocator_first isSameSubnet before locator after hfirst hgood
    unfold SPDPAgent.addProxiesForBuiltInEndpoints
    simp only [hloc]
    refine ⟨trivial, ?_, ?_, ?_, ?_, ?_, ?_⟩
    · by_cases h1 : a.m_proxyDataBuffer.hasPublicationWriter = true
      · obtain ⟨extra, he, hq⟩ := StatefulReader.addNewMatchedWriter_extra
          a.m_buildInEndpoints.sedpPubReader
          (WriterProxy.new ⟨a.m_proxyDataBuffer.m_guid.guidPrefix,
            ENTITYID_SEDP_BUILTIN_PUBLICATIONS_WRITER⟩ locator)
        refine ⟨extra, ?_, fun q hqm => by rw [hq q hqm]; rfl⟩
        rw [← he]
        by_cases h2 : a.m_proxyDataBuffer.hasSubscriptionWriter = true <;>
        by_cases h3 : a.m_proxyDataBuffer.hasPublicationReader = true <;>
        by_cases h4 : a.m_proxyDataBuffer.hasSubscriptionReader = true <;>
        simp [h1, h2, h3, h4]
      · refine ⟨[], ?_, by simp⟩
        by_cases h2 : a.m_proxyDataBuffer.hasSubscriptionWriter = true <;>
        by_cases h3 : a.m_proxyDataBuffer.hasPublicationReader = true <;>
        by_cases h4 : a.m_proxyDataBuffer.hasSubscriptionReader = true <;>
        simp [h1, h2, h3, h4]
    · by_cases h2 : a.m_proxyDataBuffer.hasSubscriptionWriter = true
      · obtain ⟨extra, he, hq⟩ := StatefulReader.addNewMatchedWriter_extra
          a.m_buildInEndpoints.sedpSubReader
          (WriterProxy.new ⟨a.m_proxyDataBuffer.m_guid.guidPrefix,
            ENTITYID_SEDP_BUILTIN_SUBSCRIPTIONS_WRITER⟩ locator)
        refine ⟨extra, ?_, fun q hqm => by rw [hq q hqm]; rfl⟩
        rw [← he]
        by_cases h1 : a.m_proxyDataBuffer.hasPublicationWriter = true <;>
        by_cases h3 : a.m_proxyDataBuffer.hasPublicationReader = true <;>
        by_cases h4 : a.m_proxyDataBuffer.hasSubscriptionReader = true <;>
        simp [h1, h2, h3, h4]
      · refine ⟨[], ?_, by simp⟩
        by_cases h1 : a.m_proxyDataBuffer.hasPublicationWriter = true <;>
        by_cases h3 : a.m_proxyDataBuffer.hasPublicationReader = true <;>
        by_cases h4 : a.m_proxyDataBuffer.hasSubscriptionReader = true <;>
        simp [h1, h2, h3, h4]
    · by_cases h3 : a.m_proxyDataBuffer.hasPublicationReader = true
      · obtain ⟨extra, he, hq⟩ := StatefulWriter.addNewMatchedReader_extra
          a.m_buildInEndpoints.sedpPubWriter
          ⟨⟨a.m_proxyDataBuffer.m_guid.guidPrefix,
            ENTITYID_SEDP_BUILTIN_PUBLICATIONS_READER⟩, locator⟩
        refine ⟨extra, ?_, fun q hqm => by rw [hq q hqm]⟩
        rw [← he]
        by_cases h1 : a.m_proxyDataBuffer.hasPublicationWriter = true <;>
        by_cases h2 : a.m_proxyDataBuffer.hasSubscriptionWriter = true <;>
        by_cases h4 : a.m_proxyDataBuffer.hasSubscriptionReader = true <;>
        simp [h1, h2, h3, h4]
      · refine ⟨[], ?_, by simp⟩
        by_cases h1 : a.m_proxyDataBuffer.hasPublicationWriter = true <;>
        by_cases h2 : a.m_proxyDataBuffer.hasSubscriptionWriter = true <;>
        by_cases h4 : a.m_proxyDataBuffer.hasSubscriptionReader = true <;>
        simp [h1, h2, h3, h4]
    · by_cases h4 : a.m_proxyDataBuffer.hasSubscriptionReader = true
      · obtain ⟨extra, he, hq⟩ := StatefulWriter.addNewMatchedReader_extra
          a.m_buildInEndpoints.sedpSubWriter
          ⟨⟨a.m_proxyDataBuffer.m_guid.guidPrefix,
            ENTITYID_SEDP_BUILTIN_SUBSCRIPTIONS_READER⟩, locator⟩
        refine ⟨extra, ?_, fun q hqm => by rw [hq q hqm]⟩
        rw [← he]
        by_cases h1 : a.m_proxyDataBuffer.hasPublicationWriter = true <;>
        by_cases h2 : a.m_proxyDataBuffer.hasSubscriptionWriter = true <;>
        by_cases h3 : a.m_proxyDataBuffer.hasPublicationReader = true <;>
        simp [h1, h2, h3, h4]
      · refine ⟨[], ?_, by simp⟩
        by_cases h1 : a.m_proxyDataBuffer.hasPublicationWriter = true <;>
        by_cases h2 : a.m_proxyDataBuffer.hasSubscriptionWriter = true <;>
        by_cases h3 : a.m_proxyDataBuffer.hasPublicationReader = true <;>
        simp [h1, h2, h3, h4]
    · trivial
    · by_cases h1 : a.m_proxyDataBuffer.hasPublicationWriter = true <;>
      by_cases h2 : a.m_proxyDataBuffer.hasSubscriptionWriter = true <;>
      by_cases h3 : a.m_proxyDataBuffer.hasPublicationReader = true <;>
      by_cases h4 : a.m_proxyDataBuffer.hasSubscriptionReader = true <;>
      simp [h1, h2, h3, h4]
  · intro h
    unfold SPDPAgent.addProxiesForBuiltInEndpoints
    rw [SPDPAgent.findLocator_none isSameSubnet _ h]

theorem addProxiesForBuiltInEndpoints_locator_witness :
    SPDPAgent.addProxiesForBuiltInEndpoints sampleSameSubnet
        (sampleAgent [] (sampleAnnouncement sampleRemotePrefix
          [{ sampleLocator with kind := .LOCATOR_KIND_INVALID }])) =
      (false, sampleAgent [] (sampleAnnouncement sampleRemotePrefix
          [{ sampleLocator with kind := .LOCATOR_KIND_INVALID }])) ∧
    (SPDPAgent.addProxiesForBuiltInEndpoints sampleSameSubnet
        (sampleAgent [] (sampleAnnouncement sampleRemotePrefix
          [{ sampleLocator with kind := .LOCATOR_KIND_INVALID }, sampleLocator]))).1 = true ∧
    (SPDPAgent.addProxiesForBuiltInEndpoints sampleSameSubnet
        (sampleAgent [] (sampleAnnouncement sampleRemotePrefix
          [{ sampleLocator with kind := .LOCATOR_KIND_INVALID },
            sampleLocator]))).2.m_buildInEndpoints.sedpPubReader.m_proxies.map
        (fun q => q.remoteLocator) = [sampleLocator] :=
  ⟨(addProxiesForBuiltInEndpoints_locator sampleSameSubnet
      (sampleAgent [] (sampleAnnouncement sampleRemotePrefix
        [{ sampleLocator with kind := .LOCATOR_KIND_INVALID }]))).2 (by decide),
    ((addProxiesForBuiltInEndpoints_locator sampleSameSubnet
      (sampleAgent [] (sampleAnnouncement sampleRemotePrefix
        [{ sampleLocator with kind := .LOCATOR_KIND_INVALID }, sampleLocator]))).1
      [{ sampleLocator with kind := .LOCATOR_KIND_INVALID }] sampleLocator [] rfl
      (by decide) (by decide)).1,
    by decide⟩

/-! ## StatefulReader: expectedSN over a series of calls -/

theorem forall2_proxyAdvanced_refl (l : List WriterProxy) : List.Forall₂ ProxyAdvanced l l := by
  induction l with
  | nil => exact List.Forall₂.nil
  | cons p ps ih => exact List.Forall₂.cons ⟨rfl, Or.inl rfl⟩ ih

theorem forall2_proxyAdvanced_split (before after : List WriterProxy) (p p' : WriterProxy)
    (h : ProxyAdvanced p p') :
    List.Forall₂ ProxyAdvanced (before ++ p :: after) (before ++ p' :: after) := by
  induction before with
  | nil => exact List.Forall₂.cons h (forall2_proxyAdvanced_refl after)
  | cons q qs ih => exact List.Forall₂.cons ⟨rfl, Or.inl rfl⟩ ih

theorem forall2_getElem? {R : WriterProxy → WriterProxy → Prop} {l l' : List WriterProxy}
    (h : List.Forall₂ R l l') :
    ∀ (i : Nat) (p : WriterProxy), l[i]? = some p → ∃ p', l'[i]? = some p' ∧ R p p' := by
  induction h with
  | nil => intro i p hp; simp at hp
  | cons hr _ ih =>
    intro i p hp
    cases i with
    | zero =>
      simp only [List.getElem?_cons_zero, Option.some.injEq] at hp
      subst hp
      exact ⟨_, by simp, hr⟩
    | succ j =>
      simp only [List.getElem?_cons_succ] at hp
      obtain ⟨p', hp', hR⟩ := ih j p hp
      exact ⟨p', by simpa using hp', hR⟩

theorem forall2_mem_right {R : WriterProxy → WriterProxy → Prop} {l l' : List WriterProxy}
    (h : List.Forall₂ R l l') : ∀ p' ∈ l', ∃ p ∈ l, R p p' := by
  induction h with
  | nil => intro p' hp'; simp at hp'
  | cons hr _ ih =>
    intro p' hp'
    rcases List.mem_cons.mp hp' with h1 | h1
    · subst h1
      exact ⟨_, List.mem_cons_self _ _, hr⟩
    · obtain ⟨p, hp, hR⟩ := ih p' h1
      exact ⟨p, List.mem_cons_of_mem _ hp, hR⟩

theorem getElem?_append_of_some (l1 l2 : List WriterProxy) :
    ∀ (i : Nat) (x : WriterProxy), l1[i]? = some x → (l1 ++ l2)[i]? = some x := by
  induction l1 with
  | nil => intro i x hx; simp at hx
  | cons a as ih =>
    intro i x hx
    cases i with
    | zero => simpa using hx
    | succ j =>
      simp only [List.getElem?_cons_succ] at hx
      simpa using ih j x hx

theorem StatefulReader.newChangeLoop_advanced (cacheChange : ReaderCacheChange) :
    ∀ (l l' : List WriterProxy), StatefulReader.newChangeLoop cacheChange l = some l' →
      List.Forall₂ ProxyAdvanced l l' := by
  intro l
  induction l with
  | nil => intro l' h; simp [StatefulReader.newChangeLoop] at h
  | cons p ps ih =>
    intro l' h
    rw [StatefulReader.newChangeLoop] at h
    by_cases hp : p.remoteWriterGuid = cacheChange.writerGuid
    · rw [if_pos hp] at h
      simp only [Option.some.injEq] at h
      subst h
      exact List.Forall₂.cons ⟨rfl, Or.inr rfl⟩ (forall2_proxyAdvanced_refl ps)
    · rw [if_neg hp] at h
      cases hrest : StatefulReader.newChangeLoop cacheChange ps with
      | none => rw [hrest] at h; simp at h
      | some rest' =>
        rw [hrest] at h
        simp only [Option.some.injEq] at h
        subst h
        exact List.Forall₂.cons ⟨rfl, Or.inl rfl⟩ (ih rest' hrest)

theorem StatefulReader.searchWriter_some (sourceGuidPrefix : GuidPrefix_t)
    (writerId : EntityId_t) :
    ∀ (l before : List WriterProxy) (writer : WriterProxy) (after : List WriterProxy),
      StatefulReader.searchWriter sourceGuidPrefix writerId l = some (before, writer, after) →
      l = before ++ writer :: after := by
  intro l
  induction l with
  | nil => intro b w a h; simp [StatefulReader.searchWriter] at h
  | cons p ps ih =>
    intro b w a h
    rw [StatefulReader.searchWriter] at h
    by_cases hp : p.remoteWriterGuid.guidPrefix = sourceGuidPrefix ∧
        p.remoteWriterGuid.entityId = writerId
    · rw [if_pos hp] at h
      simp only [Option.some.injEq, Prod.mk.injEq] at h
      obtain ⟨h1, h2, h3⟩ := h
      subst h1 h2 h3
      rfl
    · rw [if_neg hp] at h
      cases hrest : StatefulReader.searchWriter sourceGuidPrefix writerId ps with
      | none => rw [hrest] at h; simp at h
      | some t =>
        obtain ⟨b', w', a'⟩ := t
        rw [hrest] at h
        simp only [Option.some.injEq, Prod.mk.injEq] at h
        obtain ⟨h1, h2, h3⟩ := h
        subst h1 h2 h3
        rw [ih b' w' a' hrest]
        rfl

/-- What one call does to the proxies: the ones present are kept in place,
each with expectedSN kept or incremented; a proxy can only be appended, by
`addNewMatchedWriter`. -/
theorem StatefulReader.perform_proxies (cfg : Config)
    (getMissing : WriterProxy → SequenceNumber_t → SequenceNumber_t → SequenceNumberSet)
    (r : StatefulReader) (op : ReaderCall) :
    ∃ kept extra, (r.perform cfg getMissing op).m_proxies = kept ++ extra ∧
      List.Forall₂ ProxyAdvanced r.m_proxies kept ∧
      ∀ q ∈ extra, op = ReaderCall.addNewMatchedWriter q := by
  cases op with
  | newChange c =>
    refine ⟨(r.newChange c).m_proxies, [], by simp [StatefulReader.perform], ?_, by simp⟩
    unfold StatefulReader.newChange
    cases r.m_callback with
    | none => exact forall2_proxyAdvanced_refl _
    | some cb =>
      simp only
      cases hl : StatefulReader.newChangeLoop c r.m_proxies with
      | none => exact forall2_proxyAdvanced_refl _
      | some l' => exact StatefulReader.newChangeLoop_advanced c _ l' hl
  | onNewHeartbeat msg src =>
    refine ⟨(r.onNewHeartbeat cfg getMissing msg src).2.m_proxies, [],
      by simp [StatefulReader.perform], ?_, by simp⟩
    unfold StatefulReader.onNewHeartbeat
    cases hs : StatefulReader.searchWriter src msg.writerId r.m_proxies with
    | none => exact forall2_proxyAdvanced_refl _
    | some t =>
      obtain ⟨before, writer, after⟩ := t
      simp only
      by_cases hc : msg.count.value ≤ writer.hbCount.value
      · rw [if_pos hc]
        exact forall2_proxyAdvanced_refl _
      · rw [if_neg hc]
        simp only
        rw [StatefulReader.searchWriter_some src msg.writerId r.m_proxies before writer after hs]
        exact forall2_proxyAdvanced_split before after writer _ ⟨rfl, Or.inl rfl⟩
  | registerCallback cb callee =>
    refine ⟨r.m_proxies, [], ?_, forall2_proxyAdvanced_refl _, by simp⟩
    cases cb <;> simp [StatefulReader.perform, StatefulReader.registerCallback]
  | addNewMatchedWriter q =>
    obtain ⟨extra, he, hq⟩ := StatefulReader.addNewMatchedWriter_extra r q
    exact ⟨r.m_proxies, extra, he, forall2_proxyAdvanced_refl _,
      fun x hx => by rw [hq x hx]⟩

theorem StatefulReader.perform_SNBound (cfg : Config)
    (getMissing : WriterProxy → SequenceNumber_t → SequenceNumber_t → SequenceNumberSet)
    (r : StatefulReader) (op : ReaderCall) (k : Nat) (hr : r.SNBound (k + 1))
    (hq : ∀ q, op = ReaderCall.addNewMatchedWriter q →
      q.expectedSN.InRange ∧ q.expectedSN.value + k < 2 ^ 63) :
    (r.perform cfg getMissing op).SNBound k := by
  obtain ⟨kept, extra, he, hk, hx⟩ := StatefulReader.perform_proxies cfg getMissing r op
  intro p' hp'
  rw [he] at hp'
  rcases List.mem_append.mp hp' with h | h
  · obtain ⟨p, hp, hadv⟩ := forall2_mem_right hk p' h
    obtain ⟨hrange, hbound⟩ := hr p hp
    rcases hadv.2 with h1 | h1
    · rw [h1]
      exact ⟨hrange, by omega⟩
    · rw [h1]
      have hs := SequenceNumber_t.value_succ p.expectedSN hrange (by omega)
      exact ⟨hs.2, by rw [hs.1]; omega⟩
  · exact hq p' (hx p' h)

theorem StatefulReader.performAll_SNBound (cfg : Config)
    (getMissing : WriterProxy → SequenceNumber_t → SequenceNumber_t → SequenceNumberSet)
    (ops : List ReaderCall) :
    ∀ (r : StatefulReader) (k : Nat), r.SNBound (k + ops.length) →
      (∀ q, ReaderCall.addNewMatchedWriter q ∈ ops →
        q.expectedSN.InRange ∧ q.expectedSN.value + (k + ops.length) < 2 ^ 63) →
      (r.performAll cfg getMissing ops).SNBound k := by
  induction ops with
  | nil =>
    intro r k hr _
    simpa [StatefulReader.performAll] using hr
  | cons op ops ih =>
    intro r k hr hq
    have hstep : (r.perform cfg getMissing op).SNBound (k + ops.length) := by
      apply StatefulReader.perform_SNBound cfg getMissing r op (k + ops.length)
      · intro p hp
        have := hr p hp
        simp only [List.length_cons] at this
        exact ⟨this.1, by omega⟩
      · intro q hop
        have := hq q (by rw [hop]; exact List.mem_cons_self _ _)
        simp only [List.length_cons] at this
        exact ⟨this.1, by omega⟩
    have := ih (r.perform cfg getMissing op) k hstep (fun q hmem => by
      have := hq q (List.mem_cons_of_mem _ hmem)
      simp only [List.length_cons] at this
      exact ⟨this.1, by omega⟩)
    simpa [StatefulReader.performAll] using this

/-- C12 (invariant I4): in any series of `newChange`, `onNewHeartbeat`,
`registerCallback` and `addNewMatchedWriter` calls on a reader, every call
leaves each proxy that was matched before it in place, for the same writer,
with an expectedSN greater than or equal to the one it had before the call,
as long as the sequence numbers stay below 2^63 (the proxies at the start and
the proxies added can each be incremented once per call of the series). -/
theorem expectedSN_never_decreases (cfg : Config)
    (getMissing : WriterProxy → SequenceNumber_t → SequenceNumber_t → SequenceNumberSet)
    (r : StatefulReader) (ops : List ReaderCall)
    (hstart : ∀ p ∈ r.m_proxies,
      p.expectedSN.InRange ∧ p.expectedSN.value + ops.length < 2 ^ 63)
    (hadded : ∀ q, ReaderCall.addNewMatchedWriter q ∈ ops →
      q.expectedSN.InRange ∧ q.expectedSN.value + ops.length < 2 ^ 63) :
    ∀ done op rest, ops = done ++ op :: rest →
      ∀ (i : Nat) (p : WriterProxy),
        (r.performAll cfg getMissing done).m_proxies[i]? = some p →
        ∃ p', ((r.performAll cfg getMissing done).perform cfg getMissing op).m_proxies[i]? =
            some p' ∧
          p'.remoteWriterGuid = p.remoteWriterGuid ∧
          p.expectedSN.value ≤ p'.expectedSN.value := by
  intro done op rest hops i p hp
  have hlen : ops.length = (rest.length + 1) + done.length := by
    rw [hops]
    simp only [List.length_append, List.length_cons]
    omega
  have hinv : (r.performAll cfg getMissing done).SNBound (rest.length + 1) := by
    apply StatefulReader.performAll_SNBound cfg getMissing done r (rest.length + 1)
    · intro x hx
      have := hstart x hx
      exact ⟨this.1, by omega⟩
    · intro q hmem
      have := hadded q (by rw [hops]; exact List.mem_append_left _ hmem)
      exact ⟨this.1, by omega⟩
  obtain ⟨kept, extra, he, hk, _⟩ :=
    StatefulReader.perform_proxies cfg getMissing (r.performAll cfg getMissing done) op
  obtain ⟨p', hp', hadv⟩ := forall2_getElem? hk i p hp
  refine ⟨p', ?_, hadv.1, ?_⟩
  · rw [he]
    exact getElem?_append_of_some kept extra i p' hp'
  · have hmem : p ∈ (r.performAll cfg getMissing done).m_proxies := List.getElem?_mem hp
    obtain ⟨hrange, hbound⟩ := hinv p hmem
    rcases hadv.2 with h1 | h1
    · rw [h1]
    · rw [h1, (SequenceNumber_t.value_succ p.expectedSN hrange (by omega)).1]
      omega

theorem expectedSN_never_decreases_witness :
    (∀ p ∈ sampleReader.m_proxies,
      p.expectedSN.InRange ∧ p.expectedSN.value + sampleCalls.length < 2 ^ 63) ∧
    ∃ p', ((sampleReader.performAll sampleConfig sampleGetMissing []).perform sampleConfig
          sampleGetMissing (ReaderCall.newChange (sampleChange 1))).m_proxies[0]? = some p' ∧
      p'.remoteWriterGuid = sampleProxy.remoteWriterGuid ∧
      sampleProxy.expectedSN.value ≤ p'.expectedSN.value :=
  have hproxy : sampleProxy.expectedSN.InRange ∧
      sampleProxy.expectedSN.value + sampleCalls.length < 2 ^ 63 :=
    ⟨by unfold SequenceNumber_t.InRange; decide, by decide⟩
  have hstart : ∀ p ∈ sampleReader.m_proxies,
      p.expectedSN.InRange ∧ p.expectedSN.value + sampleCalls.length < 2 ^ 63 := by
    intro p hp
    have hp' : p = sampleProxy := by simpa [sampleReader] using hp
    rw [hp']
    exact hproxy
  have hadded : ∀ q, ReaderCall.addNewMatchedWriter q ∈ sampleCalls →
      q.expectedSN.InRange ∧ q.expectedSN.value + sampleCalls.length < 2 ^ 63 := by
    intro q hq
    have hq' : q = sampleProxy := by simpa [sampleCalls] using hq
    rw [hq']
    exact hproxy
  ⟨hstart, expectedSN_never_decreases sampleConfig sampleGetMissing sampleReader sampleCalls
    hstart hadded [] (ReaderCall.newChange (sampleChange 1))
    [ReaderCall.onNewHeartbeat (sampleHeartbeat 1) sampleRemotePrefix,
     ReaderCall.registerCallback none none,
     ReaderCall.addNewMatchedWriter sampleProxy] rfl 0 sampleProxy rfl⟩

/-! ## SPDPAgent: the announced parameter list -/

theorem ucdrBuffer.put_filled (e : ucdrEndianness) (array written bytes : List Nat)
    (last data_size : Nat) (hroom : written.length + bytes.length ≤ array.length)
    (halign : data_size ≤ last ∨ written.length % data_size = 0) :
    (ucdrBuffer.filled e array written last).put data_size bytes =
      ucdrBuffer.filled e array (written ++ bytes) data_size := by
  have ha : ucdr_buffer_alignment (ucdrBuffer.filled e array written last) data_size = 0 := by
    unfold ucdr_buffer_alignment ucdrBuffer.filled
    simp only
    rcases halign with h | h
    · rw [if_neg (by omega)]
    · rw [h]
      split <;> simp
  unfold ucdrBuffer.put
  rw [ha]
  simp only [ucdrBuffer.filled, Bool.false_eq_true, if_false, List.length_drop, Nat.zero_add,
    List.take_zero, List.append_nil, List.drop_drop, List.length_append]
  rw [if_pos (by omega)]

theorem ucdrBuffer.advance_filled (e : ucdrEndianness) (array written : List Nat)
    (last n : Nat) (hroom : written.length + n ≤ array.length) :
    (ucdrBuffer.filled e array written last).advance n =
      ucdrBuffer.filled e array (written ++ (array.drop written.length).take n) last := by
  unfold ucdrBuffer.advance ucdrBuffer.filled
  simp only [List.drop_drop, List.length_append, List.length_take, List.length_drop,
    ucdrBuffer.mk.injEq, true_and, and_true]
  congr 1
  omega

theorem ucdr_init_buffer_filled (cfg : Config) (array : List Nat)
    (hhost : cfg.IS_LITTLE_ENDIAN = true) :
    ucdr_init_buffer cfg array =
      ucdrBuffer.filled ucdrEndianness.UCDR_LITTLE_ENDIANNESS array [] 0 := by
  simp [ucdr_init_buffer, ucdrBuffer.filled, hhost]

theorem ucdrBuffer.filled_endianness (e : ucdrEndianness) (array written : List Nat)
    (last : Nat) : (ucdrBuffer.filled e array written last).endianness = e := rfl

theorem ucdrBuffer.filled_last (e : ucdrEndianness) (array written : List Nat)
    (last last' : Nat) :
    { ucdrBuffer.filled e array written last with last_data_size := last' } =
      ucdrBuffer.filled e array written last' := rfl

theorem Locator.objectBytes_length (cfg : Config) (l : Locator) (h : l.address.length = 16) :
    (l.objectBytes cfg).length = 24 := by
  unfold Locator.objectBytes encodeBytes
  cases cfg.IS_LITTLE_ENDIAN <;> simp [littleEndianBytes, h]

theorem ucdr_serialize_array_uint8_t_filled (array written bytes : List Nat) (last : Nat)
    (hroom : written.length + bytes.length ≤ array.length) :
    ucdr_serialize_array_uint8_t
        (ucdrBuffer.filled ucdrEndianness.UCDR_LITTLE_ENDIANNESS array written last) bytes =
      ucdrBuffer.filled ucdrEndianness.UCDR_LITTLE_ENDIANNESS array (written ++ bytes) 1 :=
  ucdrBuffer.put_filled _ array written bytes last 1 hroom (Or.inr (Nat.mod_one _))

theorem ucdr_serialize_uint8_t_filled (array written : List Nat) (last v : Nat)
    (hroom : written.length + 1 ≤ array.length) :
    ucdr_serialize_uint8_t
        (ucdrBuffer.filled ucdrEndianness.UCDR_LITTLE_ENDIANNESS array written last) v =
      ucdrBuffer.filled ucdrEndianness.UCDR_LITTLE_ENDIANNESS array
        (written ++ littleEndianBytes 1 v) 1 :=
  ucdrBuffer.put_filled _ array written _ last 1 hroom (Or.inr (Nat.mod_one _))

theorem ucdr_serialize_uint16_t_filled (array written : List Nat) (last v : Nat)
    (hroom : written.length + 2 ≤ array.length)
    (halign : 2 ≤ last ∨ written.length % 2 = 0) :
    ucdr_serialize_uint16_t
        (ucdrBuffer.filled ucdrEndianness.UCDR_LITTLE_ENDIANNESS array written last) v =
      ucdrBuffer.filled ucdrEndianness.UCDR_LITTLE_ENDIANNESS array
        (written ++ littleEndianBytes 2 v) 2 :=
  ucdrBuffer.put_filled _ array written _ last 2 hroom halign

theorem ucdr_serialize_uint32_t_filled (array written : List Nat) (last v : Nat)
    (hroom : written.length + 4 ≤ array.length)
    (halign : 4 ≤ last ∨ written.length % 4 = 0) :
    ucdr_serialize_uint32_t
        (ucdrBuffer.filled ucdrEndianness.UCDR_LITTLE_ENDIANNESS array written last) v =
      ucdrBuffer.filled ucdrEndianness.UCDR_LITTLE_ENDIANNESS array
        (written ++ littleEndianBytes 4 v) 4 :=
  ucdrBuffer.put_filled _ array written _ last 4 hroom halign

theorem ucdr_serialize_int32_t_filled (array written : List Nat) (last : Nat) (v : Int)
    (hroom : written.length + 4 ≤ array.length)
    (halign : 4 ≤ last ∨ written.length % 4 = 0) :
    ucdr_serialize_int32_t
        (ucdrBuffer.filled ucdrEndianness.UCDR_LITTLE_ENDIANNESS array written last) v =
      ucdrBuffer.filled ucdrEndianness.UCDR_LITTLE_ENDIANNESS array
        (written ++ littleEndianBytes 4 (v % 2 ^ 32).toNat) 4 :=
  ucdrBuffer.put_filled _ array written _ last 4 hroom halign

theorem littleEndianBytes_length (size v : Nat) : (littleEndianBytes size v).length = size := by
  induction size generalizing v with
  | zero => rfl
  | succ n ih => simp [littleEndianBytes, ih]

theorem PL_CDR.walk_parameter (fuel pid : Nat) (value rest : List Nat)
    (hpid : pid < 65536) (hne : pid ≠ PID_SENTINEL) (hlen : value.length < 65536) :
    PL_CDR.walk (fuel + 1) (PL_CDR.parameter pid value ++ rest) =
      match PL_CDR.walk fuel rest with
      | some visited => some ((pid, value.length) :: visited)
      | none => none := by
  have h1 : pid % 256 + 256 * (pid / 256 % 256) = pid := by omega
  have h2 : value.length % 256 + 256 * (value.length / 256 % 256) = value.length := by omega
  simp only [PL_CDR.parameter, littleEndianBytes, List.cons_append, List.nil_append,
    List.append_assoc, PL_CDR.walk, h1, h2, if_neg hne]
  simp

theorem PL_CDR.walk_encode (parameters : List (Nat × List Nat)) :
    ∀ fuel, parameters.length < fuel →
      (∀ q ∈ parameters, q.1 < 65536 ∧ q.1 ≠ PID_SENTINEL ∧ q.2.length < 65536) →
      PL_CDR.walk fuel ((parameters.map (fun q => PL_CDR.parameter q.1 q.2)).flatten ++
          PL_CDR.parameter PID_SENTINEL []) =
        some (parameters.map (fun q => (q.1, q.2.length))) := by
  induction parameters with
  | nil =>
    intro fuel hf _
    cases fuel with
    | zero => omega
    | succ n => rfl
  | cons q qs ih =>
    intro fuel hf hq
    cases fuel with
    | zero => omega
    | succ n =>
      have hq1 := hq q (List.mem_cons_self _ _)
      simp only [List.map_cons, List.flatten_cons, List.append_assoc]
      rw [PL_CDR.walk_parameter n q.1 q.2 _ hq1.1 hq1.2.1 hq1.2.2,
        ih n (by simp only [List.length_cons] at hf; omega)
          (fun x hx => hq x (List.mem_cons_of_mem _ hx))]

theorem SPDPAgent.initOutput_eq (cfg : Config) (settings : SPDPSettings)
    (mp_participant : Participant) (array : List Nat)
    (hhost : cfg.IS_LITTLE_ENDIAN = true)
    (hvendor : cfg.VENDOR_ID.vendorId.length = 2)
    (hpid12 : mp_participant.m_guidPrefix.id.length = 12)
    (huser : (settings.getUserUnicastLocator mp_participant.m_participantId).address.length = 16)
    (hbuiltin :
      (settings.getBuiltInUnicastLocator mp_participant.m_participantId).address.length = 16)
    (hmulti : settings.getBuiltInMulticastLocator.address.length = 16)
    (hsize : 148 ≤ array.length) :
    SPDPAgent.initOutput cfg settings mp_participant array =
      ucdrBuffer.filled ucdrEndianness.UCDR_LITTLE_ENDIANNESS array
        (PL_CDR.encode (SPDPAgent.announcedParameters cfg settings mp_participant array)) 2 := by
  have hu := Locator.objectBytes_length cfg _ huser
  have hb := Locator.objectBytes_length cfg _ hbuiltin
  have hm := Locator.objectBytes_length cfg _ hmulti
  have h10 : min 2 (array.length - 10) = 2 := by omega
  have h18 : min 2 (array.length - 18) = 2 := by omega
  unfold SPDPAgent.initOutput SPDPAgent.addParticipantParameters SPDPAgent.endCurrentList
  rw [ucdr_init_buffer_filled cfg array hhost]
  simp (disch := first
      | omega
      | (simp only [List.length_append, List.length_cons, List.length_nil,
          List.length_take, List.length_drop, littleEndianBytes_length, hvendor, hpid12, hu,
          hb, hm, ENTITYID_BUILD_IN_PARTICIPANT, SCHEME_PL_CDR_LE] <;> first | omega | simp))
    only [ucdr_serialize_array_uint8_t_filled, ucdr_serialize_uint16_t_filled,
      ucdr_serialize_uint8_t_filled, ucdr_serialize_uint32_t_filled,
      ucdr_serialize_int32_t_filled, ucdrBuffer.filled_last, ucdrBuffer.advance_filled]
  have hbits : DISC_BIE_PARTICIPANT_ANNOUNCER ||| DISC_BIE_PARTICIPANT_DETECTOR |||
      DISC_BIE_PUBLICATION_ANNOUNCER ||| DISC_BIE_PUBLICATION_DETECTOR |||
      DISC_BIE_SUBSCRIPTION_ANNOUNCER ||| DISC_BIE_SUBSCRIPTION_DETECTOR = 63 := by decide
  have le1 : ∀ v, littleEndianBytes 1 v = [v % 256] := fun _ => rfl
  have le2 : ∀ v, littleEndianBytes 2 v = [v % 256, v / 256 % 256] := fun _ => rfl
  unfold PL_CDR.encode SPDPAgent.announcedParameters
  simp only [List.map_cons, List.map_nil, List.flatten_cons, List.flatten_nil, PL_CDR.parameter,
    List.length_append, List.length_cons, List.length_nil, List.length_take, List.length_drop,
    littleEndianBytes_length, hvendor, hpid12, hu, hb, hm, hbits, SCHEME_PL_CDR_LE,
    PROTOCOLVERSION, sizeof_Locator, sizeof_BuildInEndpointSet, ENTITYID_BUILD_IN_PARTICIPANT,
    EntityKind_t.toUInt8, Nat.reduceAdd, h10, h18, le1, le2, Nat.reduceMod, Nat.reduceDiv,
    List.append_assoc, List.cons_append, List.nil_append, List.append_nil]

theorem SPDPAgent.announcedParameters_lengths (cfg : Config) (settings : SPDPSettings)
    (mp_participant : Participant) (array : List Nat)
    (hvendor : cfg.VENDOR_ID.vendorId.length = 2)
    (hpid12 : mp_participant.m_guidPrefix.id.length = 12)
    (huser : (settings.getUserUnicastLocator mp_participant.m_participantId).address.length = 16)
    (hbuiltin :
      (settings.getBuiltInUnicastLocator mp_participant.m_participantId).address.length = 16)
    (hmulti : settings.getBuiltInMulticastLocator.address.length = 16)
    (hsize : 148 ≤ array.length) :
    (SPDPAgent.announcedParameters cfg settings mp_participant array).map
        (fun q => (q.1, q.2.length)) =
      [(PID_PROTOCOL_VERSION, 4), (PID_VENDORID, 4), (PID_DEFAULT_UNICAST_LOCATOR, 24),
       (PID_METATRAFFIC_UNICAST_LOCATOR, 24), (PID_METATRAFFIC_MULTICAST_LOCATOR, 24),
       (PID_PARTICIPANT_LEASE_DURATION, 8), (PID_PARTICIPANT_GUID, 16),
       (PID_BUILTIN_ENDPOINT_SET, 4)] := by
  have hu := Locator.objectBytes_length cfg _ huser
  have hb := Locator.objectBytes_length cfg _ hbuiltin
  have hm := Locator.objectBytes_length cfg _ hmulti
  have h10 : min 2 (array.length - 10) = 2 := by omega
  have h18 : min 2 (array.length - 18) = 2 := by omega
  simp only [SPDPAgent.announcedParameters, List.map_cons, List.map_nil, List.length_append,
    List.length_cons, List.length_nil, List.length_take, List.length_drop,
    littleEndianBytes_length, hvendor, hpid12, hu, hb, hm, h10, h18, Nat.reduceAdd]

/-- C14: on a little-endian host, with an output array of at least 148 bytes,
the bytes `addParticipantParameters` leaves in the output buffer are a
well-formed little-endian parameter list: SCHEME_PL_CDR_LE and two zero option
bytes; then PID_PROTOCOL_VERSION, PID_VENDORID, PID_DEFAULT_UNICAST_LOCATOR,
PID_METATRAFFIC_UNICAST_LOCATOR, PID_METATRAFFIC_MULTICAST_LOCATOR,
PID_PARTICIPANT_LEASE_DURATION, PID_PARTICIPANT_GUID, PID_BUILTIN_ENDPOINT_SET
in this order, each as (id, length, value) with the length (4, 4, 24, 24, 24,
8, 16, 4: multiples of 4) equal to the number of value bytes, padding
included; walking the list from offset 4 by (id, length) visits exactly these
parameters and ends on PID_SENTINEL with length 0, the last 4 of the 148
bytes. -/
theorem addParticipantParameters_well_formed (cfg : Config) (settings : SPDPSettings)
    (mp_participant : Participant) (m_outputBuffer : List Nat)
    (hhost : cfg.IS_LITTLE_ENDIAN = true)
    (hvendor : cfg.VENDOR_ID.vendorId.length = 2)
    (hpid12 : mp_participant.m_guidPrefix.id.length = 12)
    (huser : (settings.getUserUnicastLocator mp_participant.m_participantId).address.length = 16)
    (hbuiltin :
      (settings.getBuiltInUnicastLocator mp_participant.m_participantId).address.length = 16)
    (hmulti : settings.getBuiltInMulticastLocator.address.length = 16)
    (hsize : 148 ≤ m_outputBuffer.length) :
    (SPDPAgent.initOutput cfg settings mp_participant m_outputBuffer).error = false ∧
    ucdr_buffer_length (SPDPAgent.initOutput cfg settings mp_participant m_outputBuffer) = 148 ∧
    (SPDPAgent.initOutput cfg settings mp_participant m_outputBuffer).consumed =
      PL_CDR.encode
        (SPDPAgent.announcedParameters cfg settings mp_participant m_outputBuffer) ∧
    (SPDPAgent.initOutput cfg settings mp_participant m_outputBuffer).consumed.take 4 =
      [0x00, 0x03, 0x00, 0x00] ∧
    (SPDPAgent.announcedParameters cfg settings mp_participant m_outputBuffer).map
        (fun q => (q.1, q.2.length)) =
      [(PID_PROTOCOL_VERSION, 4), (PID_VENDORID, 4), (PID_DEFAULT_UNICAST_LOCATOR, 24),
       (PID_METATRAFFIC_UNICAST_LOCATOR, 24), (PID_METATRAFFIC_MULTICAST_LOCATOR, 24),
       (PID_PARTICIPANT_LEASE_DURATION, 8), (PID_PARTICIPANT_GUID, 16),
       (PID_BUILTIN_ENDPOINT_SET, 4)] ∧
    PL_CDR.walk 9
        ((SPDPAgent.initOutput cfg settings mp_participant m_outputBuffer).consumed.drop 4) =
      some
        [(PID_PROTOCOL_VERSION, 4), (PID_VENDORID, 4), (PID_DEFAULT_UNICAST_LOCATOR, 24),
         (PID_METATRAFFIC_UNICAST_LOCATOR, 24), (PID_METATRAFFIC_MULTICAST_LOCATOR, 24),
         (PID_PARTICIPANT_LEASE_DURATION, 8), (PID_PARTICIPANT_GUID, 16),
         (PID_BUILTIN_ENDPOINT_SET, 4)] ∧
    (SPDPAgent.initOutput cfg settings mp_participant m_outputBuffer).consumed.drop 144 =
      [0x01, 0x00, 0x00, 0x00] := by
  have heq := SPDPAgent.initOutput_eq cfg settings mp_participant m_outputBuffer hhost hvendor
    hpid12 huser hbuiltin hmulti hsize
  have hlens := SPDPAgent.announcedParameters_lengths cfg settings mp_participant
    m_outputBuffer hvendor hpid12 huser hbuiltin hmulti hsize
  have hplen : ∀ (pid : Nat) (v : List Nat), (PL_CDR.parameter pid v).length = 4 + v.length := by
    intro pid v
    simp only [PL_CDR.parameter, List.length_append, littleEndianBytes_length, Nat.reduceAdd]
  have hparamLen : ∀ (ps : List (Nat × List Nat)),
      ((ps.map (fun q => PL_CDR.parameter q.1 q.2)).flatten).length =
        ((ps.map (fun q => (q.1, q.2.length))).map (fun t => 4 + t.2)).sum := by
    intro ps
    induction ps with
    | nil => rfl
    | cons q qs ih =>
      simp only [List.map_cons, List.flatten_cons, List.length_append, List.sum_cons, ih,
        hplen]
  have hbody : ((SPDPAgent.announcedParameters cfg settings mp_participant m_outputBuffer).map
      (fun q => PL_CDR.parameter q.1 q.2)).flatten.length = 140 := by
    rw [hparamLen, hlens]
    rfl
  have hcons : (SPDPAgent.initOutput cfg settings mp_participant m_outputBuffer).consumed =
      PL_CDR.encode (SPDPAgent.announcedParameters cfg settings mp_participant m_outputBuffer) := by
    rw [heq]
    rfl
  have hwalk := PL_CDR.walk_encode
    (SPDPAgent.announcedParameters cfg settings mp_participant m_outputBuffer) 9
    (by
      have := congrArg List.length hlens
      simp only [List.length_map, List.length_cons, List.length_nil] at this
      omega)
    (by
      intro q hq
      have hmem : (q.1, q.2.length) ∈
          (SPDPAgent.announcedParameters cfg settings mp_participant m_outputBuffer).map
            (fun q => (q.1, q.2.length)) := List.mem_map_of_mem _ hq
      rw [hlens] at hmem
      simp only [List.mem_cons, Prod.mk.injEq, List.mem_nil_iff, or_false] at hmem
      rcases hmem with h | h | h | h | h | h | h | h <;>
        (obtain ⟨h1, h2⟩ := h
         rw [h1, h2]
         decide))
  refine ⟨by rw [heq]; rfl, ?_, hcons, ?_, hlens, ?_, ?_⟩
  · rw [ucdr_buffer_length, hcons]
    simp only [PL_CDR.encode, List.length_append, hbody, hplen, SCHEME_PL_CDR_LE,
      List.length_cons, List.length_nil]
  · rw [hcons]
    simp [PL_CDR.encode, SCHEME_PL_CDR_LE]
  · rw [hcons, ← hlens, ← hwalk]
    simp [PL_CDR.encode, SCHEME_PL_CDR_LE]
  · rw [hcons]
    unfold PL_CDR.encode
    rw [List.drop_left' (by
      simp only [List.length_append, hbody, SCHEME_PL_CDR_LE, List.length_cons,
        List.length_nil])]
    rfl

theorem addParticipantParameters_well_formed_witness :
    sampleConfig.IS_LITTLE_ENDIAN = true ∧ 148 ≤ sampleOutputArray.length ∧
    ucdr_buffer_length
      (SPDPAgent.initOutput sampleConfig sampleSettings sampleParticipant sampleOutputArray) =
      148 ∧
    PL_CDR.walk 9
        ((SPDPAgent.initOutput sampleConfig sampleSettings sampleParticipant
          sampleOutputArray).consumed.drop 4) =
      some
        [(PID_PROTOCOL_VERSION, 4), (PID_VENDORID, 4), (PID_DEFAULT_UNICAST_LOCATOR, 24),
         (PID_METATRAFFIC_UNICAST_LOCATOR, 24), (PID_METATRAFFIC_MULTICAST_LOCATOR, 24),
         (PID_PARTICIPANT_LEASE_DURATION, 8), (PID_PARTICIPANT_GUID, 16),
         (PID_BUILTIN_ENDPOINT_SET, 4)] ∧
    (SPDPAgent.initOutput sampleConfig sampleSettings sampleParticipant
      sampleOutputArray).consumed.drop 144 = [0x01, 0x00, 0x00, 0x00] :=
  have hsize : 148 ≤ sampleOutputArray.length := by
    rw [sampleOutputArray, List.length_replicate]
    omega
  have h := addParticipantParameters_well_formed sampleConfig sampleSettings sampleParticipant
    sampleOutputArray rfl rfl rfl rfl rfl rfl hsize
  ⟨rfl, hsize, h.2.1, h.2.2.2.2.2.1, h.2.2.2.2.2.2⟩

/-! ## SPDPAgent: bad input -/

/-- C21: when the agent is not initialized, or the change's payload is larger
than the input array, or copying the payload fails, or the change kind is not
ALIVE, or parsing the participant data fails, `handleSPDPPackage` leaves the
participant (and so the remote-participant table) and all built-in endpoints
(their proxies, and the SPDP writer, whose changes are not marked unsent)
unchanged. -/
theorem handleSPDPPackage_bad_input (cfg : Config) (isSameSubnet : Locator → Bool)
    (copyInto : ReaderCacheChange → List Nat → Bool × List Nat)
    (readFromUcdrBuffer : ParticipantProxyData → ucdrBuffer → Bool × ParticipantProxyData)
    (a : SPDPAgent) (m_inputBuffer : List Nat) (cacheChange : ReaderCacheChange)
    (hbad : a.initialized = false ∨
      cacheChange.data.length > m_inputBuffer.length ∨
      (copyInto cacheChange m_inputBuffer).1 = false ∨
      cacheChange.kind ≠ ChangeKind_t.ALIVE ∨
      (readFromUcdrBuffer a.m_proxyDataBuffer
        (SPDPAgent.configureEndianessAndOptions
          (ucdr_init_buffer cfg (copyInto cacheChange m_inputBuffer).2))).1 = false) :
    (SPDPAgent.handleSPDPPackage cfg isSameSubnet copyInto readFromUcdrBuffer a m_inputBuffer
      cacheChange).1.mp_participant = a.mp_participant ∧
    (SPDPAgent.handleSPDPPackage cfg isSameSubnet copyInto readFromUcdrBuffer a m_inputBuffer
      cacheChange).1.m_buildInEndpoints = a.m_buildInEndpoints := by
  unfold SPDPAgent.handleSPDPPackage
  by_cases h1 : a.initialized = false
  · simp [h1]
  · have h1' : a.initialized = true := by simpa using h1
    by_cases h2 : cacheChange.data.length > m_inputBuffer.length
    · simp [h1', h2]
    · by_cases h3 : (copyInto cacheChange m_inputBuffer).1 = false
      · simp [h1', h2, h3]
      · have h3' : (copyInto cacheChange m_inputBuffer).1 = true := by simpa using h3
        by_cases h4 : cacheChange.kind = ChangeKind_t.ALIVE
        · by_cases h5 : (readFromUcdrBuffer a.m_proxyDataBuffer
              (SPDPAgent.configureEndianessAndOptions
                (ucdr_init_buffer cfg (copyInto cacheChange m_inputBuffer).2))).1 = false
          · simp [h1', h2, h3', h4, h5]
          · rcases hbad with h | h | h | h | h
            · exact absurd h h1
            · exact absurd h h2
            · exact absurd h h3
            · exact absurd h4 h
            · exact absurd h h5
        · simp [h1', h2, h3', h4]

theorem handleSPDPPackage_bad_input_witness :
    (SPDPAgent.handleSPDPPackage sampleConfig sampleSameSubnet sampleCopyInto sampleReadFails
      (sampleAgent [] (sampleAnnouncement sampleRemotePrefix [sampleLocator]))
      (List.replicate 8 0)
      { sampleChange 1 with data := [0x00, 0x03, 0x00, 0x00, 0x01, 0x00, 0x00, 0x00] }
      ).1.mp_participant =
      (sampleAgent [] (sampleAnnouncement sampleRemotePrefix [sampleLocator])).mp_participant ∧
    (SPDPAgent.handleSPDPPackage sampleConfig sampleSameSubnet sampleCopyInto sampleReadFails
      (sampleAgent [] (sampleAnnouncement sampleRemotePrefix [sampleLocator]))
      (List.replicate 8 0)
      { sampleChange 1 with data := [0x00, 0x03, 0x00, 0x00, 0x01, 0x00, 0x00, 0x00] }
      ).1.m_buildInEndpoints =
      (sampleAgent [] (sampleAnnouncement sampleRemotePrefix
        [sampleLocator])).m_buildInEndpoints :=
  handleSPDPPackage_bad_input sampleConfig sampleSameSubnet sampleCopyInto sampleReadFails
    (sampleAgent [] (sampleAnnouncement sampleRemotePrefix [sampleLocator]))
    (List.replicate 8 0)
    { sampleChange 1 with data := [0x00, 0x03, 0x00, 0x00, 0x01, 0x00, 0x00, 0x00] }
    (Or.inr (Or.inr (Or.inr (Or.inr rfl))))

end rtps
